import Mathlib

/-!
# Nautilus properties window: a shallow embedding

The definitions below follow `src/nautilus-properties-window.c`.  A
`NautilusFile *` is a pointer, so a file is a natural number (its address) and
`g_list_find`, `g_list_index` and the direct hash tables compare files by that
number.  Everything the C code asks the file / VFS layer (libnautilus-private,
GIO), which is outside this source file, is read from a `FileEnv`.

`GList`s are Lean lists, `guint32` values are naturals reduced modulo `2 ^ 32`
where the C code can produce a carry or a complement, and the calls a function
makes to the outside (`nautilus_file_set_permissions`, `gtk_window_present`,
`g_timeout_add`, ...) are returned as data.
-/

namespace Nautilus

/-! ## Files and the file layer -/

/-- A `NautilusFile *`: files are compared by pointer. -/
abbrev NautilusFile := Nat

/-- Result of `nautilus_file_get_deep_counts`. -/
structure DeepCounts where
  /-- Whether the request status is `NAUTILUS_REQUEST_DONE`. -/
  done : Bool := true
  directory_count : Nat := 0
  file_count : Nat := 0
  unreadable_directory_count : Nat := 0
  total_size : Nat := 0
  deriving DecidableEq, Repr

/-- The answers of the file layer (libnautilus-private and GIO) at one moment.
None of these functions is defined in the properties window itself. -/
structure FileEnv where
  /-- The function `nautilus_file_is_gone`. -/
  is_gone : NautilusFile → Bool := fun _ => false
  /-- The function `nautilus_file_is_directory`. -/
  is_directory : NautilusFile → Bool := fun _ => false
  /-- The function `nautilus_file_can_get_permissions`. -/
  can_get_permissions : NautilusFile → Bool := fun _ => true
  /-- The function `nautilus_file_can_set_permissions`. -/
  can_set_permissions : NautilusFile → Bool := fun _ => true
  /-- The mode bits behind `nautilus_file_get_permissions`. -/
  permissions : NautilusFile → Nat := fun _ => 0
  /-- The function `nautilus_file_get_uri`. -/
  uri : NautilusFile → String := fun _ => ""
  /-- The function `nautilus_file_get_string_attribute_with_default`, which never
  returns NULL. -/
  string_attribute_with_default : NautilusFile → String → String := fun _ _ => ""
  /-- The path elements of `nautilus_file_get_location`. -/
  location : NautilusFile → List String := fun _ => []
  /-- The function `nautilus_file_get_deep_counts`. -/
  deep_counts : NautilusFile → DeepCounts := fun _ => {}
  /-- The function `nautilus_file_get_size`. -/
  size : NautilusFile → Nat := fun _ => 0
  /-- The function `nautilus_file_get_group_name`. -/
  group_name : NautilusFile → String := fun _ => ""
  /-- Whether `NAUTILUS_IS_DESKTOP_ICON_FILE` holds. -/
  is_desktop_icon_file : NautilusFile → Bool := fun _ => false
  /-- For a desktop icon file: the file at the activation location of its link,
  when the link and the location both exist. -/
  desktop_link_target : NautilusFile → Option NautilusFile := fun _ => none
  /-- The file `nautilus_file_get_by_uri` gives for the activation URI, when
  `nautilus_file_get_activation_uri` is not NULL. -/
  activation_target : NautilusFile → Option NautilusFile := fun _ => none
  /-- The function `nautilus_file_get_display_name`. -/
  display_name : NautilusFile → String := fun _ => ""
  /-- The function `nautilus_file_can_rename`. -/
  can_rename : NautilusFile → Bool := fun _ => true
  /-- The function `nautilus_file_is_mime_type`. -/
  is_mime_type : NautilusFile → String → Bool := fun _ _ => false
  /-- The function `g_filename_from_uri`: the local path of a URI, `none` for NULL. -/
  filename_from_uri : String → Option String := fun _ => none
  /-- The result of `nautilus_link_local_set_icon (uri, icon)`. -/
  link_local_set_icon : String → String → Bool := fun _ _ => true
  /-- Whether `gdk_pixbuf_new_from_file` loads an image from the path. -/
  pixbuf_new_from_file : String → Bool := fun _ => false
  /-- Whether `g_file_is_native` holds for the `GFile` of the URI. -/
  uri_is_native : String → Bool := fun _ => true
  /-- What `g_file_query_filesystem_info` yields for the activation URI of the file:
  `none` when it fails, else the attributes `filesystem::size`, `filesystem::free`
  and, when the info has it, `filesystem::used`. -/
  filesystem_info : NautilusFile → Option (Nat × Nat × Option Nat) := fun _ => none
  /-- The function `nautilus_file_get_owner_name`. -/
  owner_name : NautilusFile → String := fun _ => ""
  /-- The function `nautilus_file_is_in_recent`. -/
  is_in_recent : NautilusFile → Bool := fun _ => false
  /-- The function `nautilus_file_can_unmount`. -/
  can_unmount : NautilusFile → Bool := fun _ => false
  /-- The function `nautilus_file_is_symbolic_link`. -/
  is_symbolic_link : NautilusFile → Bool := fun _ => false
  /-- The function `nautilus_is_root_directory` on the location of the file. -/
  is_root_directory : NautilusFile → Bool := fun _ => false

/-! ## Value fields: one string for many files -/

/-- Loop of `file_list_attributes_identical`: `first_attr` is `none` while the C
variable is NULL; a differing attribute clears `identical` and breaks. -/
def file_list_attributes_identical_loop (env : FileEnv) (attribute_name : String) :
    List NautilusFile → Option String → Bool
  | [], _ => true
  | file :: l, first_attr =>
    if env.is_gone file then
      file_list_attributes_identical_loop env attribute_name l first_attr
    else
      match first_attr with
      | none =>
        file_list_attributes_identical_loop env attribute_name l
          (some (env.string_attribute_with_default file attribute_name))
      | some fa =>
        if env.string_attribute_with_default file attribute_name ≠ fa then false
        else file_list_attributes_identical_loop env attribute_name l (some fa)

/-- The function `file_list_attributes_identical`. -/
def file_list_attributes_identical (env : FileEnv) (file_list : List NautilusFile)
    (attribute_name : String) : Bool :=
  file_list_attributes_identical_loop env attribute_name file_list none

/-- Second loop of `file_list_get_string_attribute`: the attribute of the first
file that is not gone, or `"unknown"`. -/
def first_not_gone_attribute (env : FileEnv) (attribute_name : String) :
    List NautilusFile → String
  | [] => "unknown"
  | file :: l =>
    if !env.is_gone file then env.string_attribute_with_default file attribute_name
    else first_not_gone_attribute env attribute_name l

/-- The function `file_list_get_string_attribute`. -/
def file_list_get_string_attribute (env : FileEnv) (file_list : List NautilusFile)
    (attribute_name : String) (inconsistent_value : String) : String :=
  if file_list_attributes_identical env file_list attribute_name then
    first_not_gone_attribute env attribute_name file_list
  else
    inconsistent_value

/-! ## Permission bits -/

/-- The constant `UNIX_PERM_SUID` (`S_ISUID`). -/
def UNIX_PERM_SUID : Nat := 0o4000
/-- The constant `UNIX_PERM_SGID` (`S_ISGID`). -/
def UNIX_PERM_SGID : Nat := 0o2000
/-- The constant `UNIX_PERM_STICKY`. -/
def UNIX_PERM_STICKY : Nat := 0o1000
/-- The constant `UNIX_PERM_USER_READ` (`S_IRUSR`). -/
def UNIX_PERM_USER_READ : Nat := 0o400
/-- The constant `UNIX_PERM_USER_WRITE` (`S_IWUSR`). -/
def UNIX_PERM_USER_WRITE : Nat := 0o200
/-- The constant `UNIX_PERM_USER_EXEC` (`S_IXUSR`). -/
def UNIX_PERM_USER_EXEC : Nat := 0o100
/-- The constant `UNIX_PERM_GROUP_READ` (`S_IRGRP`). -/
def UNIX_PERM_GROUP_READ : Nat := 0o40
/-- The constant `UNIX_PERM_GROUP_WRITE` (`S_IWGRP`). -/
def UNIX_PERM_GROUP_WRITE : Nat := 0o20
/-- The constant `UNIX_PERM_GROUP_EXEC` (`S_IXGRP`). -/
def UNIX_PERM_GROUP_EXEC : Nat := 0o10
/-- The constant `UNIX_PERM_OTHER_READ` (`S_IROTH`). -/
def UNIX_PERM_OTHER_READ : Nat := 0o4
/-- The constant `UNIX_PERM_OTHER_WRITE` (`S_IWOTH`). -/
def UNIX_PERM_OTHER_WRITE : Nat := 0o2
/-- The constant `UNIX_PERM_OTHER_EXEC` (`S_IXOTH`). -/
def UNIX_PERM_OTHER_EXEC : Nat := 0o1

/-- The enumerator `PERMISSION_READ` of `PermissionValue`. -/
def PERMISSION_READ : Nat := 1
/-- The enumerator `PERMISSION_WRITE` of `PermissionValue`. -/
def PERMISSION_WRITE : Nat := 2
/-- The enumerator `PERMISSION_EXEC` of `PermissionValue`. -/
def PERMISSION_EXEC : Nat := 4

/-- The enum `PermissionType`; `g_assert (type >= 0 && type < 3)` holds for each
of its values. -/
inductive PermissionType where
  | PERMISSION_USER
  | PERMISSION_GROUP
  | PERMISSION_OTHER
  deriving DecidableEq, Repr

open PermissionType

/-- The table `vfs_perms[3][3]`; the column is 0, 1 or 2. -/
def vfs_perms : PermissionType → Nat → Nat
  | PERMISSION_USER, 0 => UNIX_PERM_USER_READ
  | PERMISSION_USER, 1 => UNIX_PERM_USER_WRITE
  | PERMISSION_USER, _ => UNIX_PERM_USER_EXEC
  | PERMISSION_GROUP, 0 => UNIX_PERM_GROUP_READ
  | PERMISSION_GROUP, 1 => UNIX_PERM_GROUP_WRITE
  | PERMISSION_GROUP, _ => UNIX_PERM_GROUP_EXEC
  | PERMISSION_OTHER, 0 => UNIX_PERM_OTHER_READ
  | PERMISSION_OTHER, 1 => UNIX_PERM_OTHER_WRITE
  | PERMISSION_OTHER, _ => UNIX_PERM_OTHER_EXEC

/-- The function `permission_to_vfs`. -/
def permission_to_vfs (type : PermissionType) (perm : Nat) : Nat :=
  let vfs_perm := 0
  let vfs_perm := if perm &&& PERMISSION_READ ≠ 0 then vfs_perm ||| vfs_perms type 0 else vfs_perm
  let vfs_perm := if perm &&& PERMISSION_WRITE ≠ 0 then vfs_perm ||| vfs_perms type 1 else vfs_perm
  let vfs_perm := if perm &&& PERMISSION_EXEC ≠ 0 then vfs_perm ||| vfs_perms type 2 else vfs_perm
  vfs_perm

/-- The function `permission_from_vfs`. -/
def permission_from_vfs (type : PermissionType) (vfs_perm : Nat) : Nat :=
  let perm := 0
  let perm := if vfs_perm &&& vfs_perms type 0 ≠ 0 then perm ||| PERMISSION_READ else perm
  let perm := if vfs_perm &&& vfs_perms type 1 ≠ 0 then perm ||| PERMISSION_WRITE else perm
  let perm := if vfs_perm &&& vfs_perms type 2 ≠ 0 then perm ||| PERMISSION_EXEC else perm
  perm

/-- The `guint32` result of `nautilus_file_get_permissions`. -/
def nautilus_file_get_permissions (env : FileEnv) (file : NautilusFile) : Nat :=
  env.permissions file % 2 ^ 32

/-- The C expression `~x` on a `guint32`. -/
def complement32 (x : Nat) : Nat :=
  (2 ^ 32 - 1) ^^^ (x % 2 ^ 32)

/-- A direct hash table (`g_direct_hash`, `g_direct_equal`) keyed by files, as the
list of its entries; a NULL table has no entry. -/
abbrev FileTable (β : Type) := List (NautilusFile × β)

/-- The function `g_hash_table_insert`: an existing entry of the key is replaced. -/
def g_hash_table_insert {β : Type} (table : FileTable β) (key : NautilusFile) (value : β) :
    FileTable β :=
  (key, value) :: table.filter (fun e => e.1 != key)

/-- The function `g_hash_table_remove`. -/
def g_hash_table_remove {β : Type} (table : FileTable β) (key : NautilusFile) : FileTable β :=
  table.filter (fun e => e.1 != key)

/-- The function `g_hash_table_lookup_extended`: `none` when the key is absent. -/
def g_hash_table_lookup_extended {β : Type} (table : FileTable β) (key : NautilusFile) :
    Option β :=
  table.lookup key

/-- The function `get_initial_permissions`. -/
def get_initial_permissions (env : FileEnv) (file_list : List NautilusFile) : FileTable Nat :=
  file_list.foldl
    (fun ret file => g_hash_table_insert ret file (nautilus_file_get_permissions env file)) []

/-- One call of `nautilus_file_set_permissions (file, permissions, ...)`. -/
structure PermissionRequest where
  file : NautilusFile
  permissions : Nat
  deriving DecidableEq, Repr

/-- The function `update_permissions`: the calls of `nautilus_file_set_permissions`
it makes, in order.  Each call is preceded by `start_long_operation`, which only
counts it and sets the cursor.  The arguments `vfs_new_perm` and `vfs_mask` are
`guint32`, and `GPOINTER_TO_INT` of a table entry is a 32-bit value. -/
def update_permissions (env : FileEnv) (target_files : List NautilusFile)
    (initial_permissions : FileTable Nat) (vfs_new_perm vfs_mask : Nat)
    (is_folder apply_to_both_folder_and_dir use_original : Bool) : List PermissionRequest :=
  match target_files with
  | [] => []
  | file :: l =>
    let rest := update_permissions env l initial_permissions vfs_new_perm vfs_mask
      is_folder apply_to_both_folder_and_dir use_original
    if !env.can_get_permissions file then rest
    else if !apply_to_both_folder_and_dir &&
        ((env.is_directory file && !is_folder) || (!env.is_directory file && is_folder)) then rest
    else
      let permissions := nautilus_file_get_permissions env file
      let permissions :=
        if use_original then
          match g_hash_table_lookup_extended initial_permissions file with
          | some ptr =>
            (permissions &&& complement32 vfs_mask) ||| ((ptr % 2 ^ 32) &&& (vfs_mask % 2 ^ 32))
          | none => permissions
        else
          (permissions &&& complement32 vfs_mask) ||| (vfs_new_perm % 2 ^ 32)
      { file := file, permissions := permissions } :: rest

/-! ## The permission checkbox -/

/-- A permission check button: the object data it carries and its widget state.
`set_up_permissions_checkbox` stores `"permission"` and `"is-folder"`; no code
stores `"is-special"`, so `g_object_get_data` yields NULL for it on a button that
`gtk_check_button_new_with_mnemonic` made. -/
structure GtkToggleButton where
  permission : Nat := 0
  is_folder : Bool := false
  is_special : Bool := false
  active : Bool := false
  inconsistent : Bool := false
  sensitive : Bool := true
  deriving DecidableEq, Repr

/-- A new check button (`gtk_check_button_new_with_mnemonic`): no object data. -/
def gtk_check_button_new_with_mnemonic : GtkToggleButton := {}

/-- The object data part of `set_up_permissions_checkbox`. -/
def set_up_permissions_checkbox (check_button : GtkToggleButton) (permission : Nat)
    (is_folder : Bool) : GtkToggleButton :=
  { check_button with permission := permission % 2 ^ 32, is_folder := is_folder }

/-- The four flags of the loop of `permission_button_update`. -/
structure ButtonScan where
  all_set : Bool := true
  all_unset : Bool := true
  all_cannot_set : Bool := true
  no_match : Bool := true
  deriving DecidableEq, Repr

/-- The loop of `permission_button_update` over `target_files`. -/
def permission_button_update_loop (env : FileEnv) (button_permission : Nat)
    (is_folder is_special : Bool) : List NautilusFile → ButtonScan → ButtonScan
  | [], s => s
  | file :: l, s =>
    if !env.can_get_permissions file then
      permission_button_update_loop env button_permission is_folder is_special l s
    else if !is_special &&
        ((env.is_directory file && !is_folder) || (!env.is_directory file && is_folder)) then
      permission_button_update_loop env button_permission is_folder is_special l s
    else
      let s := { s with no_match := false }
      let file_permissions := nautilus_file_get_permissions env file
      let s :=
        if file_permissions &&& button_permission = button_permission then
          { s with all_unset := false }
        else if file_permissions &&& button_permission = 0 then
          { s with all_set := false }
        else
          { s with all_unset := false, all_set := false }
      let s := if env.can_set_permissions file then { s with all_cannot_set := false } else s
      permission_button_update_loop env button_permission is_folder is_special l s

/-- The function `permission_button_update`. -/
def permission_button_update (env : FileEnv) (target_files : List NautilusFile)
    (button : GtkToggleButton) : GtkToggleButton :=
  let s := permission_button_update_loop env button.permission button.is_folder
    button.is_special target_files {}
  let sensitive := !s.all_cannot_set
  { button with
    active := !s.all_unset
    inconsistent := (!s.all_unset && !s.all_set) || (!button.is_folder && s.no_match)
    sensitive := sensitive }

/-- The target files a control of the given kind looks at: those whose permissions
can be read and whose kind (folder or file) is the kind of the control. -/
def button_files (env : FileEnv) (is_folder : Bool) (target_files : List NautilusFile) :
    List NautilusFile :=
  target_files.filter (fun f => env.can_get_permissions f && (env.is_directory f == is_folder))

/-! ## The access combo boxes -/

/-- One row of the list store of a permission combo (`COLUMN_NAME`, `COLUMN_VALUE`,
`COLUMN_USE_ORIGINAL`, `COLUMN_ID`); a column that is not set keeps its default. -/
structure ComboRow where
  name : String := ""
  value : Nat := 0
  use_original : Bool := false
  id : Option String := none
  deriving DecidableEq, Repr

/-- A permission combo box: the object data `"is-folder"` and `"permission-type"`
stored by `create_permissions_combo_box`, the rows of its list store, the index of
the active row and whether the widget is sensitive. -/
structure GtkComboBox where
  is_folder : Bool
  permission_type : PermissionType
  rows : List ComboRow := []
  active : Option Nat := none
  sensitive : Bool := true
  deriving DecidableEq, Repr

/-- The function `create_permissions_combo_box`. -/
def create_permissions_combo_box (type : PermissionType) (is_folder : Bool) : GtkComboBox :=
  let store : List ComboRow := []
  let store :=
    if is_folder then
      let store :=
        if type ≠ PERMISSION_USER then
          store ++ [{ name := "None", value := 0, id := some "none" }]
        else store
      let store := store ++ [{ name := "List files only", value := PERMISSION_READ, id := some "r" }]
      let store := store ++
        [{ name := "Access files", value := PERMISSION_READ ||| PERMISSION_EXEC, id := some "rx" }]
      store ++
        [{ name := "Create and delete files",
           value := PERMISSION_READ ||| PERMISSION_EXEC ||| PERMISSION_WRITE, id := some "rwx" }]
    else
      let store :=
        if type ≠ PERMISSION_USER then
          store ++ [{ name := "None", value := 0, id := some "none" }]
        else store
      let store := store ++ [{ name := "Read-only", value := PERMISSION_READ, id := some "r" }]
      store ++
        [{ name := "Read and write", value := PERMISSION_READ ||| PERMISSION_WRITE,
           id := some "rw" }]
  { is_folder := is_folder, permission_type := type, rows := store }

/-- The loops `gtk_tree_model_get_iter_first (...); do ... while
(gtk_tree_model_iter_next (...))` that stop at the first row with a property: the
index of that row.  The stores these loops run on are never empty. -/
def tree_model_find_row (p : ComboRow → Bool) : List ComboRow → Option Nat
  | [] => none
  | row :: rows => if p row then some 0 else (tree_model_find_row p rows).map (· + 1)

/-- The function `permission_combo_add_multiple_choice`: the store and the row the
iterator is left on. -/
def permission_combo_add_multiple_choice (rows : List ComboRow) : List ComboRow × Nat :=
  match tree_model_find_row (fun row => row.use_original) rows with
  | some iter => (rows, iter)
  | none => (rows ++ [{ name := "---", value := 0, use_original := true }], rows.length)

/-- The variables of the loop of `permission_combo_update`. -/
structure ComboScan where
  no_files : Bool := true
  no_dirs : Bool := true
  all_dir_same : Bool := true
  all_file_same : Bool := true
  all_dir_perm : Nat := 0
  all_file_perm : Nat := 0
  all_dir_cannot_set : Bool := true
  all_file_cannot_set : Bool := true
  deriving DecidableEq, Repr

/-- The loop of `permission_combo_update` over `target_files`. -/
def permission_combo_update_loop (env : FileEnv) (type : PermissionType) :
    List NautilusFile → ComboScan → ComboScan
  | [], s => s
  | file :: l, s =>
    if !env.can_get_permissions file then permission_combo_update_loop env type l s
    else
      let mask :=
        if env.is_directory file then PERMISSION_READ ||| PERMISSION_WRITE ||| PERMISSION_EXEC
        else PERMISSION_READ ||| PERMISSION_WRITE
      let file_permissions := nautilus_file_get_permissions env file
      let perm := permission_from_vfs type file_permissions &&& mask
      let s :=
        if env.is_directory file then
          let s :=
            if s.no_dirs then { s with all_dir_perm := perm, no_dirs := false }
            else if perm ≠ s.all_dir_perm then { s with all_dir_same := false }
            else s
          if env.can_set_permissions file then { s with all_dir_cannot_set := false } else s
        else
          let s :=
            if s.no_files then { s with all_file_perm := perm, no_files := false }
            else if perm ≠ s.all_file_perm then { s with all_file_same := false }
            else s
          if env.can_set_permissions file then { s with all_file_cannot_set := false } else s
      permission_combo_update_loop env type l s

/-- The name `permission_combo_update` gives to a row it adds for `all_perm`. -/
def permission_combo_row_name (is_folder : Bool) (all_perm : Nat) : String :=
  let str := ""
  let str := if all_perm &&& PERMISSION_READ = 0 then str ++ "no " else str
  let str := if is_folder then str ++ "list" else str ++ "read"
  let str := str ++ ", "
  let str := if all_perm &&& PERMISSION_WRITE = 0 then str ++ "no " else str
  let str := if is_folder then str ++ "create/delete" else str ++ "write"
  if is_folder then
    let str := str ++ ", "
    let str := if all_perm &&& PERMISSION_EXEC = 0 then str ++ "no " else str
    str ++ "access"
  else str

/-- The part of `permission_combo_update` between its loop over the files and
`gtk_combo_box_set_active_iter`: the store and the row the iterator is left on. -/
def permission_combo_update_row (is_folder all_same : Bool) (all_perm : Nat)
    (rows : List ComboRow) : List ComboRow × Nat :=
  if all_same then
    match tree_model_find_row (fun row => row.value == all_perm) rows with
    | some iter => (rows, iter)
    | none =>
      (rows ++ [{ name := permission_combo_row_name is_folder all_perm, value := all_perm }],
        rows.length)
  else
    permission_combo_add_multiple_choice rows

/-- The function `permission_combo_update`.  (The flag `is_multi` it reads from the
active row first is not used afterwards.) -/
def permission_combo_update (env : FileEnv) (target_files : List NautilusFile)
    (combo : GtkComboBox) : GtkComboBox :=
  let is_folder := combo.is_folder
  let type := combo.permission_type
  let s := permission_combo_update_loop env type target_files {}
  let all_same := if is_folder then s.all_dir_same else s.all_file_same && !s.no_files
  let all_perm := if is_folder then s.all_dir_perm else s.all_file_perm
  let store_iter := permission_combo_update_row is_folder all_same all_perm combo.rows
  let sensitive := if is_folder then !s.all_dir_cannot_set else !s.all_file_cannot_set
  { combo with rows := store_iter.1, active := some store_iter.2, sensitive := sensitive }

/-- A combo made by `create_permissions_combo_box (type, is_folder)` after the
given updates, each with the state of the file layer and the target files at its
time. -/
def combo_after (type : PermissionType) (is_folder : Bool)
    (updates : List (FileEnv × List NautilusFile)) : GtkComboBox :=
  updates.foldl (fun combo u => permission_combo_update u.1 u.2 combo)
    (create_permissions_combo_box type is_folder)

/-- The function `permission_combo_changed`: the requests of the `update_permissions`
call it ends with; none when the combo has no active row. -/
def permission_combo_changed (env : FileEnv) (target_files : List NautilusFile)
    (initial_permissions : FileTable Nat) (combo : GtkComboBox) : List PermissionRequest :=
  let is_folder := combo.is_folder
  let type := combo.permission_type
  let mask :=
    if is_folder then PERMISSION_READ ||| PERMISSION_WRITE ||| PERMISSION_EXEC
    else PERMISSION_READ ||| PERMISSION_WRITE
  let vfs_mask := permission_to_vfs type mask
  match combo.active with
  | none => []
  | some iter =>
    match combo.rows[iter]? with
    | none => []
    | some row =>
      let vfs_new_perm := permission_to_vfs type row.value
      update_permissions env target_files initial_permissions vfs_new_perm vfs_mask
        is_folder false row.use_original

/-- The mask of an access combo in the words of the specification: read and write
of the class for a file combo, read, write and execute of the class for a folder
combo. -/
def combo_mask (type : PermissionType) (is_folder : Bool) : Nat :=
  if is_folder then vfs_perms type 0 ||| vfs_perms type 1 ||| vfs_perms type 2
  else vfs_perms type 0 ||| vfs_perms type 1


/-! ## The window, the main loop and the pending operations -/

/-- The callbacks this file registers with `g_timeout_add` and
`g_timeout_add_seconds`; the window is their user data, except for the two change
timeouts, whose user data is the address of the change. -/
inductive SourceFunc where
  | update_files_callback
  | update_directory_contents_callback
  | start_spinner_callback
  | schedule_group_change_timeout (change : Nat)
  | schedule_owner_change_timeout (change : Nat)
  deriving DecidableEq, Repr

/-- The GLib main context: the timeout sources that have not fired or been
removed, with their ids.  Ids are handed out in increasing order and are never 0. -/
structure MainContext where
  next_source_id : Nat := 0
  sources : List (Nat × SourceFunc) := []
  deriving DecidableEq, Repr

/-- The function `g_timeout_add`: the new context and the id of the new source. -/
def g_timeout_add (main : MainContext) (function : SourceFunc) : MainContext × Nat :=
  let id := main.next_source_id + 1
  ({ next_source_id := id, sources := main.sources ++ [(id, function)] }, id)

/-- The function `g_source_remove`. -/
def g_source_remove (main : MainContext) (tag : Nat) : MainContext :=
  { main with sources := main.sources.filter (fun s => s.1 != tag) }

/-- The text `directory_contents_value_field_update` puts into the contents label;
`items` stands for the formatted count and size, with the line about unreadable
contents when the flag is set. -/
inductive ContentsText where
  | nothing
  | unreadable
  | ellipsis
  | items (total_count : Nat) (total_size : Int) (some_unreadable : Bool)
  deriving DecidableEq, Repr

/-- A value label with the object data `attach_value_field_internal` stores. -/
structure ValueField where
  file_attribute : String
  inconsistent_string : String
  show_original : Bool := false
  text : String := ""
  deriving DecidableEq, Repr

/-- The struct `GroupChange` (the window it points to is the one window of the
model). -/
structure GroupChange where
  file : NautilusFile
  group : String
  timeout : Nat
  cancelled : Bool := false
  deriving DecidableEq, Repr

/-- The struct `OwnerChange`. -/
structure OwnerChange where
  file : NautilusFile
  owner : String
  timeout : Nat
  cancelled : Bool := false
  deriving DecidableEq, Repr

/-- The widget `window->details->name_field`: a label or a `NautilusEntry`, its
text, the object data `"original_name"` (`none` for NULL) and whether
`nautilus_entry_select_all` was called on it last. -/
structure NameField where
  is_entry : Bool
  text : String
  original_name : Option String := none
  selected_all : Bool := false
  deriving DecidableEq, Repr

/-- The fields of `NautilusPropertiesWindowDetails` that the functions below read
or write; the private data of a new window is zeroed. -/
structure NautilusPropertiesWindowDetails where
  original_files : List NautilusFile := []
  target_files : List NautilusFile := []
  directory_contents_value_field : Option ContentsText := none
  directory_contents_title_two_lines : Bool := false
  directory_contents_spinner_shown : Bool := false
  update_directory_contents_timeout_id : Nat := 0
  update_files_timeout_id : Nat := 0
  group_change : Option Nat := none
  permission_buttons : List GtkToggleButton := []
  permission_combos : List GtkComboBox := []
  initial_permissions : FileTable Nat := []
  value_fields : List ValueField := []
  deep_count_finished : Bool := false
  deep_count_files : List NautilusFile := []
  deep_count_spinner_timeout_id : Nat := 0
  total_count : Nat := 0
  total_size : Int := 0
  changed_files : List NautilusFile := []
  /-- The files whose signal `updated-deep-count-in-progress` is connected to
  `schedule_directory_contents_update` for this window. -/
  deep_count_signal_files : List NautilusFile := []
  name_field : Option NameField := none
  pending_name : Option String := none
  volume_capacity : Nat := 0
  volume_free : Nat := 0
  volume_used : Nat := 0
  /-- Whether `create_pie_widget` has connected `paint_pie_chart` to a pie canvas. -/
  pie_chart_connected : Bool := false
  owner_change : Option Nat := none
  /-- The list `change_permission_combos`: the addresses of combo box widgets. -/
  change_permission_combos : List Nat := []
  deriving DecidableEq, Repr

/-- One call of `nautilus_file_set_group (file, group, group_change_callback,
change)`. -/
structure SetGroupCall where
  file : NautilusFile
  group : String
  change : Nat
  deriving DecidableEq, Repr

/-- One call of `nautilus_file_set_owner (file, owner, owner_change_callback,
change)`. -/
structure SetOwnerCall where
  file : NautilusFile
  owner : String
  change : Nat
  deriving DecidableEq, Repr

/-- One call of `nautilus_file_set_permissions_recursive`, with its five values. -/
structure RecursivePermissionsCall where
  uri : String
  file_permission : Nat
  file_permission_mask : Nat
  dir_permission : Nat
  dir_permission_mask : Nat
  deriving DecidableEq, Repr

/-- The metadata keys this file writes. -/
inductive MetadataKey where
  | NAUTILUS_METADATA_KEY_CUSTOM_ICON
  | NAUTILUS_METADATA_KEY_ICON_SCALE
  deriving DecidableEq, Repr

/-- One call `nautilus_file_set_metadata (file, key, NULL, value)`. -/
structure MetadataCall where
  file : NautilusFile
  key : MetadataKey
  value : Option String
  deriving DecidableEq, Repr

/-- The window together with what its callbacks act on: the main context, the
`GroupChange` and `OwnerChange` structs that are allocated (by address), the combo
boxes of the dialogs for enclosed files that are alive (by address, with the dialog
each belongs to), and the record of the calls made to the file layer, of the error
dialogs shown, of the calls of `properties_window_update` and of the `g_assert`
conditions that were found false. -/
structure World where
  details : NautilusPropertiesWindowDetails := {}
  main : MainContext := {}
  group_changes : List (Nat × GroupChange) := []
  next_change : Nat := 0
  set_group_calls : List SetGroupCall := []
  cancelled_group_calls : List Nat := []
  timed_waits : List Nat := []
  update_calls : List (List NautilusFile) := []
  destroyed : Bool := false
  rename_calls : List (NautilusFile × String) := []
  metadata_calls : List MetadataCall := []
  link_icon_calls : List (String × String) := []
  invalidated_files : List NautilusFile := []
  error_dialogs : List String := []
  owner_changes : List (Nat × OwnerChange) := []
  set_owner_calls : List SetOwnerCall := []
  cancelled_owner_calls : List Nat := []
  owner_timed_waits : List Nat := []
  failed_asserts : List String := []
  next_widget : Nat := 0
  dialog_combos : List (Nat × Nat × GtkComboBox) := []
  recursive_permissions_calls : List RecursivePermissionsCall := []
  deriving DecidableEq, Repr

/-! ## Directory contents -/

/-- The function `g_file_has_prefix` of GIO on path elements: whether the elements
of `pfx` are the first elements of `file` and something follows them. -/
def g_file_has_prefix (file pfx : List String) : Bool :=
  pfx.isPrefixOf file && pfx.length != file.length

/-- The function `file_has_prefix`. -/
def file_has_prefix (env : FileEnv) (file : NautilusFile) :
    List NautilusFile → Bool
  | [] => false
  | p :: prefix_candidates =>
    if file = p then file_has_prefix env file prefix_candidates
    else if g_file_has_prefix (env.location file) (env.location p) then true
    else file_has_prefix env file prefix_candidates

/-- Addition of `goffset` values, a signed 64-bit type, wrapping around. -/
def goffset_add (a b : Int) : Int :=
  (a + b + 2 ^ 63) % 2 ^ 64 - 2 ^ 63

/-- The function `stop_spinner`. -/
def stop_spinner (w : World) : World :=
  let w := { w with details := { w.details with directory_contents_spinner_shown := false } }
  if w.details.deep_count_spinner_timeout_id > 0 then
    { w with
      main := g_source_remove w.main w.details.deep_count_spinner_timeout_id
      details := { w.details with deep_count_spinner_timeout_id := 0 } }
  else w

/-- The function `schedule_start_spinner`. -/
def schedule_start_spinner (w : World) : World :=
  if w.details.deep_count_spinner_timeout_id = 0 then
    let r := g_timeout_add w.main SourceFunc.start_spinner_callback
    { w with main := r.1, details := { w.details with deep_count_spinner_timeout_id := r.2 } }
  else w

/-- The function `stop_deep_count_for_file`. -/
def stop_deep_count_for_file (w : World) (file : NautilusFile) : World :=
  if file ∈ w.details.deep_count_files then
    { w with details :=
        { w.details with
          deep_count_files := w.details.deep_count_files.erase file
          deep_count_signal_files :=
            w.details.deep_count_signal_files.filter (fun f => f != file) } }
  else w

/-- The function `start_deep_count_for_file`. -/
def start_deep_count_for_file (env : FileEnv) (w : World) (file : NautilusFile) : World :=
  if !env.is_directory file then w
  else if file ∉ w.details.deep_count_files then
    let w := { w with details :=
      { w.details with deep_count_files := file :: w.details.deep_count_files } }
    if !w.details.deep_count_finished then
      schedule_start_spinner { w with details :=
        { w.details with deep_count_signal_files := file :: w.details.deep_count_signal_files } }
    else w
  else w

/-- The local variables `total_count` (a `guint`), `total_size` (a `goffset`) and
`unreadable_directory_count` of `directory_contents_value_field_update`. -/
structure ContentsTotals where
  total_count : Nat
  total_size : Int
  unreadable_directory_count : Bool := false
  deriving DecidableEq, Repr

/-- The loop of `directory_contents_value_field_update` over `target_files`; the
prefix test always looks at the whole list `w.details.target_files`. -/
def directory_contents_loop (env : FileEnv) :
    List NautilusFile → World → ContentsTotals → World × ContentsTotals
  | [], w, t => (w, t)
  | file :: l, w, t =>
    if file_has_prefix env file w.details.target_files then
      directory_contents_loop env l w t
    else if env.is_directory file then
      let c := env.deep_counts file
      let directory_count := c.directory_count % 2 ^ 32
      let file_count := c.file_count % 2 ^ 32
      let t := { t with
        total_count := (t.total_count + (file_count + directory_count) % 2 ^ 32) % 2 ^ 32
        total_size := goffset_add t.total_size (c.total_size : Int) }
      let t :=
        if c.unreadable_directory_count % 2 ^ 32 ≠ 0 then
          { t with unreadable_directory_count := true }
        else t
      let w := if c.done then stop_deep_count_for_file w file else w
      directory_contents_loop env l w t
    else
      let t := { t with
        total_count := (t.total_count + 1) % 2 ^ 32
        total_size := goffset_add t.total_size (env.size file : Int) }
      directory_contents_loop env l w t

/-- The totals `directory_contents_value_field_update` computes before it looks at
the deep count state. -/
def directory_contents_totals (env : FileEnv) (w : World) : ContentsTotals :=
  (directory_contents_loop env w.details.target_files w
    { total_count := w.details.total_count, total_size := w.details.total_size }).2

/-- The function `directory_contents_value_field_update`. -/
def directory_contents_value_field_update (env : FileEnv) (w : World) : World :=
  let r := directory_contents_loop env w.details.target_files w
    { total_count := w.details.total_count, total_size := w.details.total_size }
  let w := r.1
  let t := r.2
  let deep_count_active := decide (w.details.deep_count_files.length > 0)
  if w.details.deep_count_finished && deep_count_active then w
  else
    let text :=
      if t.total_count = 0 then
        if !deep_count_active then
          if !t.unreadable_directory_count then ContentsText.nothing else ContentsText.unreadable
        else ContentsText.ellipsis
      else ContentsText.items t.total_count t.total_size t.unreadable_directory_count
    let used_two_lines := decide (t.total_count ≠ 0) && t.unreadable_directory_count
    let w := { w with details :=
      { w.details with
        directory_contents_value_field := some text
        directory_contents_title_two_lines := used_two_lines } }
    if !deep_count_active then
      stop_spinner { w with details := { w.details with deep_count_finished := true } }
    else w

/-- The items one counted target file adds: 1 for a file, the deep file count plus
the deep directory count for a directory. -/
def counted_items (env : FileEnv) (file : NautilusFile) : Nat :=
  if env.is_directory file then
    (env.deep_counts file).file_count + (env.deep_counts file).directory_count
  else 1

/-- The bytes one counted target file adds: its size for a file, the deep size for
a directory. -/
def counted_size (env : FileEnv) (file : NautilusFile) : Nat :=
  if env.is_directory file then (env.deep_counts file).total_size else env.size file

/-- The target files that are not located inside another target file. -/
def counted_files (env : FileEnv) (target_files : List NautilusFile) : List NautilusFile :=
  target_files.filter
    (fun f => !target_files.any
      (fun p => p != f && g_file_has_prefix (env.location f) (env.location p)))

/-! ## Group changes -/

/-- The function `group_change_free`: the struct at `change` is freed. -/
def group_change_free (w : World) (change : Nat) : World :=
  { w with group_changes := w.group_changes.filter (fun c => c.1 != change) }

/-- The function `cancel_group_change_callback`: the change is marked cancelled and
`nautilus_file_cancel` is asked to cancel its operation. -/
def cancel_group_change_callback (w : World) (change : Nat) : World :=
  { w with
    group_changes := w.group_changes.map
      (fun c => if c.1 = change then (c.1, { c.2 with cancelled := true }) else c)
    cancelled_group_calls := w.cancelled_group_calls ++ [change] }

/-- The function `schedule_group_change_timeout`, the callback of the change
timeout: it clears `change->timeout`, starts the timed wait and calls
`nautilus_file_set_group` with the group of the change. -/
def schedule_group_change_timeout (w : World) (change : Nat) : World :=
  match w.group_changes.lookup change with
  | none => w
  | some c =>
    { w with
      group_changes := w.group_changes.map
        (fun e => if e.1 = change then (e.1, { e.2 with timeout := 0 }) else e)
      timed_waits := w.timed_waits ++ [change]
      set_group_calls := w.set_group_calls ++
        [{ file := c.file, group := c.group, change := change }] }

/-- The macro `g_assert (expr)`: a condition that is false is recorded, with the
text of the expression, and the run goes on as it does when the checks are compiled
out. -/
def g_assert (w : World) (condition : Bool) (expr : String) : World :=
  if condition then w else { w with failed_asserts := w.failed_asserts ++ [expr] }

/-- The function `schedule_group_change`. -/
def schedule_group_change (w : World) (file : NautilusFile) (group : String) : World :=
  let w := g_assert w (decide (w.details.group_change = none))
    "window->details->group_change == NULL"
  let change := w.next_change + 1
  let r := g_timeout_add w.main (SourceFunc.schedule_group_change_timeout change)
  { w with
    next_change := change
    main := r.1
    group_changes := (change, { file := file, group := group, timeout := r.2 }) :: w.group_changes
    details := { w.details with group_change := some change } }

/-- The function `unschedule_or_cancel_group_change`. -/
def unschedule_or_cancel_group_change (w : World) : World :=
  match w.details.group_change with
  | none => w
  | some change =>
    let w :=
      match w.group_changes.lookup change with
      | none => w
      | some c =>
        if c.timeout = 0 then
          let w := cancel_group_change_callback w change
          { w with timed_waits := w.timed_waits.filter (fun t => t != change) }
        else
          group_change_free { w with main := g_source_remove w.main c.timeout } change
    { w with details := { w.details with group_change := none } }

/-- The function `changed_group_callback`; `group` is the active text of the combo
box, `none` for NULL. -/
def changed_group_callback (env : FileEnv) (w : World) (group : Option String)
    (file : NautilusFile) : World :=
  let cur_group := env.group_name file
  match group with
  | none => w
  | some group =>
    if group ≠ cur_group then
      schedule_group_change (unschedule_or_cancel_group_change w) file group
    else w

/-- The function `group_change_callback`, called when the operation of `change`
ends. -/
def group_change_callback (w : World) (change : Nat) : World :=
  match w.group_changes.lookup change with
  | none => w
  | some c =>
    let w :=
      if !c.cancelled then { w with timed_waits := w.timed_waits.filter (fun t => t != change) }
      else w
    let w :=
      if w.details.group_change = some change then
        { w with details := { w.details with group_change := none } }
      else w
    group_change_free w change

/-! ## Owner changes -/

/-- The function `owner_change_free`: the struct at `change` is freed. -/
def owner_change_free (w : World) (change : Nat) : World :=
  { w with owner_changes := w.owner_changes.filter (fun c => c.1 != change) }

/-- The function `cancel_owner_change_callback`: the change is marked cancelled and
`nautilus_file_cancel` is asked to cancel its operation. -/
def cancel_owner_change_callback (w : World) (change : Nat) : World :=
  { w with
    owner_changes := w.owner_changes.map
      (fun c => if c.1 = change then (c.1, { c.2 with cancelled := true }) else c)
    cancelled_owner_calls := w.cancelled_owner_calls ++ [change] }

/-- The function `schedule_owner_change_timeout`, the callback of the change
timeout: it clears `change->timeout`, starts the timed wait and calls
`nautilus_file_set_owner` with the owner of the change. -/
def schedule_owner_change_timeout (w : World) (change : Nat) : World :=
  match w.owner_changes.lookup change with
  | none => w
  | some c =>
    { w with
      owner_changes := w.owner_changes.map
        (fun e => if e.1 = change then (e.1, { e.2 with timeout := 0 }) else e)
      owner_timed_waits := w.owner_timed_waits ++ [change]
      set_owner_calls := w.set_owner_calls ++
        [{ file := c.file, owner := c.owner, change := change }] }

/-- The function `schedule_owner_change`. -/
def schedule_owner_change (w : World) (file : NautilusFile) (owner : String) : World :=
  let w := g_assert w (decide (w.details.owner_change = none))
    "window->details->owner_change == NULL"
  let change := w.next_change + 1
  let r := g_timeout_add w.main (SourceFunc.schedule_owner_change_timeout change)
  { w with
    next_change := change
    main := r.1
    owner_changes := (change, { file := file, owner := owner, timeout := r.2 }) :: w.owner_changes
    details := { w.details with owner_change := some change } }

/-- The function `unschedule_or_cancel_owner_change`. -/
def unschedule_or_cancel_owner_change (w : World) : World :=
  match w.details.owner_change with
  | none => w
  | some change =>
    let w :=
      match w.owner_changes.lookup change with
      | none => w
      | some c =>
        if c.timeout = 0 then
          let w := cancel_owner_change_callback w change
          { w with owner_timed_waits := w.owner_timed_waits.filter (fun t => t != change) }
        else
          owner_change_free { w with main := g_source_remove w.main c.timeout } change
    { w with details := { w.details with owner_change := none } }

/-- The function `changed_owner_callback`; `new_owner` is the active entry of the
combo box, `none` for NULL. -/
def changed_owner_callback (env : FileEnv) (w : World) (new_owner : Option String)
    (file : NautilusFile) : World :=
  match new_owner with
  | none => w
  | some new_owner =>
    let cur_owner := env.owner_name file
    if new_owner ≠ cur_owner then
      schedule_owner_change (unschedule_or_cancel_owner_change w) file new_owner
    else w

/-- The function `owner_change_callback`, called when the operation of `change`
ends. -/
def owner_change_callback (w : World) (change : Nat) : World :=
  match w.owner_changes.lookup change with
  | none => w
  | some c =>
    let w :=
      if !c.cancelled then
        { w with owner_timed_waits := w.owner_timed_waits.filter (fun t => t != change) }
      else w
    let w :=
      if w.details.owner_change = some change then
        { w with details := { w.details with owner_change := none } }
      else w
    owner_change_free w change

/-! ## Updating the window from changed files -/

/-- The function `g_list_index`: the position of the first occurrence, `none` for
-1. -/
def g_list_index (list : List NautilusFile) (data : NautilusFile) : Option Nat :=
  match list with
  | [] => none
  | x :: l => if x = data then some 0 else (g_list_index l data).map (· + 1)

/-- The function `remove_from_dialog`; signal handlers and monitors are not part of
the model. -/
def remove_from_dialog (w : World) (file : NautilusFile) : World :=
  let index :=
    match g_list_index w.details.target_files file with
    | some index => some index
    | none => g_list_index w.details.original_files file
  match index with
  | none => w
  | some index =>
    match w.details.original_files[index]?, w.details.target_files[index]? with
    | some _, some target_file =>
      { w with details :=
        { w.details with
          original_files := w.details.original_files.eraseIdx index
          target_files := w.details.target_files.eraseIdx index
          initial_permissions := g_hash_table_remove w.details.initial_permissions target_file } }
    | _, _ => w

/-- The function `value_field_update`, with `value_field_update_internal`. -/
def value_field_update (env : FileEnv) (w : World) (label : ValueField) : ValueField :=
  let file_list := if label.show_original then w.details.original_files else w.details.target_files
  let attribute_value :=
    file_list_get_string_attribute env file_list label.file_attribute label.inconsistent_string
  let attribute_value :=
    if label.file_attribute = "detailed_type" ∧ attribute_value ≠ label.inconsistent_string then
      let mime_type :=
        file_list_get_string_attribute env file_list "mime_type" label.inconsistent_string
      if mime_type ≠ label.inconsistent_string then
        attribute_value ++ " (" ++ mime_type ++ ")"
      else attribute_value
    else attribute_value
  { label with text := attribute_value }

/-- The first loop of `properties_window_update`: the window, `dirty_original`,
`dirty_target`, and whether the function returned from inside the loop because no
original file was left.  The files of a list are never NULL. -/
def properties_window_update_loop (env : FileEnv) :
    List NautilusFile → World → Bool → Bool → World × Bool × Bool × Bool
  | [], w, dirty_original, dirty_target => (w, dirty_original, dirty_target, false)
  | changed_file :: tmp, w, dirty_original, dirty_target =>
    if env.is_gone changed_file then
      let w := remove_from_dialog w changed_file
      if w.details.original_files = [] then (w, dirty_original, dirty_target, true)
      else properties_window_update_loop env tmp w true true
    else
      let dirty_original := dirty_original || decide (changed_file ∈ w.details.original_files)
      let dirty_target := dirty_target || decide (changed_file ∈ w.details.target_files)
      let w := start_deep_count_for_file env w changed_file
      properties_window_update_loop env tmp w dirty_original dirty_target

/-- The function `properties_window_update`.  Each call is recorded in
`update_calls`.  Of the refresh at its end the model keeps the permission
buttons, the permission combos and the value fields; the title, the icon, the name
field and the extension pages are not modelled. -/
def properties_window_update (env : FileEnv) (w : World) (files : List NautilusFile) : World :=
  let w := { w with update_calls := w.update_calls ++ [files] }
  let dirty := decide (files = [])
  let r := properties_window_update_loop env files w dirty dirty
  let w := r.1
  if r.2.2.2 then w
  else if r.2.2.1 then
    { w with details :=
      { w.details with
        permission_buttons :=
          w.details.permission_buttons.map (permission_button_update env w.details.target_files)
        permission_combos :=
          w.details.permission_combos.map (permission_combo_update env w.details.target_files)
        value_fields := w.details.value_fields.map (value_field_update env w) } }
  else w

/-- The function `real_destroy`, run by `gtk_widget_destroy` on the window. -/
def real_destroy (w : World) : World :=
  let w := unschedule_or_cancel_group_change w
  let w := unschedule_or_cancel_owner_change w
  let w :=
    if w.details.deep_count_spinner_timeout_id > 0 then
      { w with main := g_source_remove w.main w.details.deep_count_spinner_timeout_id }
    else w
  let w :=
    if w.details.update_directory_contents_timeout_id ≠ 0 then
      { w with main := g_source_remove w.main w.details.update_directory_contents_timeout_id }
    else w
  let w :=
    if w.details.update_files_timeout_id ≠ 0 then
      { w with main := g_source_remove w.main w.details.update_files_timeout_id }
    else w
  { w with
    destroyed := true
    details :=
      { w.details with
        original_files := []
        target_files := []
        changed_files := []
        deep_count_files := []
        deep_count_signal_files := []
        name_field := none
        permission_buttons := []
        permission_combos := []
        change_permission_combos := []
        initial_permissions := []
        value_fields := []
        update_directory_contents_timeout_id := 0
        update_files_timeout_id := 0 } }

/-- The function `update_files_callback`. -/
def update_files_callback (env : FileEnv) (w : World) : World :=
  let w := { w with details := { w.details with update_files_timeout_id := 0 } }
  let w := properties_window_update env w w.details.changed_files
  if w.details.original_files = [] then real_destroy w
  else { w with details := { w.details with changed_files := [] } }

/-- The function `schedule_files_update`. -/
def schedule_files_update (w : World) : World :=
  if w.details.update_files_timeout_id = 0 then
    let r := g_timeout_add w.main SourceFunc.update_files_callback
    { w with main := r.1, details := { w.details with update_files_timeout_id := r.2 } }
  else w

/-- The function `file_changed_callback`. -/
def file_changed_callback (w : World) (file : NautilusFile) : World :=
  if file ∉ w.details.changed_files then
    schedule_files_update
      { w with details := { w.details with changed_files := file :: w.details.changed_files } }
  else w

/-- The function `start_spinner_callback`. -/
def start_spinner_callback (w : World) : World :=
  { w with details :=
    { w.details with directory_contents_spinner_shown := true, deep_count_spinner_timeout_id := 0 } }

/-- The function `update_directory_contents_callback`. -/
def update_directory_contents_callback (env : FileEnv) (w : World) : World :=
  directory_contents_value_field_update env
    { w with details := { w.details with update_directory_contents_timeout_id := 0 } }

/-- The main loop fires a timeout source: its callback runs and, as every callback
here returns FALSE, the source is removed. -/
def source_fired (env : FileEnv) (w : World) (source : Nat × SourceFunc) : World :=
  let w :=
    match source.2 with
    | SourceFunc.update_files_callback => update_files_callback env w
    | SourceFunc.update_directory_contents_callback => update_directory_contents_callback env w
    | SourceFunc.start_spinner_callback => start_spinner_callback w
    | SourceFunc.schedule_group_change_timeout change => schedule_group_change_timeout w change
    | SourceFunc.schedule_owner_change_timeout change => schedule_owner_change_timeout w change
  { w with main := g_source_remove w.main source.1 }

/-- Whether a source is a group change timeout. -/
def is_group_change_timeout : Nat × SourceFunc → Bool
  | (_, SourceFunc.schedule_group_change_timeout _) => true
  | _ => false

/-- The pending group change timeouts. -/
def group_change_timeouts (w : World) : List (Nat × SourceFunc) :=
  w.main.sources.filter is_group_change_timeout

/-- The group change timeout the window knows of: the timeout of
`window->details->group_change` while that change has not been started. -/
def expected_group_change_timeouts (w : World) : List (Nat × SourceFunc) :=
  match w.details.group_change with
  | none => []
  | some change =>
    match w.group_changes.lookup change with
    | none => []
    | some c =>
      if c.timeout = 0 then [] else [(c.timeout, SourceFunc.schedule_group_change_timeout change)]

/-- The notifications `file_changed_callback (file, window)` for each of `files`,
in order. -/
def notify_files (w : World) (files : List NautilusFile) : World :=
  files.foldl file_changed_callback w

/-- The function `get_target_file_for_original_file`. -/
def get_target_file_for_original_file (env : FileEnv) (file : NautilusFile) : NautilusFile :=
  let target_file :=
    if env.is_desktop_icon_file file then env.desktop_link_target file
    else env.activation_target file
  match target_file with
  | some target_file => target_file
  | none => file

/-- The function `get_target_file_list`: the targets are prepended one by one and
the list is reversed at the end. -/
def get_target_file_list (env : FileEnv) (original_files : List NautilusFile) :
    List NautilusFile :=
  (original_files.foldl
    (fun ret file => get_target_file_for_original_file env file :: ret) []).reverse

/-- The function `strcmp` on the characters of two strings: negative, zero or
positive. -/
def strcmp (a b : String) : Int :=
  if a.data < b.data then -1 else if b.data < a.data then 1 else 0

/-- The call `g_list_sort (uris, strcmp)`: the strings in ascending order.  Two
strings that compare equal are the same string, so the order of the result does
not depend on the sorting algorithm; it is written as an insertion sort. -/
def g_list_sort_strcmp (uris : List String) : List String :=
  uris.insertionSort (fun a b => strcmp a b ≤ 0)

/-- The function `get_pending_key`. -/
def get_pending_key (env : FileEnv) (file_list : List NautilusFile) : String :=
  let uris := file_list.foldl (fun uris file => env.uri file :: uris) []
  let uris := g_list_sort_strcmp uris
  uris.foldl (fun key uri => (key ++ uri) ++ ";") ""

/-- The struct `StartupData`; a widget is the number of its address, `none` for
NULL. -/
structure StartupData where
  original_files : List NautilusFile
  target_files : List NautilusFile
  parent_widget : Option Nat
  startup_id : Option String
  pending_key : String
  pending_files : FileTable NautilusFile
  deriving DecidableEq, Repr

/-- The function `startup_data_new`. -/
def startup_data_new (original_files target_files : List NautilusFile) (pending_key : String)
    (parent_widget : Option Nat) (startup_id : Option String) : StartupData :=
  { original_files := original_files
    target_files := target_files
    parent_widget := parent_widget
    startup_id := startup_id
    pending_key := pending_key
    pending_files := target_files.foldl (fun t file => g_hash_table_insert t file file) [] }

/-- The calls `nautilus_properties_window_present` makes on an existing window. -/
inductive WindowCall where
  | gtk_window_set_screen (window parent_widget : Nat)
  | gtk_window_set_startup_id (window : Nat) (startup_id : String)
  | gtk_window_present (window : Nat)
  deriving DecidableEq, Repr

/-- The two static hash tables `windows` (original file to window) and
`pending_lists` (a set of pending keys), both without entries while they are NULL,
together with the record of what `nautilus_properties_window_present` starts: the
startup data it allocates, the handlers and timed waits it registers and the
ready-callbacks it asks for, each named by the pending key of its startup data. -/
structure AppState where
  windows : FileTable Nat := []
  pending_lists : List String := []
  startup_data : List StartupData := []
  destroy_handlers : List (Nat × String) := []
  timed_waits : List String := []
  ready_callbacks : List (NautilusFile × String) := []
  window_calls : List WindowCall := []
  deriving DecidableEq, Repr

/-- The function `get_existing_window`, called with a list that is not empty. -/
def get_existing_window (s : AppState) (file_list : List NautilusFile) : Option Nat :=
  match file_list with
  | [file] => g_hash_table_lookup_extended s.windows file
  | _ => none

/-- The function `nautilus_properties_window_present`. -/
def nautilus_properties_window_present (env : FileEnv) (s : AppState)
    (original_files : List NautilusFile) (parent_widget : Option Nat)
    (startup_id : Option String) : AppState :=
  if original_files = [] then s
  else
    match get_existing_window s original_files with
    | some existing_window =>
      let calls :=
        match parent_widget, startup_id with
        | some parent, _ => [WindowCall.gtk_window_set_screen existing_window parent]
        | none, some id => [WindowCall.gtk_window_set_startup_id existing_window id]
        | none, none => []
      { s with window_calls :=
          s.window_calls ++ calls ++ [WindowCall.gtk_window_present existing_window] }
    | none =>
      let pending_key := get_pending_key env original_files
      if pending_key ∈ s.pending_lists then s
      else
        let target_files := get_target_file_list env original_files
        let startup_data :=
          startup_data_new original_files target_files pending_key parent_widget startup_id
        { s with
          startup_data := s.startup_data ++ [startup_data]
          pending_lists := startup_data.pending_key :: s.pending_lists
          destroy_handlers :=
            match parent_widget with
            | some parent => s.destroy_handlers ++ [(parent, startup_data.pending_key)]
            | none => s.destroy_handlers
          timed_waits := s.timed_waits ++ [startup_data.pending_key]
          ready_callbacks := s.ready_callbacks ++
            startup_data.target_files.map (fun file => (file, startup_data.pending_key)) }


/-! ## Concrete states used in the examples -/

/-- File 1 is a link whose activation URI is the URI of file 2; file 2 is gone. -/
def gone_target_env : FileEnv :=
  { is_gone := fun f => f == 2
    activation_target := fun f => if f = 1 then some 2 else none
    uri := fun f => if f = 1 then "file:///link" else "file:///target" }

/-- A window opened for the link 1 and its target 2. -/
def link_and_target_window : World :=
  { details := { original_files := [1, 2], target_files := [2, 2] } }

/-- A state in which file 1 has the window 7 and the selection of files 2 and 3 is
pending. -/
def served_state : AppState :=
  { windows := [(1, 7)], pending_lists := ["b;c;"] }

/-- The file layer in which files 1, 2 and 3 have the URIs `a`, `b` and `c`. -/
def abc_env : FileEnv :=
  { uri := fun f => if f = 1 then "a" else if f = 2 then "b" else "c" }


/-- File layer of the first update of the failing run of `permission_combo_update`:
file 1 has mode 0600 and file 2 has mode 0400. -/
def mixed_env : FileEnv := { permissions := fun f => if f = 1 then 0o600 else 0o400 }

/-- File layer of the second update of that run: both files have mode 0044, so the
owner has neither read nor write access to either. -/
def owner_none_env : FileEnv := { permissions := fun _ => 0o044 }

/-- Two plain files: file 1 has mode 0755 and file 2 has mode 0644. -/
def two_files_env : FileEnv := { permissions := fun f => if f = 1 then 0o755 else 0o644 }

/-- Files 1 and 3 are not gone and have the attribute value `a`; file 2 is gone and
has the value `b`. -/
def attribute_env : FileEnv :=
  { is_gone := fun f => f == 2
    string_attribute_with_default := fun f _ => if f = 2 then "b" else "a" }

/-- Directory 1 is `/a` with 3 files, 1 directory and 100 bytes below it; file 2 is
`/a/b` with 5 bytes; file 3 is `/c` with 7 bytes. -/
def nested_env : FileEnv :=
  { is_directory := fun f => f == 1
    location := fun f => if f = 1 then ["a"] else if f = 2 then ["a", "b"] else ["c"]
    deep_counts := fun _ => { file_count := 3, directory_count := 1, total_size := 100 }
    size := fun f => if f = 2 then 5 else 7 }

/-- A window for the targets 1, 2 and 3. -/
def nested_window : World :=
  { details := { original_files := [1, 2, 3], target_files := [1, 2, 3] } }

/-- The current group of every file is `users`. -/
def users_env : FileEnv := { group_name := fun _ => "users" }

/-! ## Relative icon URIs -/

/-- The function `make_relative_uri_from_full`; `none` is NULL.  After the prefix
`base_uri` the next character must be `/`; the slashes are skipped and what
follows them is returned when it is not empty. -/
def make_relative_uri_from_full (uri base_uri : String) : Option String :=
  if base_uri.data.isPrefixOf uri.data then
    let uri := uri.data.drop base_uri.data.length
    if uri.head? ≠ some '/' then none
    else
      let uri := uri.dropWhile (fun c => c == '/')
      if uri ≠ [] then some (String.mk uri) else none
  else none

/-! ## The entries of a combo box model -/

/-- The do-while loop of `tree_model_entries_equal`: `rows` are the values of the
column from the current row on (NULL is `none`), `l` is the rest of the entry list.
With `l` NULL and a row left, `l->data` dereferences a NULL pointer: no result. -/
def tree_model_entries_equal_loop :
    List (Option String) → List (Option String) → Option Bool
  | [], l => some (decide (l = []))
  | _ :: _, [] => none
  | val :: rows, data :: l =>
    if (val = none ∧ data ≠ none) ∨ (val ≠ none ∧ data = none) ∨ (val ≠ none ∧ val ≠ data) then
      some false
    else tree_model_entries_equal_loop rows l

/-- The function `tree_model_entries_equal` on the values of the column at the
first level of the model; `none` when the call does not return. -/
def tree_model_entries_equal (model entries : List (Option String)) : Option Bool :=
  let empty_model := decide (model = [])
  if !empty_model && decide (entries ≠ []) then
    tree_model_entries_equal_loop model entries
  else
    some ((empty_model && decide (entries = [])) || (!empty_model && decide (entries ≠ [])))

/-! ## Consistency of the initial permissions -/

/-- The loop of `initial_permission_state_consistent`, with its variables `first`
and `first_permissions`; `g_hash_table_lookup` yields NULL, that is 0, for a file
without an entry. -/
def initial_permission_state_consistent_loop (env : FileEnv) (initial_permissions : FileTable Nat)
    (mask : Nat) (is_folder both_folder_and_dir : Bool) :
    List NautilusFile → Bool → Nat → Bool
  | [], _, _ => true
  | file :: l, first, first_permissions =>
    if !both_folder_and_dir &&
        ((env.is_directory file && !is_folder) || (!env.is_directory file && is_folder)) then
      initial_permission_state_consistent_loop env initial_permissions mask is_folder
        both_folder_and_dir l first first_permissions
    else
      let permissions := ((initial_permissions.lookup file).getD 0) % 2 ^ 32
      if first then
        if permissions &&& mask ≠ mask ∧ permissions &&& mask ≠ 0 then false
        else
          initial_permission_state_consistent_loop env initial_permissions mask is_folder
            both_folder_and_dir l false permissions
      else if permissions &&& mask ≠ first_permissions then false
      else
        initial_permission_state_consistent_loop env initial_permissions mask is_folder
          both_folder_and_dir l first first_permissions

/-- The function `initial_permission_state_consistent`. -/
def initial_permission_state_consistent (env : FileEnv) (target_files : List NautilusFile)
    (initial_permissions : FileTable Nat) (mask : Nat) (is_folder both_folder_and_dir : Bool) :
    Bool :=
  initial_permission_state_consistent_loop env initial_permissions (mask % 2 ^ 32) is_folder
    both_folder_and_dir target_files true 0

/-! ## The view menu -/

/-- One variadic argument of a `g_signal_emit` call, with the C type it is passed
at; `D` is the type of `gdouble` values. -/
inductive VarArg (D : Type) where
  | int (n : Int)
  | double (d : D)
  | gtype (name : String)
  deriving DecidableEq, Repr

/-- An emission of a signal whose parameters are all of type `G_TYPE_DOUBLE`. -/
structure SignalEmission (D : Type) where
  signal : String
  params : List D
  deriving DecidableEq, Repr

/-- How `g_signal_emit` collects `n` parameters of type `G_TYPE_DOUBLE` from the
variadic arguments: one after the other from the front, each read as a `gdouble`.
An argument passed at another type has no defined value as a `gdouble`. -/
def collect_double_params {D : Type} : Nat → List (VarArg D) → Option (List D)
  | 0, _ => some []
  | n + 1, VarArg.double d :: args => (collect_double_params n args).map (fun ds => d :: ds)
  | _ + 1, _ => none

/-- The call `g_signal_emit (self, signals[ZOOM_LEVEL_CHANGED], 0, ...)`: the signal
`zoom-level-changed` is registered in `nautilus_view_menu_class_init` with return
type `G_TYPE_NONE` and one parameter of type `G_TYPE_DOUBLE`. -/
def g_signal_emit_zoom_level_changed {D : Type} (args : List (VarArg D)) :
    Option (SignalEmission D) :=
  (collect_double_params 1 args).map
    (fun params => { signal := "zoom-level-changed", params := params })

/-- The function `zoom_level_changed`, the handler of `value-changed` of the zoom
scale; `zoom_level` is `gtk_range_get_value (range)`.  It passes the three
variadic arguments `1, zoom_level, G_TYPE_NONE`. -/
def zoom_level_changed {D : Type} (zoom_level : D) : Option (SignalEmission D) :=
  g_signal_emit_zoom_level_changed
    [VarArg.int 1, VarArg.double zoom_level, VarArg.gtype "G_TYPE_NONE"]

/-! ## Dropped icon lists -/

/-- The pieces of `g_strsplit (string, "\r\n", 0)` for a string that is not empty:
`piece` holds, reversed, the characters of the current piece. -/
def g_strsplit_crlf_loop : List Char → List Char → List String
  | [], piece => [String.mk piece.reverse]
  | '\r' :: '\n' :: rest, piece => String.mk piece.reverse :: g_strsplit_crlf_loop rest []
  | c :: rest, piece => g_strsplit_crlf_loop rest (c :: piece)

/-- The call `g_strsplit (string, "\r\n", 0)`: an empty string gives an empty
vector. -/
def g_strsplit_crlf (string : String) : List String :=
  if string.data = [] then [] else g_strsplit_crlf_loop string.data []

/-! ## The name field -/

/-- The function `is_multi_file_window`: more than one original file is not gone. -/
def is_multi_file_window (env : FileEnv) (w : World) : Bool :=
  decide ((w.details.original_files.filter (fun f => !env.is_gone f)).length > 1)

/-- The function `get_not_gone_original_file_count`. -/
def get_not_gone_original_file_count (env : FileEnv) (w : World) : Nat :=
  (w.details.original_files.filter (fun f => !env.is_gone f)).length

/-- The function `get_original_file`: NULL (`none`) in a multi-file window or
without original files, else the first original file. -/
def get_original_file (env : FileEnv) (w : World) : Option NautilusFile :=
  if is_multi_file_window env w then none
  else w.details.original_files.head?

/-- The function `nautilus_file_can_rename` on a file that may be NULL; a NULL file
cannot be renamed. -/
def nautilus_file_can_rename (env : FileEnv) (file : Option NautilusFile) : Bool :=
  match file with
  | none => false
  | some file => env.can_rename file

/-- The function `set_name_field`.  A new widget carries no object data. -/
def set_name_field (env : FileEnv) (w : World) (original_name : Option String) (name : String) :
    World :=
  let use_label :=
    is_multi_file_window env w || !nautilus_file_can_rename env (get_original_file env w)
  match w.details.name_field with
  | none =>
    { w with details :=
      { w.details with name_field := some { is_entry := !use_label, text := name } } }
  | some name_field =>
    let new_widget := if use_label then name_field.is_entry else !name_field.is_entry
    if new_widget then
      { w with details :=
        { w.details with name_field := some { is_entry := !use_label, text := name } } }
    else if original_name = none ∨ original_name ≠ some name then
      if use_label then
        { w with details :=
          { w.details with name_field := some { name_field with text := name } } }
      else if name_field.text ≠ name then
        { w with details :=
          { w.details with name_field := some { name_field with text := name } } }
      else w
    else w

/-- The names `update_name_field` shows in a multi-file window: the display names
of the target files that are not gone, separated by `", "`. -/
def multi_file_names (env : FileEnv) : List NautilusFile → Bool → String → String
  | [], _, str => str
  | file :: l, first, str =>
    if !env.is_gone file then
      let str := if !first then str ++ ", " else str
      multi_file_names env l false (str ++ env.display_name file)
    else multi_file_names env l first str

/-- The function `update_name_field` (the text of the name label is not modelled).
The pointer `original_name` read from the old widget is used after
`set_name_field`, as in the source. -/
def update_name_field (env : FileEnv) (w : World) : World :=
  if is_multi_file_window env w then
    set_name_field env w none (multi_file_names env w.details.target_files true "")
  else
    let file := get_original_file env w
    let current_name :=
      match file with
      | none => ""
      | some file => if env.is_gone file then "" else env.display_name file
    let original_name :=
      match w.details.name_field with
      | none => none
      | some name_field => name_field.original_name
    let w := set_name_field env w original_name current_name
    if original_name = none ∨ original_name ≠ some current_name then
      let name_field := w.details.name_field.map
        (fun name_field => { name_field with original_name := some current_name })
      { w with details := { w.details with name_field := name_field } }
    else w

/-- The function `name_field_restore_original_name`. -/
def name_field_restore_original_name (name_field : NameField) : NameField :=
  match name_field.original_name with
  | none => name_field
  | some original_name =>
    let name_field :=
      if original_name ≠ name_field.text then { name_field with text := original_name }
      else name_field
    { name_field with selected_all := true }

/-- The function `name_field_done_editing`, called for the name field of the window
by `name_field_focus_out` and `name_field_activate`.  The result is `none` when
`strcmp` is called with a NULL `original_name`. -/
def name_field_done_editing (env : FileEnv) (w : World) : Option World :=
  match w.details.name_field with
  | none => some w
  | some name_field =>
    if !name_field.is_entry then some w
    else if is_multi_file_window env w then some w
    else
      match get_original_file env w with
      | none => some w
      | some file =>
        if env.is_gone file then some w
        else
          let new_name := name_field.text
          if new_name.length = 0 then
            some { w with details :=
              { w.details with name_field := some (name_field_restore_original_name name_field) } }
          else
            match name_field.original_name with
            | none => none
            | some original_name =>
              if new_name ≠ original_name then
                some { w with
                  details := { w.details with pending_name := some new_name }
                  rename_calls := w.rename_calls ++ [(file, new_name)] }
              else some w

/-! ## Custom icons -/

/-- The loop of `set_icon` over the original files, for an icon URI that has the
local path `icon_path`. -/
def set_icon_loop (env : FileEnv) (icon_uri icon_path : String) :
    List NautilusFile → World → World
  | [], w => w
  | file :: l, w =>
    let file_uri := env.uri file
    let w :=
      if env.is_mime_type file "application/x-desktop" then
        let w := { w with link_icon_calls := w.link_icon_calls ++ [(file_uri, icon_path)] }
        if env.link_local_set_icon file_uri icon_path then
          { w with invalidated_files := w.invalidated_files ++ [file] }
        else w
      else
        let real_icon_uri :=
          match make_relative_uri_from_full icon_uri file_uri with
          | some real_icon_uri => real_icon_uri
          | none => icon_uri
        { w with metadata_calls := w.metadata_calls ++
            [{ file := file, key := MetadataKey.NAUTILUS_METADATA_KEY_CUSTOM_ICON,
               value := some real_icon_uri },
             { file := file, key := MetadataKey.NAUTILUS_METADATA_KEY_ICON_SCALE,
               value := none }] }
    set_icon_loop env icon_uri icon_path l w

/-- The function `set_icon`. -/
def set_icon (env : FileEnv) (w : World) (icon_uri : String) : World :=
  match env.filename_from_uri icon_uri with
  | some icon_path => set_icon_loop env icon_uri icon_path w.details.original_files w
  | none => w

/-- The function `uri_is_local_image`. -/
def uri_is_local_image (env : FileEnv) (uri : String) : Bool :=
  match env.filename_from_uri uri with
  | none => false
  | some image_path => env.pixbuf_new_from_file image_path

/-- The function `nautilus_properties_window_drag_data_received`; `data` is the
string of the selection data. -/
def nautilus_properties_window_drag_data_received (env : FileEnv) (w : World) (data : String) :
    World :=
  let uris := g_strsplit_crlf data
  match uris with
  | [] =>
    { w with error_dialogs :=
        w.error_dialogs ++ ["You cannot assign more than one custom icon at a time!"] }
  | uri0 :: rest =>
    let exactly_one :=
      match rest with
      | [] => true
      | uri1 :: _ => decide (uri1.data.head? = none)
    if !exactly_one then
      { w with error_dialogs :=
          w.error_dialogs ++ ["You cannot assign more than one custom icon at a time!"] }
    else if uri_is_local_image env uri0 then set_icon env w uri0
    else if !env.uri_is_native uri0 then
      { w with error_dialogs := w.error_dialogs ++ ["The file that you dropped is not local."] }
    else
      { w with error_dialogs :=
          w.error_dialogs ++ ["The file that you dropped is not an image."] }

/-! ## Volume usage -/

/-- The function `create_pie_widget`, as far as the model goes: it connects
`paint_pie_chart` to the `draw` signal of the pie canvas. -/
def create_pie_widget (w : World) : World :=
  { w with details := { w.details with pie_chart_connected := true } }

/-- The function `create_volume_usage_widget`: the window and whether the widget
it returns is not NULL.  The three fields are `guint64`. -/
def create_volume_usage_widget (env : FileEnv) (w : World) : World × Bool :=
  let info :=
    match get_original_file env w with
    | none => none
    | some file => env.filesystem_info file
  let w :=
    match info with
    | some (size, free, used) =>
      let volume_capacity := size % 2 ^ 64
      let volume_free := free % 2 ^ 64
      let volume_used :=
        match used with
        | some used => used % 2 ^ 64
        | none => (volume_capacity + 2 ^ 64 - volume_free) % 2 ^ 64
      { w with details :=
        { w.details with
          volume_capacity := volume_capacity
          volume_free := volume_free
          volume_used := volume_used } }
    | none =>
      { w with details :=
        { w.details with volume_capacity := 0, volume_free := 0, volume_used := 0 } }
  if w.details.volume_capacity > 0 then (create_pie_widget w, true) else (w, false)

/-- The two quotients `paint_pie_chart` computes, `volume_free / volume_capacity`
and `volume_used / volume_capacity`, each as numerator and denominator (the source
divides the values as `double`); `none` when the divisor `volume_capacity` is 0. -/
def paint_pie_chart (w : World) : Option ((Nat × Nat) × (Nat × Nat)) :=
  if w.details.volume_capacity = 0 then none
  else
    some ((w.details.volume_free, w.details.volume_capacity),
      (w.details.volume_used, w.details.volume_capacity))

/-! ## Deep count signals -/

/-- The function `schedule_directory_contents_update`. -/
def schedule_directory_contents_update (w : World) : World :=
  if w.details.update_directory_contents_timeout_id = 0 then
    let r := g_timeout_add w.main SourceFunc.update_directory_contents_callback
    { w with
      main := r.1
      details := { w.details with update_directory_contents_timeout_id := r.2 } }
  else w

/-- The file emits `updated-deep-count-in-progress`: the handler
`schedule_directory_contents_update` runs when `start_deep_count_for_file` has
connected it for this file and `stop_deep_count_for_file` has not disconnected it. -/
def updated_deep_count_in_progress (w : World) (file : NautilusFile) : World :=
  if file ∈ w.details.deep_count_signal_files then schedule_directory_contents_update w else w

/-- The part of `append_directory_contents_fields` after the widgets are made: the
deep count is started for every target file and the initial value is filled in. -/
def append_directory_contents_fields (env : FileEnv) (w : World) : World :=
  directory_contents_value_field_update env
    (w.details.target_files.foldl (start_deep_count_for_file env) w)

/-! ## Events of a window -/

/-- What can happen to a window after it is built: a file emits `changed` or
`updated-deep-count-in-progress`, a pending timeout source fires, the group combo
changes, a group operation ends, the name field is updated from the file or its
editing ends, an icon is dropped or chosen, the window is destroyed, the owner
combo changes, an owner operation ends. -/
inductive WindowEvent where
  | file_changed (file : NautilusFile)
  | deep_count_in_progress (file : NautilusFile)
  | timeout (source : Nat × SourceFunc)
  | group_combo_changed (group : Option String) (file : NautilusFile)
  | group_change_done (change : Nat)
  | name_field_update
  | name_field_done
  | icon_dropped (data : String)
  | icon_chosen (uri : String)
  | destroy
  | owner_combo_changed (new_owner : Option String) (file : NautilusFile)
  | owner_change_done (change : Nat)
  deriving DecidableEq, Repr

/-- One event, with the state of the file layer at its time; `none` when the
handler does not return.  A timeout fires only while its source is pending. -/
def window_step (env : FileEnv) (w : World) : WindowEvent → Option World
  | WindowEvent.file_changed file => some (file_changed_callback w file)
  | WindowEvent.deep_count_in_progress file => some (updated_deep_count_in_progress w file)
  | WindowEvent.timeout source =>
    if source ∈ w.main.sources then some (source_fired env w source) else some w
  | WindowEvent.group_combo_changed group file => some (changed_group_callback env w group file)
  | WindowEvent.group_change_done change => some (group_change_callback w change)
  | WindowEvent.name_field_update => some (update_name_field env w)
  | WindowEvent.name_field_done => name_field_done_editing env w
  | WindowEvent.icon_dropped data =>
    some (nautilus_properties_window_drag_data_received env w data)
  | WindowEvent.icon_chosen uri => some (set_icon env w uri)
  | WindowEvent.destroy => some (real_destroy w)
  | WindowEvent.owner_combo_changed new_owner file =>
    some (changed_owner_callback env w new_owner file)
  | WindowEvent.owner_change_done change => some (owner_change_callback w change)

/-- A sequence of events, each with the state of the file layer at its time. -/
def window_run : List (FileEnv × WindowEvent) → World → Option World
  | [], w => some w
  | (env, event) :: events, w =>
    match window_step env w event with
    | none => none
    | some w => window_run events w

/-! ## Concrete states used in the examples of the name field, icons and counts -/

/-- File 1 is gone. -/
def gone_file_env : FileEnv := { is_gone := fun f => f == 1 }

/-- A single-file window for file 1 whose name entry was cleared by the user; the
stored original name is `foo`. -/
def cleared_entry_window : World :=
  { details :=
    { original_files := [1], target_files := [1]
      name_field := some { is_entry := true, text := "", original_name := some "foo" } } }

/-- File 1 is called `foo`. -/
def foo_env : FileEnv := { display_name := fun _ => "foo" }

/-- File 1 is called `foo` and can no longer be renamed. -/
def foo_locked_env : FileEnv := { display_name := fun _ => "foo", can_rename := fun _ => false }

/-- File 1 is called `bar` now. -/
def bar_env : FileEnv := { display_name := fun _ => "bar" }

/-- A single-file window for file 1 in whose name entry the user has typed `draft`;
the stored original name is `foo`. -/
def draft_entry_window : World :=
  { details :=
    { original_files := [1], target_files := [1]
      name_field := some { is_entry := true, text := "draft", original_name := some "foo" } } }

/-- The file layer for a drop: `file:///a.png` is a local image at `/a.png`, and
file 1 has the URI `file:///home/doc`. -/
def drop_env : FileEnv :=
  { uri := fun _ => "file:///home/doc"
    filename_from_uri := fun uri => if uri = "file:///a.png" then some "/a.png" else none
    pixbuf_new_from_file := fun path => path == "/a.png" }

/-- The file layer for an icon inside the folder it is set on: file 1 has the URI
`file:///home/doc` and the icon `file:///home/doc/a.png` is at `/home/doc/a.png`. -/
def beneath_env : FileEnv :=
  { uri := fun _ => "file:///home/doc"
    filename_from_uri := fun uri =>
      if uri = "file:///home/doc/a.png" then some "/home/doc/a.png" else none }

/-- A window for the one file 1. -/
def one_file_window : World :=
  { details := { original_files := [1], target_files := [1] } }

/-- The run in which an entry without a stored original name arises: the window of
file 1 is filled while the file cannot be renamed, then updated when it can be. -/
def relabel_events : List (FileEnv × WindowEvent) :=
  [(foo_locked_env, WindowEvent.name_field_update), (foo_env, WindowEvent.name_field_update)]

/-- Directory 1 while its deep count runs: nothing counted yet. -/
def counting_env : FileEnv :=
  { is_directory := fun _ => true
    deep_counts := fun _ => { done := false } }

/-- Directory 1 with its deep count done: 3 files, 1 directory, 100 bytes. -/
def counted_env : FileEnv :=
  { is_directory := fun _ => true
    deep_counts := fun _ => { file_count := 3, directory_count := 1, total_size := 100 } }

/-- Directory 1 with its later deep count done: 5 files, 1 directory, 200 bytes. -/
def recounted_env : FileEnv :=
  { is_directory := fun _ => true
    deep_counts := fun _ => { file_count := 5, directory_count := 1, total_size := 200 } }

/-- The run of a window for the directory 1: the first deep count ends and the
total is displayed; then the directory changes, which starts a recount; the recount
reports progress, ends, and the directory emits `changed`.  Every update timeout
fires. -/
def recount_events : List (FileEnv × WindowEvent) :=
  [(counted_env, WindowEvent.deep_count_in_progress 1),
   (counted_env, WindowEvent.timeout (2, SourceFunc.update_directory_contents_callback)),
   (counting_env, WindowEvent.file_changed 1),
   (counting_env, WindowEvent.timeout (3, SourceFunc.update_files_callback)),
   (recounted_env, WindowEvent.deep_count_in_progress 1),
   (recounted_env, WindowEvent.file_changed 1),
   (recounted_env, WindowEvent.timeout (4, SourceFunc.update_files_callback))]

/-- The file layer in which file 1 is on a volume of 1000 bytes with 400 free. -/
def volume_env : FileEnv := { filesystem_info := fun _ => some (1000, 400, none) }

/-! ## What the volume usage widget depends on -/

/-- The three volume fields of the window and whether `paint_pie_chart` is
connected. -/
def volume_state (w : World) : Nat × Nat × Nat × Bool :=
  (w.details.volume_capacity, w.details.volume_free, w.details.volume_used,
    w.details.pie_chart_connected)

/-! ## What the contents label depends on -/

/-- The contents label with the state that decides whether it can be written again:
`deep_count_finished`, the connected deep count handlers and the id of the pending
contents update. -/
def contents_view (w : World) : Option ContentsText × Bool × List NautilusFile × Nat :=
  (w.details.directory_contents_value_field, w.details.deep_count_finished,
    w.details.deep_count_signal_files, w.details.update_directory_contents_timeout_id)

/-- No pending timeout source would call `update_directory_contents_callback`. -/
def no_contents_source (main : MainContext) : Prop :=
  ∀ s ∈ main.sources, s.2 ≠ SourceFunc.update_directory_contents_callback

/-- The step from `w` to `w'` keeps the contents view and adds no contents update
source. -/
def same_contents (w w' : World) : Prop :=
  contents_view w' = contents_view w ∧ (no_contents_source w.main → no_contents_source w'.main)

/-- The state right after the total was displayed: `deep_count_finished` is set, no
deep count handler is connected and no contents update is pending. -/
def contents_frozen (w : World) : Prop :=
  w.details.deep_count_finished = true ∧ w.details.deep_count_signal_files = [] ∧
    w.details.update_directory_contents_timeout_id = 0 ∧ no_contents_source w.main


/-! ## Toggling the permission checkbox -/

/-- The arguments of one call `update_permissions (window, vfs_new_perm, vfs_mask,
is_folder, apply_to_both_folder_and_dir, use_original)`. -/
structure UpdatePermissionsCall where
  vfs_new_perm : Nat
  vfs_mask : Nat
  is_folder : Bool
  apply_to_both_folder_and_dir : Bool
  use_original : Bool
  deriving DecidableEq, Repr

/-- The function `permission_button_toggled`, the handler of `toggled` of a
permission checkbox: the button as the handler leaves it and the call of
`update_permissions` it ends with.  The pair `state` holds the C variables
`inconsistent` and `on`. -/
def permission_button_toggled (env : FileEnv) (target_files : List NautilusFile)
    (initial_permissions : FileTable Nat) (button : GtkToggleButton) :
    GtkToggleButton × UpdatePermissionsCall :=
  let permission_mask := button.permission % 2 ^ 32
  let is_folder := button.is_folder
  let is_special := button.is_special
  let state : Bool × Bool :=
    if button.active && !button.inconsistent then
      if initial_permission_state_consistent env target_files initial_permissions
          permission_mask is_folder is_special then (false, true)
      else (true, true)
    else if button.inconsistent && !button.active then (false, true)
    else (false, false)
  let inconsistent := state.1
  let is_on := state.2
  ({ button with active := is_on, inconsistent := inconsistent },
    { vfs_new_perm := if is_on then permission_mask else 0
      vfs_mask := permission_mask
      is_folder := is_folder
      apply_to_both_folder_and_dir := is_special
      use_original := inconsistent })

/-- The requests of `nautilus_file_set_permissions` a call of `update_permissions`
makes. -/
def update_permissions_requests (env : FileEnv) (target_files : List NautilusFile)
    (initial_permissions : FileTable Nat) (call : UpdatePermissionsCall) :
    List PermissionRequest :=
  update_permissions env target_files initial_permissions call.vfs_new_perm call.vfs_mask
    call.is_folder call.apply_to_both_folder_and_dir call.use_original

/-- A click on the checkbox: the toggle button flips its active flag and emits
`toggled`, which runs `permission_button_toggled`. -/
def permission_button_clicked (env : FileEnv) (target_files : List NautilusFile)
    (initial_permissions : FileTable Nat) (button : GtkToggleButton) :
    GtkToggleButton × UpdatePermissionsCall :=
  permission_button_toggled env target_files initial_permissions
    { button with active := !button.active }

/-- The state of the checkbox the user sees. -/
inductive CheckboxState where
  | unchecked
  | mixed
  | checked
  deriving DecidableEq, Repr

/-- The state a checkbox shows: unchecked when it is neither active nor
inconsistent, mixed when it is active and inconsistent, checked when it is active
and not inconsistent; a button that is inconsistent and not active shows no such
state. -/
def checkbox_state (button : GtkToggleButton) : Option CheckboxState :=
  match button.active, button.inconsistent with
  | false, false => some CheckboxState.unchecked
  | true, true => some CheckboxState.mixed
  | true, false => some CheckboxState.checked
  | false, true => none

/-- Two plain files with the modes 0755 and 0644 recorded as initial permissions. -/
def two_files_initial : FileTable Nat := [(1, 0o755), (2, 0o644)]

/-- The execute checkbox of a file window, as `add_execute_checkbox_with_label`
makes it: mask 0111, not for folders. -/
def execute_checkbox : GtkToggleButton :=
  set_up_permissions_checkbox gtk_check_button_new_with_mnemonic 0o111 false

/-- Two plain files that both have the mode 0644. -/
def plain_files_env : FileEnv := { permissions := fun _ => 0o644 }

/-! ## The permission bits of a class -/

/-- The constant `UNIX_PERM_USER_ALL`. -/
def UNIX_PERM_USER_ALL : Nat := UNIX_PERM_USER_READ ||| UNIX_PERM_USER_WRITE ||| UNIX_PERM_USER_EXEC
/-- The constant `UNIX_PERM_GROUP_ALL`. -/
def UNIX_PERM_GROUP_ALL : Nat :=
  UNIX_PERM_GROUP_READ ||| UNIX_PERM_GROUP_WRITE ||| UNIX_PERM_GROUP_EXEC
/-- The constant `UNIX_PERM_OTHER_ALL`. -/
def UNIX_PERM_OTHER_ALL : Nat :=
  UNIX_PERM_OTHER_READ ||| UNIX_PERM_OTHER_WRITE ||| UNIX_PERM_OTHER_EXEC

/-- The read, write and execute bits of a class. -/
def unix_perm_all : PermissionType → Nat
  | PERMISSION_USER => UNIX_PERM_USER_ALL
  | PERMISSION_GROUP => UNIX_PERM_GROUP_ALL
  | PERMISSION_OTHER => UNIX_PERM_OTHER_ALL

/-! ## The default rows of the dialog for enclosed files -/

/-- The constant `S_IRUSR`. -/
def S_IRUSR : Nat := 0o400
/-- The constant `S_IWUSR`. -/
def S_IWUSR : Nat := 0o200
/-- The constant `S_IXUSR`. -/
def S_IXUSR : Nat := 0o100
/-- The constant `S_IRWXU`. -/
def S_IRWXU : Nat := 0o700
/-- The constant `S_IRGRP`. -/
def S_IRGRP : Nat := 0o40
/-- The constant `S_IWGRP`. -/
def S_IWGRP : Nat := 0o20
/-- The constant `S_IXGRP`. -/
def S_IXGRP : Nat := 0o10
/-- The constant `S_IRWXG`. -/
def S_IRWXG : Nat := 0o70
/-- The constant `S_IROTH`. -/
def S_IROTH : Nat := 0o4
/-- The constant `S_IWOTH`. -/
def S_IWOTH : Nat := 0o2
/-- The constant `S_IXOTH`. -/
def S_IXOTH : Nat := 0o1
/-- The constant `S_IRWXO`. -/
def S_IRWXO : Nat := 0o7

/-- The function `gtk_combo_box_set_active_id` of GTK with an id that is not NULL:
the first row whose id column holds the id becomes the active row; without such a
row the combo is left as it is. -/
def gtk_combo_box_set_active_id (combo : GtkComboBox) (active_id : String) : GtkComboBox :=
  match tree_model_find_row (fun row => row.id == some active_id) combo.rows with
  | some iter => { combo with active := some iter }
  | none => combo

/-- The value of the variable `id` in `set_active_from_umask`; `mask` is the process
umask that `umask (0)` returns, and `mode_t` is an unsigned 32-bit type. -/
def set_active_from_umask_id (type : PermissionType) (is_folder : Bool) (mask : Nat) : String :=
  let initial :=
    if is_folder then S_IRWXU ||| S_IRWXG ||| S_IRWXO
    else S_IRUSR ||| S_IWUSR ||| S_IRGRP ||| S_IWGRP ||| S_IROTH ||| S_IWOTH
  let p := complement32 mask &&& initial
  match type with
  | PERMISSION_USER =>
    let p := p &&& complement32 (S_IRWXG ||| S_IRWXO)
    if p &&& S_IRWXU = S_IRWXU then "rwx"
    else if p &&& (S_IRUSR ||| S_IWUSR) = S_IRUSR ||| S_IWUSR then "rw"
    else if p &&& (S_IRUSR ||| S_IXUSR) = S_IRUSR ||| S_IXUSR then "rx"
    else if p &&& S_IRUSR = S_IRUSR then "r"
    else "none"
  | PERMISSION_GROUP =>
    let p := p &&& complement32 (S_IRWXU ||| S_IRWXO)
    if p &&& S_IRWXG = S_IRWXG then "rwx"
    else if p &&& (S_IRGRP ||| S_IWGRP) = S_IRGRP ||| S_IWGRP then "rw"
    else if p &&& (S_IRGRP ||| S_IXGRP) = S_IRGRP ||| S_IXGRP then "rx"
    else if p &&& S_IRGRP = S_IRGRP then "r"
    else "none"
  | PERMISSION_OTHER =>
    let p := p &&& complement32 (S_IRWXU ||| S_IRWXG)
    if p &&& S_IRWXO = S_IRWXO then "rwx"
    else if p &&& (S_IROTH ||| S_IWOTH) = S_IROTH ||| S_IWOTH then "rw"
    else if p &&& (S_IROTH ||| S_IXOTH) = S_IROTH ||| S_IXOTH then "rx"
    else if p &&& S_IROTH = S_IROTH then "r"
    else "none"

/-- The function `set_active_from_umask`. -/
def set_active_from_umask (combo : GtkComboBox) (type : PermissionType) (is_folder : Bool)
    (mask : Nat) : GtkComboBox :=
  gtk_combo_box_set_active_id combo (set_active_from_umask_id type is_folder mask)

/-- Whether the umask leaves a class without a default row: it masks the read bit
of the owner (id `none`, which the owner combos do not have), or, for a folder
combo, it masks the execute bit of the class but neither its read nor its write
bit (id `rw`, which the folder combos do not have). -/
def umask_without_row (type : PermissionType) (is_folder : Bool) (mask : Nat) : Bool :=
  (decide (type = PERMISSION_USER) && decide (mask &&& vfs_perms type 0 ≠ 0)) ||
    (is_folder && decide (mask &&& vfs_perms type 0 = 0) &&
      decide (mask &&& vfs_perms type 1 = 0) && decide (mask &&& vfs_perms type 2 ≠ 0))

/-! ## The value fields of the basic page -/

/-- The macro `INCONSISTENT_STATE_STRING`, a figure dash. -/
def INCONSISTENT_STATE_STRING : String := "‒"

/-- The function `get_target_file`: the data of the first link of `target_files`;
`none` when the list is NULL, where the function dereferences a NULL pointer. -/
def get_target_file (w : World) : Option NautilusFile :=
  w.details.target_files.head?

/-- The function `is_merged_trash_directory`. -/
def is_merged_trash_directory (env : FileEnv) (file : NautilusFile) : Bool :=
  env.uri file == "trash:///"

/-- The function `is_computer_directory`. -/
def is_computer_directory (env : FileEnv) (file : NautilusFile) : Bool :=
  env.uri file == "computer:///"

/-- The function `is_root_directory`. -/
def is_root_directory (env : FileEnv) (file : NautilusFile) : Bool :=
  env.is_root_directory file

/-- The function `is_network_directory`. -/
def is_network_directory (env : FileEnv) (file : NautilusFile) : Bool :=
  env.uri file == "network:///"

/-- The function `is_burn_directory`. -/
def is_burn_directory (env : FileEnv) (file : NautilusFile) : Bool :=
  env.uri file == "burn:///"

/-- The function `is_recent_directory`. -/
def is_recent_directory (env : FileEnv) (file : NautilusFile) : Bool :=
  env.uri file == "recent:///"

/-- The function `file_list_all_directories`. -/
def file_list_all_directories (env : FileEnv) (file_list : List NautilusFile) : Bool :=
  file_list.all env.is_directory

/-- The function `should_show_file_type`; no result when `get_target_file` has
none. -/
def should_show_file_type (env : FileEnv) (w : World) : Option Bool :=
  if !is_multi_file_window env w then
    match get_target_file w with
    | none => none
    | some file =>
      some (!(is_merged_trash_directory env file || is_computer_directory env file ||
        is_network_directory env file || is_burn_directory env file))
  else some true

/-- The function `should_show_location_info`. -/
def should_show_location_info (env : FileEnv) (w : World) : Option Bool :=
  if !is_multi_file_window env w then
    match get_target_file w with
    | none => none
    | some file =>
      some (!(is_merged_trash_directory env file || is_root_directory env file ||
        is_computer_directory env file || is_network_directory env file ||
        is_burn_directory env file))
  else some true

/-- The function `should_show_accessed_date`. -/
def should_show_accessed_date (env : FileEnv) (w : World) : Bool :=
  !file_list_all_directories env w.details.target_files

/-- The function `should_show_link_target`. -/
def should_show_link_target (env : FileEnv) (w : World) : Option Bool :=
  if !is_multi_file_window env w then
    match get_target_file w with
    | none => none
    | some file => some (env.is_symbolic_link file)
  else some false

/-- The function `location_show_original`: `g_list_nth_data` yields NULL for an
empty list. -/
def location_show_original (env : FileEnv) (w : World) : Bool :=
  match w.details.original_files.head? with
  | none => false
  | some file => !env.is_in_recent file

/-- The function `should_show_free_space`. -/
def should_show_free_space (env : FileEnv) (w : World) : Option Bool :=
  let special :=
    if !is_multi_file_window env w then
      match get_target_file w with
      | none => none
      | some file =>
        some (is_merged_trash_directory env file || is_computer_directory env file ||
          is_network_directory env file || is_recent_directory env file ||
          is_burn_directory env file)
    else some false
  special.map (fun special =>
    if special then false else file_list_all_directories env w.details.target_files)

/-- The function `should_show_volume_info`. -/
def should_show_volume_info (env : FileEnv) (w : World) : Bool :=
  if is_multi_file_window env w then false
  else
    match get_original_file env w with
    | none => false
    | some file => env.can_unmount file

/-- The function `should_show_volume_usage`. -/
def should_show_volume_usage (env : FileEnv) (w : World) : Bool :=
  if is_multi_file_window env w then false
  else
    match get_original_file env w with
    | none => false
    | some file => if env.can_unmount file then true else is_root_directory env file

/-- The function `attach_value_field_internal`: a new label with an empty text
and the three object data is prepended to `value_fields`. -/
def attach_value_field_internal (w : World) (file_attribute_name inconsistent_string : String)
    (show_original : Bool) : World :=
  { w with details :=
    { w.details with
      value_fields :=
        { file_attribute := file_attribute_name, inconsistent_string := inconsistent_string
          show_original := show_original, text := "" } :: w.details.value_fields } }

/-- The function `append_title_value_pair`, through `attach_value_field`. -/
def append_title_value_pair (w : World) (file_attribute_name inconsistent_state : String)
    (show_original : Bool) : World :=
  attach_value_field_internal w file_attribute_name inconsistent_state show_original

/-- The function `append_title_and_ellipsizing_value`, through
`attach_ellipsizing_value_field`. -/
def append_title_and_ellipsizing_value (w : World)
    (file_attribute_name inconsistent_state : String) (show_original : Bool) : World :=
  attach_value_field_internal w file_attribute_name inconsistent_state show_original

/-- The function `create_basic_page`: the name field, the value fields, the
contents fields and the volume usage widget; the icon and the box of a desktop
item are not modelled.  No result when `get_target_file` is used on a window
without target files. -/
def create_basic_page (env : FileEnv) (w : World) : Option World := do
  let w := update_name_field env { w with details := { w.details with name_field := none } }
  let name_field := w.details.name_field.map
    (fun name_field =>
      if name_field.is_entry then { name_field with selected_all := true } else name_field)
  let w := { w with details := { w.details with name_field := name_field } }
  let show_file_type ← should_show_file_type env w
  let w :=
    if show_file_type then
      append_title_and_ellipsizing_value w "detailed_type" INCONSISTENT_STATE_STRING false
    else w
  let show_link_target ← should_show_link_target env w
  let w :=
    if show_link_target then
      append_title_and_ellipsizing_value w "link_target" INCONSISTENT_STATE_STRING false
    else w
  let is_directory ←
    if is_multi_file_window env w then some true
    else (get_target_file w).map env.is_directory
  let w :=
    if is_directory then append_directory_contents_fields env w
    else append_title_value_pair w "size_detail" INCONSISTENT_STATE_STRING false
  let show_location_info ← should_show_location_info env w
  let w :=
    if show_location_info then
      append_title_and_ellipsizing_value w "where" INCONSISTENT_STATE_STRING
        (location_show_original env w)
    else w
  let w :=
    if should_show_volume_info env w then
      append_title_and_ellipsizing_value w "volume" INCONSISTENT_STATE_STRING false
    else w
  let w :=
    if should_show_accessed_date env w then
      append_title_value_pair
        (append_title_value_pair w "date_accessed_full" INCONSISTENT_STATE_STRING false)
        "date_modified_full" INCONSISTENT_STATE_STRING false
    else w
  let show_free_space ← should_show_free_space env w
  let w :=
    if show_free_space && !should_show_volume_usage env w then
      append_title_value_pair w "free_space" INCONSISTENT_STATE_STRING false
    else w
  let w :=
    if should_show_volume_usage env w then (create_volume_usage_widget env w).1 else w
  some w

/-! ## The dialog for the permissions of enclosed files -/

/-- The constant `GTK_RESPONSE_OK`. -/
def GTK_RESPONSE_OK : Int := -5

/-- The constant `GTK_RESPONSE_CANCEL`. -/
def GTK_RESPONSE_CANCEL : Int := -6

/-- The call `gtk_widget_destroy (GTK_WIDGET (dialog))`: the dialog holds the only
references to the combo boxes in its grid, so they are destroyed and freed with
it. -/
def gtk_widget_destroy_dialog (w : World) (dialog : Nat) : World :=
  { w with dialog_combos := w.dialog_combos.filter (fun combo => combo.2.1 != dialog) }

/-- One of the six steps of `on_change_permissions_clicked`: a combo is made by
`create_permissions_combo_box`, its address is prepended to
`change_permission_combos`, its row is set by `set_active_from_umask` and it is
attached to the grid of the dialog. -/
def add_change_permission_combo (w : World) (dialog : Nat) (type : PermissionType)
    (is_folder : Bool) (mask : Nat) : World :=
  let combo := w.next_widget + 1
  { w with
    next_widget := combo
    dialog_combos := w.dialog_combos ++
      [(combo, dialog,
        set_active_from_umask (create_permissions_combo_box type is_folder) type is_folder mask)]
    details :=
      { w.details with
        change_permission_combos := combo :: w.details.change_permission_combos } }

/-- The function `on_change_permissions_clicked`: the window and the address of the
new dialog; `mask` is the process umask. -/
def on_change_permissions_clicked (w : World) (mask : Nat) : World × Nat :=
  let dialog := w.next_widget + 1
  let w := { w with next_widget := dialog }
  let w := add_change_permission_combo w dialog PERMISSION_USER false mask
  let w := add_change_permission_combo w dialog PERMISSION_USER true mask
  let w := add_change_permission_combo w dialog PERMISSION_GROUP false mask
  let w := add_change_permission_combo w dialog PERMISSION_GROUP true mask
  let w := add_change_permission_combo w dialog PERMISSION_OTHER false mask
  let w := add_change_permission_combo w dialog PERMISSION_OTHER true mask
  (w, dialog)

/-- The four values `on_change_permissions_response` collects from the combos. -/
structure EnclosedPermissions where
  file_permission : Nat := 0
  file_permission_mask : Nat := 0
  dir_permission : Nat := 0
  dir_permission_mask : Nat := 0
  deriving DecidableEq, Repr

/-- The first loop of `on_change_permissions_response`, over the addresses in
`change_permission_combos`.  An address of a combo that was destroyed is a dangling
pointer: reading the widget there has no defined result. -/
def on_change_permissions_response_loop (w : World) :
    List Nat → EnclosedPermissions → Option EnclosedPermissions
  | [], acc => some acc
  | combo :: l, acc =>
    match w.dialog_combos.lookup combo with
    | none => none
    | some (_, combo) =>
      match combo.active with
      | none => on_change_permissions_response_loop w l acc
      | some iter =>
        match combo.rows[iter]? with
        | none => on_change_permissions_response_loop w l acc
        | some row =>
          if row.use_original then on_change_permissions_response_loop w l acc
          else
            let type := combo.permission_type
            let is_folder := combo.is_folder
            let vfs_new_perm := permission_to_vfs type row.value
            let mask :=
              if is_folder then PERMISSION_READ ||| PERMISSION_WRITE ||| PERMISSION_EXEC
              else PERMISSION_READ ||| PERMISSION_WRITE
            let vfs_mask := permission_to_vfs type mask
            let acc :=
              if is_folder then
                { acc with
                  dir_permission_mask := acc.dir_permission_mask ||| vfs_mask
                  dir_permission := acc.dir_permission ||| vfs_new_perm }
              else
                { acc with
                  file_permission_mask := acc.file_permission_mask ||| vfs_mask
                  file_permission := acc.file_permission ||| vfs_new_perm }
            on_change_permissions_response_loop w l acc

/-- The second loop of `on_change_permissions_response`: one call of
`nautilus_file_set_permissions_recursive` for every target folder whose
permissions can be set. -/
def set_permissions_recursive_calls (env : FileEnv) (p : EnclosedPermissions) :
    List NautilusFile → List RecursivePermissionsCall
  | [] => []
  | file :: l =>
    if env.is_directory file && env.can_set_permissions file then
      { uri := env.uri file
        file_permission := p.file_permission
        file_permission_mask := p.file_permission_mask
        dir_permission := p.dir_permission
        dir_permission_mask := p.dir_permission_mask } ::
        set_permissions_recursive_calls env p l
    else set_permissions_recursive_calls env p l

/-- The function `on_change_permissions_response`; `none` when it reads a combo
that was destroyed. -/
def on_change_permissions_response (env : FileEnv) (w : World) (dialog : Nat) (response : Int) :
    Option World :=
  if response ≠ GTK_RESPONSE_OK then some (gtk_widget_destroy_dialog w dialog)
  else
    match on_change_permissions_response_loop w w.details.change_permission_combos {} with
    | none => none
    | some p =>
      let w := { w with
        recursive_permissions_calls := w.recursive_permissions_calls ++
          set_permissions_recursive_calls env p w.details.target_files }
      some (gtk_widget_destroy_dialog w dialog)

/-- The user selects the row `iter` in a combo of a dialog
(`gtk_combo_box_set_active`). -/
def dialog_combo_set_active (w : World) (combo : Nat) (iter : Nat) : World :=
  let dialog_combos := w.dialog_combos.map
    (fun c => if c.1 = combo then (c.1, c.2.1, { c.2.2 with active := some iter }) else c)
  { w with dialog_combos := dialog_combos }

/-- The dialogs to which the combos at the given addresses belong; `none` for a
combo that was destroyed. -/
def dialogs_of_combos (w : World) (combos : List Nat) : List (Option Nat) :=
  combos.map (fun combo => (w.dialog_combos.lookup combo).map (fun c => c.1))

/-! ## What the file lists, the update timer and the assertions depend on -/

/-- The two file lists, the list of changed files, the id of the update timer and
the record of failed assertions. -/
def core_state (w : World) :
    List NautilusFile × List NautilusFile × List NautilusFile × Nat × List String :=
  (w.details.original_files, w.details.target_files, w.details.changed_files,
    w.details.update_files_timeout_id, w.failed_asserts)

/-- The update timer is set exactly when there are changed files. -/
def update_timer_matches (w : World) : Prop :=
  w.details.update_files_timeout_id ≠ 0 ↔ w.details.changed_files ≠ []

/-- What a handler keeps when it takes `w` to `w'`: no assertion fails, target
files that are the images of the original files under a map stay so, and the
update timer keeps matching the changed files. -/
def core_step (w w' : World) : Prop :=
  w'.failed_asserts = w.failed_asserts ∧
  (∀ f : NautilusFile → NautilusFile,
    w.details.target_files = w.details.original_files.map f →
    w'.details.target_files = w'.details.original_files.map f) ∧
  (update_timer_matches w → update_timer_matches w')

/-! ## Pending owner and group changes -/

/-- Whether a source is an owner change timeout. -/
def is_owner_change_timeout : Nat × SourceFunc → Bool
  | (_, SourceFunc.schedule_owner_change_timeout _) => true
  | _ => false

/-- The pending owner change timeouts. -/
def owner_change_timeouts (w : World) : List (Nat × SourceFunc) :=
  w.main.sources.filter is_owner_change_timeout

/-- The owner change timeout the window knows of: the timeout of
`window->details->owner_change` while that change has not been started. -/
def expected_owner_change_timeouts (w : World) : List (Nat × SourceFunc) :=
  match w.details.owner_change with
  | none => []
  | some change =>
    match w.owner_changes.lookup change with
    | none => []
    | some c =>
      if c.timeout = 0 then [] else [(c.timeout, SourceFunc.schedule_owner_change_timeout change)]

/-- The events of the change flow: a change of the owner or group combo, the
expiry of a change timeout, and the end of an owner or group operation. -/
def is_change_event : WindowEvent → Bool
  | WindowEvent.group_combo_changed _ _ => true
  | WindowEvent.group_change_done _ => true
  | WindowEvent.owner_combo_changed _ _ => true
  | WindowEvent.owner_change_done _ => true
  | WindowEvent.timeout (_, SourceFunc.schedule_group_change_timeout _) => true
  | WindowEvent.timeout (_, SourceFunc.schedule_owner_change_timeout _) => true
  | _ => false

/-- Whether an event can happen in a state: an operation can only end when it was
started, that is when its change is allocated and its timeout has fired. -/
def change_event_enabled (w : World) : WindowEvent → Bool
  | WindowEvent.group_change_done change =>
    match w.group_changes.lookup change with
    | some c => c.timeout == 0
    | none => false
  | WindowEvent.owner_change_done change =>
    match w.owner_changes.lookup change with
    | some c => c.timeout == 0
    | none => false
  | _ => true

/-- A run of events of the change flow, each of which can happen in its state: the
state it ends in. -/
def change_run : List (FileEnv × WindowEvent) → World → Option World
  | [], w => some w
  | (env, event) :: events, w =>
    if is_change_event event && change_event_enabled w event then
      match window_step env w event with
      | none => none
      | some w => change_run events w
    else none

/-- The main context and the change slots agree: the ids of the pending sources are
distinct and were handed out, and the pending change timeouts are those of the
changes in the two slots. -/
def changes_consistent (w : World) : Prop :=
  (w.main.sources.map (fun s => s.1)).Nodup ∧
  (∀ s ∈ w.main.sources, s.1 ≤ w.main.next_source_id) ∧
  group_change_timeouts w = expected_group_change_timeouts w ∧
  owner_change_timeouts w = expected_owner_change_timeouts w

/-! ## Concrete states used in the examples of the permission page and of the lists -/

/-- File 1 is a plain file and file 2 is a folder. -/
def file_and_folder_env : FileEnv := { is_directory := fun f => f == 2 }

/-- The same files after file 1 was deleted. -/
def file_gone_env : FileEnv := { is_directory := fun f => f == 2, is_gone := fun f => f == 1 }

/-- A window for the file 1 and the folder 2 with the two owner combos that
`create_simple_permissions` adds for such a selection, the folder combo first and
the file combo prepended after it. -/
def file_and_folder_window : World :=
  { details :=
    { original_files := [1, 2], target_files := [1, 2]
      permission_combos :=
        [create_permissions_combo_box PERMISSION_USER false,
         create_permissions_combo_box PERMISSION_USER true] } }

/-- The file layer in which the URI of file 1 is `a;b` and files 2 and 3 have the
URIs `a` and `b`. -/
def semicolon_env : FileEnv :=
  { uri := fun f => if f = 1 then "a;b" else if f = 2 then "a" else "b" }

/-- File 1 is a link in `/home/user` whose activation URI is the URI of file 2,
which lies in `/data`. -/
def link_env : FileEnv :=
  { activation_target := fun f => if f = 1 then some 2 else none
    uri := fun f => if f = 1 then "file:///home/user/link" else "file:///data/target"
    string_attribute_with_default := fun f name =>
      if name = "where" then (if f = 1 then "/home/user" else "/data") else "" }

/-- The same files after the link was moved to `/srv`. -/
def moved_link_env : FileEnv :=
  { activation_target := fun f => if f = 1 then some 2 else none
    uri := fun f => if f = 1 then "file:///srv/link" else "file:///data/target"
    string_attribute_with_default := fun f name =>
      if name = "where" then (if f = 1 then "/srv" else "/data") else "" }

/-- The window `create_properties_window` builds for the link 1, as far as the
model goes: the lists of the startup data, the basic page, and the update from the
initial state. -/
def link_window : Option World :=
  (create_basic_page link_env
    { details := { original_files := [1], target_files := get_target_file_list link_env [1] } }).map
    (fun w => properties_window_update link_env w [])

/-- The value fields of a window that show the given attribute. -/
def value_fields_of (w : World) (file_attribute : String) : List ValueField :=
  w.details.value_fields.filter (fun label => label.file_attribute == file_attribute)

/-- A window for the folder 2. -/
def folder_window : World :=
  { details := { original_files := [2], target_files := [2] } }

/-- The dialog for enclosed files is opened on the window of folder 2 with the
umask 022 and cancelled. -/
def dialog_cancelled : Option World :=
  on_change_permissions_response file_and_folder_env
    (on_change_permissions_clicked folder_window 0o022).1
    (on_change_permissions_clicked folder_window 0o022).2 GTK_RESPONSE_CANCEL

/-- After that the dialog is opened again: the window and the second dialog. -/
def dialog_reopened : Option (World × Nat) :=
  dialog_cancelled.map (fun w => on_change_permissions_clicked w 0o022)

/-- The link 1 with its target 2, and file 3, which was deleted. -/
def link_gone_env : FileEnv :=
  { activation_target := fun f => if f = 1 then some 2 else none
    is_gone := fun f => f == 3 }

/-- A window for the link 1 and the file 3, with the target files that
`get_target_file_list` resolved. -/
def link_pair_window : World :=
  { details :=
    { original_files := [1, 3], target_files := get_target_file_list link_env [1, 3] } }

/-- File 3 is deleted and emits `changed`; the update timer fires. -/
def file_gone_events : List (FileEnv × WindowEvent) :=
  [(link_gone_env, WindowEvent.file_changed 3),
   (link_gone_env, WindowEvent.timeout (1, SourceFunc.update_files_callback))]

/-- The group combo changes twice, the change timer fires, the owner combo changes,
and the group operation ends. -/
def change_events : List (FileEnv × WindowEvent) :=
  [(users_env, WindowEvent.group_combo_changed (some "wheel") 1),
   (users_env, WindowEvent.group_combo_changed (some "staff") 1),
   (users_env, WindowEvent.timeout (2, SourceFunc.schedule_group_change_timeout 2)),
   (users_env, WindowEvent.owner_combo_changed (some "root") 1),
   (users_env, WindowEvent.group_combo_changed (some "wheel") 1),
   (users_env, WindowEvent.group_change_done 2)]

/-- The state of the window of file 1 after the events `change_events`. -/
def change_events_result : World :=
  (window_run change_events one_file_window).getD {}

/-! # Theorems -/

/-! ## Theorems: assertions and the change slots -/

lemma g_assert_true (w : World) (expr : String) : g_assert w true expr = w := rfl

lemma unschedule_or_cancel_group_change_slot (w : World) :
    (unschedule_or_cancel_group_change w).details.group_change = none := by
  unfold unschedule_or_cancel_group_change
  split
  · assumption
  · rfl

lemma unschedule_or_cancel_owner_change_slot (w : World) :
    (unschedule_or_cancel_owner_change w).details.owner_change = none := by
  unfold unschedule_or_cancel_owner_change
  split
  · assumption
  · rfl

/-- With an empty slot `schedule_group_change` allocates the change, starts its
timeout and stores it in the slot. -/
lemma schedule_group_change_eq (w : World) (file : NautilusFile) (group : String)
    (h : w.details.group_change = none) :
    schedule_group_change w file group =
      { w with
        next_change := w.next_change + 1
        main := (g_timeout_add w.main
          (SourceFunc.schedule_group_change_timeout (w.next_change + 1))).1
        group_changes :=
          (w.next_change + 1,
            { file := file, group := group
              timeout := (g_timeout_add w.main
                (SourceFunc.schedule_group_change_timeout (w.next_change + 1))).2 }) ::
            w.group_changes
        details := { w.details with group_change := some (w.next_change + 1) } } := by
  simp [schedule_group_change, g_assert, h]

/-- With an empty slot `schedule_owner_change` allocates the change, starts its
timeout and stores it in the slot. -/
lemma schedule_owner_change_eq (w : World) (file : NautilusFile) (owner : String)
    (h : w.details.owner_change = none) :
    schedule_owner_change w file owner =
      { w with
        next_change := w.next_change + 1
        main := (g_timeout_add w.main
          (SourceFunc.schedule_owner_change_timeout (w.next_change + 1))).1
        owner_changes :=
          (w.next_change + 1,
            { file := file, owner := owner
              timeout := (g_timeout_add w.main
                (SourceFunc.schedule_owner_change_timeout (w.next_change + 1))).2 }) ::
            w.owner_changes
        details := { w.details with owner_change := some (w.next_change + 1) } } := by
  simp [schedule_owner_change, g_assert, h]

lemma unschedule_or_cancel_owner_change_update_calls (w : World) :
    (unschedule_or_cancel_owner_change w).update_calls = w.update_calls := by
  unfold unschedule_or_cancel_owner_change
  split
  · rfl
  · simp only
    split
    · rfl
    · split <;> rfl

/-! ## Theorems: value fields -/

lemma attributes_identical_loop_some (env : FileEnv) (a : String) (fa : String) :
    ∀ l : List NautilusFile,
      file_list_attributes_identical_loop env a l (some fa) = true ↔
        ∀ f ∈ l, env.is_gone f = false → env.string_attribute_with_default f a = fa := by
  intro l
  induction l with
  | nil => simp [file_list_attributes_identical_loop]
  | cons x xs ih =>
    by_cases hg : env.is_gone x = true
    · simp [file_list_attributes_identical_loop, hg, ih]
    · by_cases hx : env.string_attribute_with_default x a = fa
      · simp [file_list_attributes_identical_loop, hg, ih, hx]
      · simp [file_list_attributes_identical_loop, hg, hx]

lemma attributes_identical_loop_none (env : FileEnv) (a : String) :
    ∀ l : List NautilusFile,
      file_list_attributes_identical_loop env a l none = true ↔
        ∀ f ∈ l, ∀ g ∈ l, env.is_gone f = false → env.is_gone g = false →
          env.string_attribute_with_default f a = env.string_attribute_with_default g a := by
  intro l
  induction l with
  | nil => simp [file_list_attributes_identical_loop]
  | cons x xs ih =>
    by_cases hg : env.is_gone x = true
    · simp [file_list_attributes_identical_loop, hg, ih]
    · simp only [Bool.not_eq_true] at hg
      simp only [file_list_attributes_identical_loop, hg, Bool.false_eq_true, if_false,
        attributes_identical_loop_some]
      constructor
      · intro h f hf g hgm hfg hgg
        have key : ∀ y ∈ x :: xs, env.is_gone y = false →
            env.string_attribute_with_default y a = env.string_attribute_with_default x a := by
          intro y hy hyg
          rcases List.mem_cons.1 hy with rfl | hy'
          · rfl
          · exact h y hy' hyg
        rw [key f hf hfg, key g hgm hgg]
      · intro h f hf hfg
        exact h f (List.mem_cons_of_mem _ hf) x (List.mem_cons_self _ _) hfg hg

lemma first_not_gone_attribute_all_gone (env : FileEnv) (a : String) :
    ∀ l : List NautilusFile, (∀ f ∈ l, env.is_gone f = true) →
      first_not_gone_attribute env a l = "unknown" := by
  intro l
  induction l with
  | nil => intro _; rfl
  | cons x xs ih =>
    intro h
    have hx := h x (List.mem_cons_self _ _)
    simp [first_not_gone_attribute, hx]
    exact ih (fun f hf => h f (List.mem_cons_of_mem _ hf))

lemma first_not_gone_attribute_mem (env : FileEnv) (a : String) :
    ∀ l : List NautilusFile, (∃ f ∈ l, env.is_gone f = false) →
      ∃ f ∈ l, env.is_gone f = false ∧
        first_not_gone_attribute env a l = env.string_attribute_with_default f a := by
  intro l
  induction l with
  | nil => simp
  | cons x xs ih =>
    intro h
    by_cases hg : env.is_gone x = true
    · obtain ⟨f, hf, hfg⟩ := h
      have hfx : f ∈ xs := by
        rcases List.mem_cons.1 hf with rfl | h'
        · rw [hg] at hfg; cases hfg
        · exact h'
      obtain ⟨g, hgm, hgg, hgv⟩ := ih ⟨f, hfx, hfg⟩
      exact ⟨g, List.mem_cons_of_mem _ hgm, hgg, by simp [first_not_gone_attribute, hg, hgv]⟩
    · simp only [Bool.not_eq_true] at hg
      exact ⟨x, List.mem_cons_self _ _, hg, by simp [first_not_gone_attribute, hg]⟩

lemma attributes_identical_loop_filter (env : FileEnv) (a : String) :
    ∀ (l : List NautilusFile) (o : Option String),
      file_list_attributes_identical_loop env a (l.filter (fun f => !env.is_gone f)) o =
        file_list_attributes_identical_loop env a l o := by
  intro l
  induction l with
  | nil => intro o; rfl
  | cons x xs ih =>
    intro o
    by_cases hg : env.is_gone x = true
    · simp [file_list_attributes_identical_loop, hg, ih]
    · simp only [Bool.not_eq_true] at hg
      cases o with
      | none => simp [file_list_attributes_identical_loop, hg, ih]
      | some fa => simp [file_list_attributes_identical_loop, hg, ih]

lemma first_not_gone_attribute_filter (env : FileEnv) (a : String) :
    ∀ l : List NautilusFile,
      first_not_gone_attribute env a (l.filter (fun f => !env.is_gone f)) =
        first_not_gone_attribute env a l := by
  intro l
  induction l with
  | nil => rfl
  | cons x xs ih =>
    by_cases hg : env.is_gone x = true
    · simp [first_not_gone_attribute, hg, ih]
    · simp only [Bool.not_eq_true] at hg
      simp [first_not_gone_attribute, hg]

/-- C9: `file_list_get_string_attribute` returns the common attribute string when
some file is not gone and all files that are not gone have that string, the
inconsistent marker when two files that are not gone differ, and `"unknown"` when
every file is gone; the result is the one for the list without its gone files. -/
theorem file_list_get_string_attribute_spec (env : FileEnv) (l : List NautilusFile)
    (a inconsistent : String) :
    (∀ v : String, (∃ f ∈ l, env.is_gone f = false) →
        (∀ f ∈ l, env.is_gone f = false → env.string_attribute_with_default f a = v) →
        file_list_get_string_attribute env l a inconsistent = v) ∧
    ((∃ f ∈ l, ∃ g ∈ l, env.is_gone f = false ∧ env.is_gone g = false ∧
        env.string_attribute_with_default f a ≠ env.string_attribute_with_default g a) →
        file_list_get_string_attribute env l a inconsistent = inconsistent) ∧
    ((∀ f ∈ l, env.is_gone f = true) →
        file_list_get_string_attribute env l a inconsistent = "unknown") ∧
    file_list_get_string_attribute env l a inconsistent =
      file_list_get_string_attribute env (l.filter (fun f => !env.is_gone f)) a inconsistent := by
  refine ⟨?_, ?_, ?_, ?_⟩
  · intro v hex hall
    have hid : file_list_attributes_identical env l a = true := by
      unfold file_list_attributes_identical
      rw [attributes_identical_loop_none]
      intro f hf g hg hfg hgg
      rw [hall f hf hfg, hall g hg hgg]
    obtain ⟨f, hf, hfg, hfv⟩ := first_not_gone_attribute_mem env a l hex
    simp [file_list_get_string_attribute, hid, hfv, hall f hf hfg]
  · rintro ⟨f, hf, g, hg, hfg, hgg, hne⟩
    have hid : file_list_attributes_identical env l a = false := by
      cases h : file_list_attributes_identical env l a with
      | false => rfl
      | true =>
        unfold file_list_attributes_identical at h
        rw [attributes_identical_loop_none] at h
        exact absurd (h f hf g hg hfg hgg) hne
    simp [file_list_get_string_attribute, hid]
  · intro hall
    have hid : file_list_attributes_identical env l a = true := by
      unfold file_list_attributes_identical
      rw [attributes_identical_loop_none]
      intro f hf g _ hfg _
      rw [hall f hf] at hfg
      cases hfg
    simp [file_list_get_string_attribute, hid, first_not_gone_attribute_all_gone env a l hall]
  · simp only [file_list_get_string_attribute, file_list_attributes_identical,
      attributes_identical_loop_filter, first_not_gone_attribute_filter]

/-! ## Theorems: the permission checkbox -/

lemma permission_button_update_loop_eq (env : FileEnv) (m : Nat) (is_folder : Bool)
    (hm0 : m ≠ 0) :
    ∀ (l : List NautilusFile) (s : ButtonScan),
      permission_button_update_loop env m is_folder false l s =
        { all_set := s.all_set &&
            (button_files env is_folder l).all
              (fun f => nautilus_file_get_permissions env f &&& m == m)
          all_unset := s.all_unset &&
            (button_files env is_folder l).all
              (fun f => nautilus_file_get_permissions env f &&& m == 0)
          all_cannot_set := s.all_cannot_set &&
            (button_files env is_folder l).all (fun f => !env.can_set_permissions f)
          no_match := s.no_match && (button_files env is_folder l).isEmpty } := by
  intro l
  induction l with
  | nil => intro s; simp [permission_button_update_loop, button_files]
  | cons x xs ih =>
    intro s
    unfold permission_button_update_loop
    by_cases hget : env.can_get_permissions x = true
    · cases hdir : env.is_directory x <;> cases is_folder <;>
        simp only [hget, hdir, button_files, List.filter_cons, Bool.not_true, Bool.not_false,
          Bool.and_true, Bool.and_false, Bool.or_false, Bool.false_or, Bool.true_and,
          Bool.false_and, beq_self_eq_true, Bool.false_eq_true, if_false, if_true,
          Bool.true_or, Bool.or_true, Bool.or_self, Bool.and_self, ih] <;>
        simp only [← button_files.eq_1, List.all_cons, List.isEmpty_cons, Bool.and_false,
          (by decide : (false == true) = false), (by decide : (true == false) = false),
          Bool.false_eq_true, if_false] <;>
        first
        | rfl
        | (by_cases h1 : nautilus_file_get_permissions env x &&& m = m
           · have h2 : nautilus_file_get_permissions env x &&& m ≠ 0 := by rw [h1]; exact hm0
             cases hset : env.can_set_permissions x <;>
               simp [h1, h2, hset, hm0, Bool.and_assoc]
           · by_cases h2 : nautilus_file_get_permissions env x &&& m = 0
             · cases hset : env.can_set_permissions x <;>
                 simp [h1, h2, hset, Ne.symm hm0, hm0, Bool.and_assoc]
             · cases hset : env.can_set_permissions x <;>
                 simp [h1, h2, hset, Bool.and_assoc])
    · simp only [Bool.not_eq_true] at hget
      simp [hget, button_files, ih]

/-- C6: `permission_button_update` on a checkbox with the non-empty mask `m`, where
`F` is the list of target files whose permissions can be read and whose kind
matches the checkbox: the checkbox is active iff some file of `F` has a bit of `m`
set; inconsistent iff (some file of `F` has a bit of `m` set and some file of `F`
lacks a bit of `m`) or (it is a file checkbox and `F` is empty); and sensitive iff
some file of `F` can have its permissions set. -/
theorem permission_button_update_spec (env : FileEnv) (target_files : List NautilusFile)
    (m : Nat) (is_folder a i s : Bool) (hm0 : m ≠ 0) (hm : m < 2 ^ 32) :
    let b := permission_button_update env target_files
      { set_up_permissions_checkbox gtk_check_button_new_with_mnemonic m is_folder with
        active := a, inconsistent := i, sensitive := s }
    let F := button_files env is_folder target_files
    (b.active = true ↔ ∃ f ∈ F, nautilus_file_get_permissions env f &&& m ≠ 0) ∧
    (b.inconsistent = true ↔
      ((∃ f ∈ F, nautilus_file_get_permissions env f &&& m ≠ 0) ∧
        (∃ f ∈ F, nautilus_file_get_permissions env f &&& m ≠ m)) ∨
      (is_folder = false ∧ F = [])) ∧
    (b.sensitive = true ↔ ∃ f ∈ F, env.can_set_permissions f = true) := by
  have hmod : m % 2 ^ 32 = m := Nat.mod_eq_of_lt hm
  simp only [permission_button_update, set_up_permissions_checkbox,
    gtk_check_button_new_with_mnemonic, hmod,
    permission_button_update_loop_eq env m is_folder hm0]
  refine ⟨?_, ?_, ?_⟩
  · simp
  · cases is_folder <;> simp [List.isEmpty_iff]
  · simp

/-! ## Theorems: requests of `update_permissions` -/

lemma testBit_complement32 (m j : Nat) :
    (complement32 m).testBit j = (decide (j < 32) && !m.testBit j) := by
  unfold complement32
  rw [Nat.testBit_xor, Nat.testBit_two_pow_sub_one, Nat.testBit_mod_two_pow]
  by_cases h : j < 32 <;> simp [h]

lemma testBit_merge32 (p i m j : Nat) :
    (((p % 2 ^ 32) &&& complement32 m) ||| ((i % 2 ^ 32) &&& (m % 2 ^ 32))).testBit j =
      (decide (j < 32) && (if m.testBit j then i.testBit j else p.testBit j)) := by
  rw [Nat.testBit_or, Nat.testBit_and, Nat.testBit_and, testBit_complement32,
    Nat.testBit_mod_two_pow, Nat.testBit_mod_two_pow, Nat.testBit_mod_two_pow]
  by_cases h : j < 32 <;> cases m.testBit j <;> simp [h]

lemma update_permissions_files (env : FileEnv) (tbl : FileTable Nat)
    (new m : Nat) (is_folder both use_original : Bool) :
    ∀ target_files : List NautilusFile,
      (update_permissions env target_files tbl new m is_folder both use_original).map
          (fun r => r.file) =
        target_files.filter
          (fun f => env.can_get_permissions f && (both || (env.is_directory f == is_folder))) := by
  intro l
  induction l with
  | nil => simp [update_permissions]
  | cons x xs ih =>
    unfold update_permissions
    cases hget : env.can_get_permissions x <;> cases hdir : env.is_directory x <;>
      cases is_folder <;> cases both <;> simp [hget, hdir, ih]

lemma update_permissions_mem (env : FileEnv) (tbl : FileTable Nat)
    (new m : Nat) (is_folder both use_original : Bool) :
    ∀ (target_files : List NautilusFile) (r : PermissionRequest),
      r ∈ update_permissions env target_files tbl new m is_folder both use_original →
        r.permissions =
          (if use_original then
            match g_hash_table_lookup_extended tbl r.file with
            | some ptr =>
              (nautilus_file_get_permissions env r.file &&& complement32 m) |||
                ((ptr % 2 ^ 32) &&& (m % 2 ^ 32))
            | none => nautilus_file_get_permissions env r.file
          else
            (nautilus_file_get_permissions env r.file &&& complement32 m) ||| (new % 2 ^ 32)) := by
  intro l
  induction l with
  | nil => intro r hr; simp [update_permissions] at hr
  | cons x xs ih =>
    intro r hr
    unfold update_permissions at hr
    simp only at hr
    split at hr
    · exact ih r hr
    · split at hr
      · exact ih r hr
      · rcases List.mem_cons.1 hr with rfl | h
        · rfl
        · exact ih r h

/-- C8: `update_permissions` with `use_original` set and mask `m`.  Requests go, in
order, to the target files whose permissions can be read and whose kind is the
kind of the control (or to both kinds when that is asked for).  For a requested
file with current permissions `p` and recorded initial permissions `i` the
requested permissions are `(p AND NOT m) OR (i AND m)`, bit by bit the bit of `i`
inside `m` and the bit of `p` outside; without a recorded value they are `p`.
Files whose permissions cannot be read, and files of the other kind when not
applying to both, receive no request. -/
theorem update_permissions_use_original (env : FileEnv) (target_files : List NautilusFile)
    (tbl : FileTable Nat) (new m : Nat) (is_folder both : Bool) :
    let reqs := update_permissions env target_files tbl new m is_folder both true
    reqs.map (fun r => r.file) =
        target_files.filter
          (fun f => env.can_get_permissions f && (both || (env.is_directory f == is_folder))) ∧
    (∀ r ∈ reqs, ∀ i, g_hash_table_lookup_extended tbl r.file = some i →
        r.permissions =
          ((nautilus_file_get_permissions env r.file &&& complement32 m) |||
            ((i % 2 ^ 32) &&& (m % 2 ^ 32))) ∧
        ∀ j, j < 32 → r.permissions.testBit j =
          if m.testBit j then i.testBit j
          else (nautilus_file_get_permissions env r.file).testBit j) ∧
    (∀ r ∈ reqs, g_hash_table_lookup_extended tbl r.file = none →
        r.permissions = nautilus_file_get_permissions env r.file) ∧
    (∀ r ∈ reqs, env.can_get_permissions r.file = true ∧
        (both = false → env.is_directory r.file = is_folder)) := by
  intro reqs
  have hfiles := update_permissions_files env tbl new m is_folder both true target_files
  refine ⟨hfiles, ?_, ?_, ?_⟩
  · intro r hr i hi
    have h := update_permissions_mem env tbl new m is_folder both true target_files r hr
    simp only [if_true, hi] at h
    refine ⟨h, fun j hj => ?_⟩
    rw [h]
    unfold nautilus_file_get_permissions
    rw [testBit_merge32, Nat.testBit_mod_two_pow]
    simp [hj]
  · intro r hr hi
    have h := update_permissions_mem env tbl new m is_folder both true target_files r hr
    simpa only [if_true, hi] using h
  · intro r hr
    have hmem : r.file ∈ reqs.map (fun r => r.file) := List.mem_map_of_mem _ hr
    rw [hfiles, List.mem_filter] at hmem
    have h2 := hmem.2
    simp only [Bool.and_eq_true, Bool.or_eq_true, beq_iff_eq] at h2
    refine ⟨h2.1, fun hb => ?_⟩
    rcases h2.2 with h | h
    · rw [hb] at h; cases h
    · exact h

/-! ## Theorems: editing an access combo -/

/-- The largest `PermissionValue` a combo of the given kind works with. -/
lemma combo_value_bound_eq (is_folder : Bool) :
    (if is_folder then PERMISSION_READ ||| PERMISSION_WRITE ||| PERMISSION_EXEC
      else PERMISSION_READ ||| PERMISSION_WRITE) = if is_folder then 7 else 3 := by
  cases is_folder <;> rfl

lemma permission_combo_update_loop_bound (env : FileEnv) (type : PermissionType) :
    ∀ (l : List NautilusFile) (s : ComboScan), s.all_dir_perm ≤ 7 → s.all_file_perm ≤ 3 →
      (permission_combo_update_loop env type l s).all_dir_perm ≤ 7 ∧
      (permission_combo_update_loop env type l s).all_file_perm ≤ 3 := by
  intro l
  induction l with
  | nil => intro s h1 h2; exact ⟨h1, h2⟩
  | cons x xs ih =>
    intro s h1 h2
    unfold permission_combo_update_loop
    split
    · exact ih s h1 h2
    · apply ih
      · simp only
        have hb : ∀ v : Nat, v &&& (PERMISSION_READ ||| PERMISSION_WRITE ||| PERMISSION_EXEC) ≤ 7 :=
          fun v => Nat.and_le_right
        split <;> (repeat' split) <;> first | exact h1 | exact hb _
      · simp only
        have hb : ∀ v : Nat, v &&& (PERMISSION_READ ||| PERMISSION_WRITE) ≤ 3 :=
          fun v => Nat.and_le_right
        split <;> (repeat' split) <;> first | exact h2 | exact hb _

lemma permission_combo_update_row_mem (is_folder all_same : Bool) (all_perm : Nat)
    (rows : List ComboRow) (row : ComboRow)
    (hrow : row ∈ (permission_combo_update_row is_folder all_same all_perm rows).1) :
    row ∈ rows ∨ row.value = 0 ∨ row.value = all_perm := by
  unfold permission_combo_update_row permission_combo_add_multiple_choice at hrow
  cases all_same
  · simp only [Bool.false_eq_true, if_false] at hrow
    cases hfind : tree_model_find_row (fun row => row.use_original) rows with
    | some iter => rw [hfind] at hrow; exact Or.inl hrow
    | none =>
      rw [hfind] at hrow
      simp only [List.mem_append, List.mem_singleton] at hrow
      rcases hrow with hrow | rfl
      · exact Or.inl hrow
      · exact Or.inr (Or.inl rfl)
  · simp only [if_true] at hrow
    cases hfind : tree_model_find_row (fun row => row.value == all_perm) rows with
    | some iter => rw [hfind] at hrow; exact Or.inl hrow
    | none =>
      rw [hfind] at hrow
      simp only [List.mem_append, List.mem_singleton] at hrow
      rcases hrow with hrow | rfl
      · exact Or.inl hrow
      · exact Or.inr (Or.inr rfl)

lemma permission_combo_update_rows (env : FileEnv) (l : List NautilusFile) (combo : GtkComboBox)
    (h : ∀ row ∈ combo.rows, row.value ≤ if combo.is_folder then 7 else 3) :
    (permission_combo_update env l combo).is_folder = combo.is_folder ∧
    (permission_combo_update env l combo).permission_type = combo.permission_type ∧
    ∀ row ∈ (permission_combo_update env l combo).rows,
      row.value ≤ if combo.is_folder then 7 else 3 := by
  have hb := permission_combo_update_loop_bound env combo.permission_type l {}
    (Nat.zero_le _) (Nat.zero_le _)
  refine ⟨rfl, rfl, ?_⟩
  intro row hrow
  rcases permission_combo_update_row_mem _ _ _ _ row hrow with h1 | h1 | h1
  · exact h row h1
  · rw [h1]; exact Nat.zero_le _
  · rw [h1]
    cases hf : combo.is_folder
    · simpa [hf] using hb.2
    · simpa [hf] using hb.1

lemma combo_after_rows (type : PermissionType) (is_folder : Bool) :
    ∀ updates : List (FileEnv × List NautilusFile),
      (combo_after type is_folder updates).is_folder = is_folder ∧
      (combo_after type is_folder updates).permission_type = type ∧
      ∀ row ∈ (combo_after type is_folder updates).rows,
        row.value ≤ if is_folder then 7 else 3 := by
  intro updates
  induction updates using List.reverseRecOn with
  | nil =>
    refine ⟨rfl, rfl, ?_⟩
    cases type <;> cases is_folder <;>
      simp [combo_after, create_permissions_combo_box, PERMISSION_READ, PERMISSION_WRITE,
        PERMISSION_EXEC]
  | append_singleton us u ih =>
    obtain ⟨h1, h2, h3⟩ := ih
    have hstep : combo_after type is_folder (us ++ [u]) =
        permission_combo_update u.1 u.2 (combo_after type is_folder us) := by
      simp [combo_after, List.foldl_append]
    rw [hstep]
    have := permission_combo_update_rows u.1 u.2 (combo_after type is_folder us)
      (by rw [h1]; exact h3)
    rw [h1, h2] at this
    exact this

lemma permission_to_vfs_within_mask (type : PermissionType) (is_folder : Bool) (v : Nat)
    (hv : v ≤ if is_folder then 7 else 3) :
    permission_to_vfs type v &&& combo_mask type is_folder = permission_to_vfs type v := by
  cases is_folder
  · have hv3 : v ≤ 3 := by simpa using hv
    cases type <;> interval_cases v <;> rfl
  · have hv7 : v ≤ 7 := by simpa using hv
    cases type <;> interval_cases v <;> rfl

lemma permission_to_vfs_mask (type : PermissionType) (is_folder : Bool) :
    permission_to_vfs type
        (if is_folder then PERMISSION_READ ||| PERMISSION_WRITE ||| PERMISSION_EXEC
          else PERMISSION_READ ||| PERMISSION_WRITE) = combo_mask type is_folder := by
  cases type <;> cases is_folder <;> rfl

lemma combo_mask_lt (type : PermissionType) (is_folder : Bool) :
    combo_mask type is_folder < 2 ^ 32 := by
  cases type <;> cases is_folder <;> decide

/-- C7: editing an access combo changes only the bits of the combo.  For a combo
made by `create_permissions_combo_box (type, is_folder)` and updated any number of
times, and a row of it that is not the use-original row: `permission_combo_changed`
with that row active sends a request to each target file whose permissions can be
read and whose kind is the kind of the combo, and the requested permissions have,
inside the mask of the combo (read and write of the class, and execute for a
folder combo), the bits of `permission_to_vfs (type, value of the row)` and,
outside, the bits of the current permissions of the file.  For a file combo every
bit other than read and write of the class is therefore unchanged. -/
theorem permission_combo_changed_frame (type : PermissionType) (is_folder : Bool)
    (updates : List (FileEnv × List NautilusFile)) (env : FileEnv)
    (target_files : List NautilusFile) (tbl : FileTable Nat) (k : Nat) (row : ComboRow)
    (hrow : (combo_after type is_folder updates).rows[k]? = some row)
    (horig : row.use_original = false) :
    let reqs := permission_combo_changed env target_files tbl
      { combo_after type is_folder updates with active := some k }
    reqs.map (fun r => r.file) = button_files env is_folder target_files ∧
    (∀ r ∈ reqs, ∀ j,
      r.permissions.testBit j =
        if (combo_mask type is_folder).testBit j then
          (permission_to_vfs type row.value).testBit j
        else (nautilus_file_get_permissions env r.file).testBit j) ∧
    (is_folder = false → ∀ r ∈ reqs, ∀ j,
      2 ^ j ≠ vfs_perms type 0 → 2 ^ j ≠ vfs_perms type 1 →
        r.permissions.testBit j = (nautilus_file_get_permissions env r.file).testBit j) := by
  obtain ⟨h1, h2, h3⟩ := combo_after_rows type is_folder updates
  have hv : row.value ≤ if is_folder then 7 else 3 := h3 row (List.mem_iff_getElem?.2 ⟨k, hrow⟩)
  have hreqs : permission_combo_changed env target_files tbl
      { combo_after type is_folder updates with active := some k } =
      update_permissions env target_files tbl (permission_to_vfs type row.value)
        (combo_mask type is_folder) is_folder false false := by
    simp only [permission_combo_changed, hrow, h1, h2, horig, permission_to_vfs_mask]
  have hbits : ∀ r ∈ update_permissions env target_files tbl (permission_to_vfs type row.value)
        (combo_mask type is_folder) is_folder false false, ∀ j,
      r.permissions.testBit j =
        if (combo_mask type is_folder).testBit j then
          (permission_to_vfs type row.value).testBit j
        else (nautilus_file_get_permissions env r.file).testBit j := by
    intro r hr j
    have h := update_permissions_mem env tbl _ _ is_folder false false target_files r hr
    simp only [Bool.false_eq_true, if_false] at h
    have hsub := permission_to_vfs_within_mask type is_folder row.value hv
    have hsubj : (permission_to_vfs type row.value).testBit j =
        ((permission_to_vfs type row.value).testBit j && (combo_mask type is_folder).testBit j) := by
      conv_lhs => rw [← hsub]
      rw [Nat.testBit_and]
    have hmaskj : (combo_mask type is_folder).testBit j =
        (decide (j < 32) && (combo_mask type is_folder).testBit j) := by
      conv_lhs => rw [← Nat.mod_eq_of_lt (combo_mask_lt type is_folder)]
      rw [Nat.testBit_mod_two_pow]
    rw [h, Nat.testBit_or, Nat.testBit_and, testBit_complement32, Nat.testBit_mod_two_pow]
    unfold nautilus_file_get_permissions
    rw [Nat.testBit_mod_two_pow]
    rw [hsubj]
    rw [hmaskj]
    by_cases hj : j < 32 <;> cases (combo_mask type is_folder).testBit j <;> simp [hj]
  intro reqs
  have hreqs' : reqs = update_permissions env target_files tbl (permission_to_vfs type row.value)
        (combo_mask type is_folder) is_folder false false := hreqs
  refine ⟨?_, ?_, ?_⟩
  · rw [hreqs', update_permissions_files]
    simp [button_files]
  · intro r hr j
    exact hbits r (hreqs' ▸ hr) j
  · intro hfile r hr j hj0 hj1
    rw [hbits r (hreqs' ▸ hr) j]
    have hm : (combo_mask type is_folder).testBit j = false := by
      subst hfile
      simp only [combo_mask, Bool.false_eq_true, if_false, Nat.testBit_or]
      have hsingle : ∀ a : Nat, (∃ n, a = 2 ^ n) → 2 ^ j ≠ a → a.testBit j = false := by
        rintro a ⟨n, rfl⟩ hne
        rw [Nat.testBit_two_pow]
        simp only [decide_eq_false_iff_not]
        rintro rfl
        exact hne rfl
      have e0 : ∃ n, vfs_perms type 0 = 2 ^ n := by
        cases type
        · exact ⟨8, rfl⟩
        · exact ⟨5, rfl⟩
        · exact ⟨2, rfl⟩
      have e1 : ∃ n, vfs_perms type 1 = 2 ^ n := by
        cases type
        · exact ⟨7, rfl⟩
        · exact ⟨4, rfl⟩
        · exact ⟨1, rfl⟩
      rw [hsingle _ e0 hj0, hsingle _ e1 hj1]
      rfl
    simp [hm]

/-! ## Theorems: the active row of an access combo -/

/-- C5 at its failing input.  The file combo of the owner is updated twice for the
files 1 and 2.  At the first update their owner permissions differ, which adds the
row `---`.  At the second update both files are readable plain files whose owner
permission is 0 (mode 0044): `permission_combo_update` looks for a row with the
value 0, finds the row `---`, and makes that row, which carries the use-original
flag, the active row. -/
theorem permission_combo_update_selects_use_original :
    button_files owner_none_env false [1, 2] = [1, 2] ∧
    (∀ f ∈ button_files owner_none_env false [1, 2],
      permission_from_vfs PERMISSION_USER (nautilus_file_get_permissions owner_none_env f) &&&
        (PERMISSION_READ ||| PERMISSION_WRITE) = 0) ∧
    (combo_after PERMISSION_USER false
      [(mixed_env, [1, 2]), (owner_none_env, [1, 2])]).active = some 2 ∧
    (combo_after PERMISSION_USER false
      [(mixed_env, [1, 2]), (owner_none_env, [1, 2])]).rows[2]? =
        some { name := "---", value := 0, use_original := true } := by
  decide

/-! ## Theorems: directory contents -/

lemma file_has_prefix_eq_any (env : FileEnv) (file : NautilusFile) :
    ∀ l : List NautilusFile,
      file_has_prefix env file l =
        l.any (fun p => p != file && g_file_has_prefix (env.location file) (env.location p)) := by
  intro l
  induction l with
  | nil => rfl
  | cons p ps ih =>
    unfold file_has_prefix
    by_cases h : file = p
    · subst h
      simp [ih]
    · have h' : (p != file) = true := by
        simp only [bne_iff_ne, ne_eq]
        exact fun e => h e.symm
      cases hp : g_file_has_prefix (env.location file) (env.location p) <;>
        simp [h, h', hp, ih]

lemma stop_deep_count_for_file_target_files (w : World) (file : NautilusFile) :
    (stop_deep_count_for_file w file).details.target_files = w.details.target_files := by
  unfold stop_deep_count_for_file
  split <;> rfl

lemma goffset_add_eq (a b : Int) (ha : 0 ≤ a) (hb : 0 ≤ b) (h : a + b < 2 ^ 63) :
    goffset_add a b = a + b := by
  unfold goffset_add
  omega

lemma directory_contents_loop_totals (env : FileEnv) (targets : List NautilusFile) :
    ∀ (l : List NautilusFile) (w : World) (t : ContentsTotals),
      w.details.target_files = targets →
      0 ≤ t.total_size →
      t.total_count +
        ((l.filter (fun f => !targets.any
          (fun p => p != f && g_file_has_prefix (env.location f) (env.location p)))).map
            (counted_items env)).sum < 2 ^ 32 →
      t.total_size +
        (((l.filter (fun f => !targets.any
          (fun p => p != f && g_file_has_prefix (env.location f) (env.location p)))).map
            (counted_size env)).sum : Nat) < 2 ^ 63 →
      (directory_contents_loop env l w t).2.total_count =
        t.total_count +
          ((l.filter (fun f => !targets.any
            (fun p => p != f && g_file_has_prefix (env.location f) (env.location p)))).map
              (counted_items env)).sum ∧
      (directory_contents_loop env l w t).2.total_size =
        t.total_size +
          (((l.filter (fun f => !targets.any
            (fun p => p != f && g_file_has_prefix (env.location f) (env.location p)))).map
              (counted_size env)).sum : Nat) := by
  intro l
  induction l with
  | nil => intro w t _ _ _ _; simp [directory_contents_loop]
  | cons x xs ih =>
    intro w t hw hts hc hs
    unfold directory_contents_loop
    rw [hw, file_has_prefix_eq_any]
    cases hany : targets.any
        (fun p => p != x && g_file_has_prefix (env.location x) (env.location p))
    · simp only [List.filter_cons, hany, Bool.not_false, if_true, List.map_cons,
        List.sum_cons, Bool.false_eq_true, if_false] at hc hs ⊢
      cases hdir : env.is_directory x
      · simp only [counted_items, counted_size, hdir, Bool.false_eq_true, if_false] at hc hs ⊢
        have h1 : (t.total_count + 1) % 2 ^ 32 = t.total_count + 1 :=
          Nat.mod_eq_of_lt (by omega)
        have h2 : goffset_add t.total_size (env.size x : Int) = t.total_size + (env.size x : Int) :=
          goffset_add_eq _ _ hts (by omega) (by omega)
        have := ih w ⟨(t.total_count + 1) % 2 ^ 32,
            goffset_add t.total_size (env.size x : Int), t.unreadable_directory_count⟩ hw
          (by simp only [h2]; omega)
          (by simp only [h1]; omega)
          (by simp only [h2]; omega)
        simp only [h1, h2] at this ⊢
        exact ⟨this.1.trans (by omega), this.2.trans (by omega)⟩
      · simp only [counted_items, counted_size, hdir, if_true] at hc hs ⊢
        have hf : (env.deep_counts x).file_count % 2 ^ 32 = (env.deep_counts x).file_count :=
          Nat.mod_eq_of_lt (by omega)
        have hd : (env.deep_counts x).directory_count % 2 ^ 32 =
            (env.deep_counts x).directory_count := Nat.mod_eq_of_lt (by omega)
        have h0 : ((env.deep_counts x).file_count + (env.deep_counts x).directory_count) % 2 ^ 32 =
            (env.deep_counts x).file_count + (env.deep_counts x).directory_count :=
          Nat.mod_eq_of_lt (by omega)
        have h1 : (t.total_count +
            ((env.deep_counts x).file_count + (env.deep_counts x).directory_count)) % 2 ^ 32 =
            t.total_count +
              ((env.deep_counts x).file_count + (env.deep_counts x).directory_count) :=
          Nat.mod_eq_of_lt (by omega)
        have h2 : goffset_add t.total_size ((env.deep_counts x).total_size : Int) =
            t.total_size + ((env.deep_counts x).total_size : Int) :=
          goffset_add_eq _ _ hts (by omega) (by omega)
        simp only [hf, hd, h0, h1, h2]
        have key : ∀ (W : World) (T : ContentsTotals), W.details.target_files = targets →
            T.total_count = t.total_count +
              ((env.deep_counts x).file_count + (env.deep_counts x).directory_count) →
            T.total_size = t.total_size + ((env.deep_counts x).total_size : Int) →
            (directory_contents_loop env xs W T).2.total_count =
              t.total_count +
                ((env.deep_counts x).file_count + (env.deep_counts x).directory_count +
                  ((xs.filter (fun f => !targets.any
                    (fun p => p != f && g_file_has_prefix (env.location f) (env.location p)))).map
                      (counted_items env)).sum) ∧
            (directory_contents_loop env xs W T).2.total_size =
              t.total_size +
                (((env.deep_counts x).total_size +
                  ((xs.filter (fun f => !targets.any
                    (fun p => p != f && g_file_has_prefix (env.location f) (env.location p)))).map
                      (counted_size env)).sum : Nat) : Int) := by
          intro W T hW hTc hTs
          have := ih W T hW (by rw [hTs]; omega) (by rw [hTc]; omega) (by rw [hTs]; omega)
          rw [hTc, hTs] at this
          exact ⟨this.1.trans (by omega), this.2.trans (by omega)⟩
        apply key
        · split
          · rw [stop_deep_count_for_file_target_files, hw]
          · exact hw
        · split <;> rfl
        · split <;> rfl
    · simp only [List.filter_cons, hany, Bool.not_true, Bool.false_eq_true, if_false,
        if_true] at hc hs ⊢
      exact ih w t hw hts hc hs

/-- C10: `directory_contents_value_field_update` does not count nested files twice.
In a window whose `total_count` and `total_size` fields are 0 (no code writes
them), and when the sums fit a `guint` and a `goffset`: the item total is the sum,
over the target files whose location is not inside the location of another target
file, of 1 for a file and of deep file count plus deep directory count for a
directory, and the size total is the sum of their sizes and deep sizes.  A target
inside another target is not in that list and adds nothing. -/
theorem directory_contents_totals_spec (env : FileEnv) (w : World)
    (h0 : w.details.total_count = 0) (h0s : w.details.total_size = 0)
    (hc : ((counted_files env w.details.target_files).map (counted_items env)).sum < 2 ^ 32)
    (hs : ((counted_files env w.details.target_files).map (counted_size env)).sum < 2 ^ 63) :
    (directory_contents_totals env w).total_count =
      ((counted_files env w.details.target_files).map (counted_items env)).sum ∧
    (directory_contents_totals env w).total_size =
      (((counted_files env w.details.target_files).map (counted_size env)).sum : Nat) ∧
    (∀ f ∈ w.details.target_files,
      (∃ p ∈ w.details.target_files, p ≠ f ∧
        g_file_has_prefix (env.location f) (env.location p) = true) →
      f ∉ counted_files env w.details.target_files) := by
  have h := directory_contents_loop_totals env w.details.target_files w.details.target_files w
    { total_count := w.details.total_count, total_size := w.details.total_size } rfl
    (by simp [h0s]) (by simpa [h0, counted_files] using hc)
    (by simp only [h0s]; unfold counted_files at hs; omega)
  simp only [h0, h0s, Nat.zero_add, Int.zero_add] at h
  refine ⟨?_, ?_, ?_⟩
  · simpa only [directory_contents_totals, counted_files, h0, h0s] using h.1
  · simpa only [directory_contents_totals, counted_files, h0, h0s] using h.2
  rintro f _ ⟨p, hp, hne, hpre⟩ hmem
  unfold counted_files at hmem
  rw [List.mem_filter] at hmem
  have := hmem.2
  simp only [Bool.not_eq_true', List.any_eq_false, Bool.and_eq_true, bne_iff_ne, ne_eq,
    not_and, Bool.not_eq_true] at this
  have := this p hp hne
  rw [hpre] at this
  cases this

/-! ## Theorems: presenting a window -/

/-- C1: `nautilus_properties_window_present` starts no second window creation for
a selection that is already served.  If the list is the one file `f` and `f` has
the window `win` in `windows`, then `win` is presented and `windows`,
`pending_lists`, the startup data and the ready-callbacks are unchanged; and for
every list whose pending key is in `pending_lists` the call adds no startup data
and registers no ready-callback, and leaves both tables unchanged. -/
theorem nautilus_properties_window_present_already_served (env : FileEnv) (s : AppState)
    (l : List NautilusFile) (parent_widget : Option Nat) (startup_id : Option String) :
    (∀ f win, l = [f] → g_hash_table_lookup_extended s.windows f = some win →
      let s' := nautilus_properties_window_present env s l parent_widget startup_id
      s'.window_calls.getLast? = some (WindowCall.gtk_window_present win) ∧
      s'.window_calls.length > s.window_calls.length ∧
      s'.windows = s.windows ∧ s'.pending_lists = s.pending_lists ∧
      s'.startup_data = s.startup_data ∧ s'.ready_callbacks = s.ready_callbacks) ∧
    (get_pending_key env l ∈ s.pending_lists →
      let s' := nautilus_properties_window_present env s l parent_widget startup_id
      s'.startup_data = s.startup_data ∧ s'.ready_callbacks = s.ready_callbacks ∧
      s'.windows = s.windows ∧ s'.pending_lists = s.pending_lists) := by
  constructor
  · intro f win hl hwin
    subst hl
    simp [nautilus_properties_window_present, get_existing_window, hwin]
  · intro hkey
    unfold nautilus_properties_window_present
    split
    · simp
    · split
      · simp
      · simp [hkey]

/-- Witness of C1: presenting file 1, which has a window, presents window 7; and
the pending selection of files 3 and 2 adds no startup data. -/
theorem nautilus_properties_window_present_already_served_witness :
    ((nautilus_properties_window_present abc_env served_state [1] none none).window_calls.getLast?
        = some (WindowCall.gtk_window_present 7) ∧
      (nautilus_properties_window_present abc_env served_state [1] none none).pending_lists
        = ["b;c;"]) ∧
    (nautilus_properties_window_present abc_env served_state [3, 2] none none).startup_data
      = [] :=
  by
  have h := (nautilus_properties_window_present_already_served abc_env served_state [1]
    none none).1 1 7 rfl (by decide)
  exact ⟨⟨h.1, h.2.2.2.1⟩,
    ((nautilus_properties_window_present_already_served abc_env served_state [3, 2]
      none none).2 (by decide)).1⟩

/-! ## Theorems: removing gone files -/

/-- C3 at its failing input.  The window shows the link 1 and its target 2, so its
target list is `[2, 2]`.  File 2 is gone and is the changed file:
`properties_window_update` removes the pair at index 0 only, and file 2 is still in
`original_files` and in `target_files` afterwards. -/
theorem properties_window_update_keeps_gone_file :
    link_and_target_window.details.target_files =
      get_target_file_list gone_target_env link_and_target_window.details.original_files ∧
    gone_target_env.is_gone 2 = true ∧
    (properties_window_update gone_target_env link_and_target_window [2]).details.original_files
      = [2] ∧
    (properties_window_update gone_target_env link_and_target_window [2]).details.target_files
      = [2] := by
  decide

/-! ## Theorems: batching of file changes -/

lemma file_changed_callback_scheduled (w : World) (file : NautilusFile)
    (hid : w.details.update_files_timeout_id ≠ 0) :
    (file_changed_callback w file).main = w.main ∧
    (file_changed_callback w file).details.update_files_timeout_id =
      w.details.update_files_timeout_id ∧
    (file_changed_callback w file).update_calls = w.update_calls := by
  unfold file_changed_callback schedule_files_update
  split
  · simp [hid]
  · simp

lemma notify_files_scheduled :
    ∀ (files : List NautilusFile) (w : World), w.details.update_files_timeout_id ≠ 0 →
      (notify_files w files).main = w.main ∧
      (notify_files w files).details.update_files_timeout_id =
        w.details.update_files_timeout_id ∧
      (notify_files w files).update_calls = w.update_calls := by
  intro files
  induction files with
  | nil => intro w _; exact ⟨rfl, rfl, rfl⟩
  | cons f fs ih =>
    intro w hid
    obtain ⟨h1, h2, h3⟩ := file_changed_callback_scheduled w f hid
    have := ih (file_changed_callback w f) (by rw [h2]; exact hid)
    simp only [notify_files, List.foldl_cons] at this ⊢
    rw [this.1, this.2.1, this.2.2, h1, h2, h3]
    exact ⟨rfl, rfl, rfl⟩

lemma file_changed_callback_changed_files (w : World) (file : NautilusFile) :
    (file_changed_callback w file).details.changed_files =
      if file ∈ w.details.changed_files then w.details.changed_files
      else file :: w.details.changed_files := by
  unfold file_changed_callback schedule_files_update
  by_cases h : file ∈ w.details.changed_files
  · simp [h]
  · simp only [h, not_false_eq_true, if_true, if_false]
    split <;> rfl

lemma notify_files_changed_files :
    ∀ (files : List NautilusFile) (w : World), w.details.changed_files.Nodup →
      (notify_files w files).details.changed_files.Nodup ∧
      ∀ f, f ∈ (notify_files w files).details.changed_files ↔
        f ∈ w.details.changed_files ∨ f ∈ files := by
  intro files
  induction files with
  | nil => intro w h; simp [notify_files, h]
  | cons x xs ih =>
    intro w h
    have hcf := file_changed_callback_changed_files w x
    have hnd : (file_changed_callback w x).details.changed_files.Nodup := by
      rw [hcf]
      split
      · exact h
      · exact List.nodup_cons.2 ⟨by assumption, h⟩
    obtain ⟨h1, h2⟩ := ih (file_changed_callback w x) hnd
    simp only [notify_files, List.foldl_cons] at h1 h2 ⊢
    refine ⟨h1, fun f => ?_⟩
    rw [h2 f, hcf]
    by_cases hx : x ∈ w.details.changed_files
    · simp only [hx, if_true, List.mem_cons]
      constructor
      · rintro (h | h)
        · exact Or.inl h
        · exact Or.inr (Or.inr h)
      · rintro (h | h | h)
        · exact Or.inl h
        · subst h; exact Or.inl hx
        · exact Or.inr h
    · simp only [hx, if_false, List.mem_cons]
      tauto

lemma remove_from_dialog_frame (w : World) (file : NautilusFile) :
    (remove_from_dialog w file).update_calls = w.update_calls ∧
    (remove_from_dialog w file).details.update_files_timeout_id =
      w.details.update_files_timeout_id ∧
    (remove_from_dialog w file).details.changed_files = w.details.changed_files := by
  unfold remove_from_dialog
  simp only
  split
  · exact ⟨rfl, rfl, rfl⟩
  · split <;> exact ⟨rfl, rfl, rfl⟩

lemma start_deep_count_for_file_frame (env : FileEnv) (w : World) (file : NautilusFile) :
    (start_deep_count_for_file env w file).update_calls = w.update_calls ∧
    (start_deep_count_for_file env w file).details.update_files_timeout_id =
      w.details.update_files_timeout_id ∧
    (start_deep_count_for_file env w file).details.changed_files = w.details.changed_files := by
  unfold start_deep_count_for_file schedule_start_spinner
  simp only
  split
  · exact ⟨rfl, rfl, rfl⟩
  · split
    · split
      · split <;> exact ⟨rfl, rfl, rfl⟩
      · exact ⟨rfl, rfl, rfl⟩
    · exact ⟨rfl, rfl, rfl⟩

lemma properties_window_update_loop_frame (env : FileEnv) :
    ∀ (files : List NautilusFile) (w : World) (d1 d2 : Bool),
      (properties_window_update_loop env files w d1 d2).1.update_calls = w.update_calls ∧
      (properties_window_update_loop env files w d1 d2).1.details.update_files_timeout_id =
        w.details.update_files_timeout_id ∧
      (properties_window_update_loop env files w d1 d2).1.details.changed_files =
        w.details.changed_files := by
  intro files
  induction files with
  | nil => intro w d1 d2; exact ⟨rfl, rfl, rfl⟩
  | cons x xs ih =>
    intro w d1 d2
    unfold properties_window_update_loop
    obtain ⟨r1, r2, r3⟩ := remove_from_dialog_frame w x
    obtain ⟨s1, s2, s3⟩ := start_deep_count_for_file_frame env w x
    split
    · simp only
      split
      · exact ⟨r1, r2, r3⟩
      · obtain ⟨i1, i2, i3⟩ := ih (remove_from_dialog w x) true true
        exact ⟨i1.trans r1, i2.trans r2, i3.trans r3⟩
    · obtain ⟨i1, i2, i3⟩ := ih (start_deep_count_for_file env w x)
        (d1 || decide (x ∈ w.details.original_files)) (d2 || decide (x ∈ w.details.target_files))
      exact ⟨i1.trans s1, i2.trans s2, i3.trans s3⟩

lemma properties_window_update_frame (env : FileEnv) (w : World) (files : List NautilusFile) :
    (properties_window_update env w files).update_calls = w.update_calls ++ [files] ∧
    (properties_window_update env w files).details.update_files_timeout_id =
      w.details.update_files_timeout_id ∧
    (properties_window_update env w files).details.changed_files = w.details.changed_files := by
  obtain ⟨h1, h2, h3⟩ := properties_window_update_loop_frame env files
    { w with update_calls := w.update_calls ++ [files] } (decide (files = [])) (decide (files = []))
  unfold properties_window_update
  simp only
  split
  · exact ⟨h1, h2, h3⟩
  · split
    · exact ⟨h1, h2, h3⟩
    · exact ⟨h1, h2, h3⟩

lemma unschedule_or_cancel_group_change_update_calls (w : World) :
    (unschedule_or_cancel_group_change w).update_calls = w.update_calls := by
  unfold unschedule_or_cancel_group_change
  split
  · rfl
  · simp only
    split
    · rfl
    · split <;> rfl

lemma real_destroy_update_calls (w : World) : (real_destroy w).update_calls = w.update_calls := by
  unfold real_destroy
  simp only
  have h := (unschedule_or_cancel_owner_change_update_calls _).trans
    (unschedule_or_cancel_group_change_update_calls w)
  split <;> split <;> split <;> exact h

lemma update_files_callback_spec (env : FileEnv) (w : World) :
    (update_files_callback env w).update_calls = w.update_calls ++ [w.details.changed_files] ∧
    ((update_files_callback env w).details.original_files ≠ [] →
      (update_files_callback env w).details.changed_files = [] ∧
      (update_files_callback env w).details.update_files_timeout_id = 0) := by
  obtain ⟨h1, h2, _⟩ := properties_window_update_frame env
    { w with details := { w.details with update_files_timeout_id := 0 } } w.details.changed_files
  unfold update_files_callback
  simp only
  split
  · refine ⟨?_, ?_⟩
    · rw [real_destroy_update_calls]; exact h1
    · intro hne
      exact absurd (by simp [real_destroy]) hne
  · exact ⟨h1, fun _ => ⟨rfl, h2⟩⟩

/-- C2: file change notifications are batched.  From a window with no changed file
and no update timer, any notifications `files` (at least one) schedule exactly one
update timer, and `changed_files` then holds each notified file exactly once.  When
that timer fires, `update_files_callback` passes the whole list to
`properties_window_update` in one call, the timer is gone, and, when files remain
in the dialog, `changed_files` is empty and `update_files_timeout_id` is 0. -/
theorem file_changes_batched (env : FileEnv) (w : World) (files : List NautilusFile)
    (hcf : w.details.changed_files = []) (hid : w.details.update_files_timeout_id = 0)
    (hne : files ≠ []) :
    let w1 := notify_files w files
    let timer := (w1.details.update_files_timeout_id, SourceFunc.update_files_callback)
    let w2 := source_fired env w1 timer
    (w1.main.sources = w.main.sources ++ [timer] ∧
      w1.details.update_files_timeout_id ≠ 0 ∧
      w1.main.next_source_id = w.main.next_source_id + 1) ∧
    (w1.details.changed_files.Nodup ∧ ∀ f, f ∈ w1.details.changed_files ↔ f ∈ files) ∧
    (w2.update_calls = w.update_calls ++ [w1.details.changed_files] ∧
      timer ∉ w2.main.sources ∧
      (w2.details.original_files ≠ [] →
        w2.details.changed_files = [] ∧ w2.details.update_files_timeout_id = 0)) := by
  intro w1 timer w2
  obtain ⟨x, xs, rfl⟩ := List.exists_cons_of_ne_nil hne
  have hfirst : (file_changed_callback w x).main.sources =
        w.main.sources ++ [(w.main.next_source_id + 1, SourceFunc.update_files_callback)] ∧
      (file_changed_callback w x).details.update_files_timeout_id = w.main.next_source_id + 1 ∧
      (file_changed_callback w x).main.next_source_id = w.main.next_source_id + 1 ∧
      (file_changed_callback w x).update_calls = w.update_calls := by
    simp [file_changed_callback, schedule_files_update, hcf, hid, g_timeout_add]
  have hrest := notify_files_scheduled xs (file_changed_callback w x)
    (by rw [hfirst.2.1]; exact Nat.succ_ne_zero _)
  have hw1 : w1 = notify_files (file_changed_callback w x) xs := rfl
  have hcfs := notify_files_changed_files (x :: xs) w (by rw [hcf]; exact List.nodup_nil)
  refine ⟨⟨?_, ?_, ?_⟩, ⟨hcfs.1, fun f => ?_⟩, ?_, ?_, ?_⟩
  · show w1.main.sources = w.main.sources ++ [(w1.details.update_files_timeout_id, _)]
    rw [hw1, hrest.1, hrest.2.1, hfirst.1, hfirst.2.1]
  · rw [hw1, hrest.2.1, hfirst.2.1]; exact Nat.succ_ne_zero _
  · rw [hw1, hrest.1, hfirst.2.2.1]
  · rw [hcfs.2 f, hcf]; simp
  · show (source_fired env w1 timer).update_calls = _
    simp only [source_fired, timer]
    rw [(update_files_callback_spec env w1).1, hw1, hrest.2.2, hfirst.2.2.2]
  · show timer ∉ (source_fired env w1 timer).main.sources
    simp [source_fired, g_source_remove, timer]
  · show (source_fired env w1 timer).details.original_files ≠ [] → _
    simp only [source_fired, timer]
    exact (update_files_callback_spec env w1).2

/-! ## Theorems: debounced group changes -/

/-- Witness of C2: three notifications for the files 5, 5 and 6 on a new window
schedule the one timer with id 1, and its firing records one update call. -/
theorem file_changes_batched_witness :
    (({} : World).details.changed_files = [] ∧ ({} : World).details.update_files_timeout_id = 0 ∧
      [5, 5, 6] ≠ ([] : List NautilusFile)) ∧
    (notify_files {} [5, 5, 6]).main.sources = [(1, SourceFunc.update_files_callback)] ∧
    (notify_files {} [5, 5, 6]).details.changed_files = [6, 5] ∧
    (source_fired {} (notify_files {} [5, 5, 6])
      ((notify_files {} [5, 5, 6]).details.update_files_timeout_id,
        SourceFunc.update_files_callback)).update_calls = [[6, 5]] := by
  have h := file_changes_batched {} {} [5, 5, 6] rfl rfl (by decide)
  exact ⟨⟨rfl, rfl, by decide⟩, h.1.1, by decide, h.2.2.1⟩

/-- Witness of C6: the execute checkbox (mask 0111) of a window showing a file with
mode 0755 and a file with mode 0644. -/
theorem permission_button_update_spec_witness :
    ((0o111 : Nat) ≠ 0 ∧ (0o111 : Nat) < 2 ^ 32) ∧
    ((permission_button_update two_files_env [1, 2]
        { set_up_permissions_checkbox gtk_check_button_new_with_mnemonic 0o111 false with
          active := false, inconsistent := false, sensitive := false }).active = true ↔
      ∃ f ∈ button_files two_files_env false [1, 2],
        nautilus_file_get_permissions two_files_env f &&& 0o111 ≠ 0) :=
  ⟨⟨by decide, by decide⟩,
    (permission_button_update_spec two_files_env [1, 2] 0o111 false false false false
      (by decide) (by decide)).1⟩

/-- Witness of C7: the row `Read and write` of the file combo of the owner, after
one update, for the files with modes 0600 and 0400. -/
theorem permission_combo_changed_frame_witness :
    ((combo_after PERMISSION_USER false [(mixed_env, [1, 2])]).rows[1]? =
        some { name := "Read and write", value := 3, id := some "rw" } ∧
      ({ name := "Read and write", value := 3, id := some "rw" } : ComboRow).use_original
        = false) ∧
    (permission_combo_changed mixed_env [1, 2] []
        { combo_after PERMISSION_USER false [(mixed_env, [1, 2])] with active := some 1 }).map
      (fun r => r.file) = button_files mixed_env false [1, 2] :=
  ⟨⟨by decide, rfl⟩,
    (permission_combo_changed_frame PERMISSION_USER false [(mixed_env, [1, 2])] mixed_env [1, 2]
      [] 1 { name := "Read and write", value := 3, id := some "rw" } (by decide) rfl).1⟩

/-- Witness of C8: file 1 has mode 0755 now and had mode 0644 at first; going back
to the original state for the mask 0111 requests mode 0644. -/
theorem update_permissions_use_original_witness :
    (({ file := 1, permissions := 0o644 } : PermissionRequest) ∈
        update_permissions two_files_env [1] [(1, 0o644)] 0 0o111 false false true ∧
      g_hash_table_lookup_extended [(1, 0o644)] 1 = some 0o644) ∧
    (0o644 : Nat) =
      ((nautilus_file_get_permissions two_files_env 1 &&& complement32 0o111) |||
        ((0o644 % 2 ^ 32) &&& (0o111 % 2 ^ 32))) :=
  ⟨⟨by decide, by decide⟩,
    ((update_permissions_use_original two_files_env [1] [(1, 0o644)] 0 0o111 false false).2.1
      { file := 1, permissions := 0o644 } (by decide) 0o644 (by decide)).1⟩

/-- Witness of C9: of the files 1, 2 and 3 the gone file 2 has another value; the
result is the value `a` of the other two. -/
theorem file_list_get_string_attribute_spec_witness :
    ((∃ f ∈ [1, 2, 3], attribute_env.is_gone f = false) ∧
      (∀ f ∈ [1, 2, 3], attribute_env.is_gone f = false →
        attribute_env.string_attribute_with_default f "owner" = "a")) ∧
    file_list_get_string_attribute attribute_env [1, 2, 3] "owner" "--" = "a" :=
  ⟨⟨by decide, by decide⟩,
    (file_list_get_string_attribute_spec attribute_env [1, 2, 3] "owner" "--").1 "a"
      (by decide) (by decide)⟩

/-- Witness of C10: the directory `/a`, the file `/a/b` inside it and the file
`/c`: 5 items and 107 bytes, the nested file not counted. -/
theorem directory_contents_totals_spec_witness :
    (nested_window.details.total_count = 0 ∧ nested_window.details.total_size = 0 ∧
      ((counted_files nested_env nested_window.details.target_files).map
        (counted_items nested_env)).sum = 5 ∧
      ((counted_files nested_env nested_window.details.target_files).map
        (counted_size nested_env)).sum = 107) ∧
    (directory_contents_totals nested_env nested_window).total_count =
      ((counted_files nested_env nested_window.details.target_files).map
        (counted_items nested_env)).sum :=
  ⟨⟨rfl, rfl, by decide, by decide⟩,
    (directory_contents_totals_spec nested_env nested_window rfl rfl (by decide)
      (by decide)).1⟩

/-! ## Theorems: relative icon URIs -/

lemma dropWhile_slash_replicate (n : Nat) (l : List Char) (h : l.head? ≠ some '/') :
    (List.replicate n '/' ++ l).dropWhile (fun c => c == '/') = l := by
  induction n with
  | zero =>
    cases l with
    | nil => rfl
    | cons c cs =>
      have hc : c ≠ '/' := by
        intro e
        apply h
        simp [e]
      simp [List.dropWhile_cons, hc]
  | succ n ih =>
    simp [List.replicate_succ, List.dropWhile_cons, ih]

lemma slash_run_decomposition (l : List Char) (h : l.head? = some '/') :
    ∃ n, 0 < n ∧ l = List.replicate n '/' ++ l.dropWhile (fun c => c == '/') ∧
      (l.dropWhile (fun c => c == '/')).head? ≠ some '/' := by
  induction l with
  | nil => simp at h
  | cons c cs ih =>
    have hc : c = '/' := by simpa using h
    subst hc
    by_cases hcs : cs.head? = some '/'
    · obtain ⟨n, _, h1, h2⟩ := ih hcs
      refine ⟨n + 1, Nat.succ_pos _, ?_, ?_⟩
      · simp only [List.dropWhile_cons, beq_self_eq_true, if_true, List.replicate_succ,
          List.cons_append]
        rw [← h1]
      · simpa [List.dropWhile_cons] using h2
    · have hd : cs.dropWhile (fun c => c == '/') = cs := by
        have := dropWhile_slash_replicate 0 cs hcs
        simpa using this
      refine ⟨1, Nat.one_pos, ?_, ?_⟩
      · simp [List.dropWhile_cons, hd]
      · simpa [List.dropWhile_cons, hd] using hcs

lemma make_relative_uri_from_full_eq_some (uri base_uri r : String) :
    make_relative_uri_from_full uri base_uri = some r ↔
      ∃ n, 0 < n ∧ uri = base_uri ++ String.mk (List.replicate n '/') ++ r ∧
        r ≠ "" ∧ r.data.head? ≠ some '/' := by
  unfold make_relative_uri_from_full
  constructor
  · intro h
    by_cases hp : base_uri.data.isPrefixOf uri.data = true
    · simp only [hp, if_true] at h
      obtain ⟨rest, hrest⟩ := List.isPrefixOf_iff_prefix.1 hp
      have hdrop : uri.data.drop base_uri.data.length = rest := by
        rw [← hrest]; simp
      rw [hdrop] at h
      by_cases hh : rest.head? = some '/'
      · simp only [hh, ne_eq, not_true_eq_false, if_false] at h
        by_cases hne : rest.dropWhile (fun c => c == '/') = []
        · simp [hne] at h
        · simp only [ne_eq, hne, not_false_eq_true, if_true, Option.some.injEq] at h
          obtain ⟨n, hn, h1, h2⟩ := slash_run_decomposition rest hh
          refine ⟨n, hn, ?_, ?_, ?_⟩
          · apply String.ext
            rw [String.data_append, String.data_append, ← h, ← hrest]
            simp only [List.append_assoc]
            rw [← h1]
          · intro e
            apply hne
            have := congrArg String.data (h.trans e)
            simpa using this
          · rw [← h]; exact h2
      · simp [hh] at h
    · simp [hp] at h
  · rintro ⟨n, hn, huri, hne, hhead⟩
    have hdata : uri.data = base_uri.data ++ (List.replicate n '/' ++ r.data) := by
      rw [huri, String.data_append, String.data_append, List.append_assoc]
    have hp : base_uri.data.isPrefixOf uri.data = true :=
      List.isPrefixOf_iff_prefix.2 ⟨_, hdata.symm⟩
    have hdrop : uri.data.drop base_uri.data.length = List.replicate n '/' ++ r.data := by
      rw [hdata]; simp
    have hh : (List.replicate n '/' ++ r.data).head? = some '/' := by
      obtain ⟨m, rfl⟩ : ∃ m, n = m + 1 := ⟨n - 1, by omega⟩
      simp [List.replicate_succ]
    have hrne : r.data ≠ [] := by
      intro e
      apply hne
      apply String.ext
      simpa using e
    simp only [hp, if_true, hdrop, hh, ne_eq, not_true_eq_false, if_false,
      dropWhile_slash_replicate n r.data hhead, hrne, not_false_eq_true]

/-- C18: `make_relative_uri_from_full (uri, base_uri)` returns `r` exactly when
`uri` is `base_uri`, followed by one or more `/`, followed by `r`, where `r` is not
empty and does not start with `/`; in every other case it returns NULL. -/
theorem make_relative_uri_from_full_spec (uri base_uri : String) :
    (∀ r : String, make_relative_uri_from_full uri base_uri = some r ↔
      ∃ n, 0 < n ∧ uri = base_uri ++ String.mk (List.replicate n '/') ++ r ∧
        r ≠ "" ∧ r.data.head? ≠ some '/') ∧
    (make_relative_uri_from_full uri base_uri = none ↔
      ¬ ∃ (n : Nat) (r : String), 0 < n ∧
        uri = base_uri ++ String.mk (List.replicate n '/') ++ r ∧
        r ≠ "" ∧ r.data.head? ≠ some '/') := by
  refine ⟨fun r => make_relative_uri_from_full_eq_some uri base_uri r, ?_⟩
  constructor
  · rintro hnone ⟨n, r, h⟩
    have := (make_relative_uri_from_full_eq_some uri base_uri r).2 ⟨n, h⟩
    rw [hnone] at this
    cases this
  · intro h
    cases hres : make_relative_uri_from_full uri base_uri with
    | none => rfl
    | some r =>
      obtain ⟨n, hn⟩ := (make_relative_uri_from_full_eq_some uri base_uri r).1 hres
      exact absurd ⟨n, r, hn⟩ h

/-! ## Theorems: the view menu, combo entries and initial permissions -/

/-- C17 at every zoom value `v`.  `zoom_level_changed` passes the variadic
arguments `1, zoom_level, G_TYPE_NONE` to `g_signal_emit`, while the signal takes
one `gdouble`: the parameter is collected from the first variadic argument, the
`int` 1, so the emission with `v` as its single argument is not what the call
defines. -/
theorem zoom_level_changed_emission {D : Type} (v : D) :
    zoom_level_changed v = none ∧
    zoom_level_changed v ≠ some { signal := "zoom-level-changed", params := [v] } ∧
    g_signal_emit_zoom_level_changed [VarArg.double v] =
      some { signal := "zoom-level-changed", params := [v] } := by
  refine ⟨rfl, ?_, rfl⟩
  intro h
  cases h

lemma tree_model_entries_equal_loop_eq :
    ∀ rows l : List (Option String),
      tree_model_entries_equal_loop rows l =
        if l <+: rows ∧ l ≠ rows then none else some (decide (rows = l)) := by
  intro rows
  induction rows with
  | nil =>
    intro l
    cases l with
    | nil => simp [tree_model_entries_equal_loop]
    | cons d l => simp [tree_model_entries_equal_loop]
  | cons v rows ih =>
    intro l
    cases l with
    | nil => simp [tree_model_entries_equal_loop]
    | cons d l =>
      unfold tree_model_entries_equal_loop
      by_cases hvd : v = d
      · subst hvd
        have hcond : ¬((v = none ∧ v ≠ none) ∨ (v ≠ none ∧ v = none) ∨ (v ≠ none ∧ v ≠ v)) := by
          tauto
        rw [if_neg hcond, ih l]
        simp only [List.cons_prefix_cons, true_and, ne_eq, List.cons.injEq]
      · have hcond : (v = none ∧ d ≠ none) ∨ (v ≠ none ∧ d = none) ∨ (v ≠ none ∧ v ≠ d) := by
          cases v <;> cases d <;> simp_all
        have hne : ¬(d :: l <+: v :: rows) := by
          rw [List.cons_prefix_cons]
          exact fun h => hvd h.1.symm
        rw [if_pos hcond]
        simp [hne, hvd]

/-- The result of `tree_model_entries_equal` for every model and entry list: no
result when the entries are the first rows of a longer model, and otherwise
whether the model has exactly the entries, in order. -/
lemma tree_model_entries_equal_eq (model entries : List (Option String)) :
    tree_model_entries_equal model entries =
      if entries ≠ [] ∧ entries <+: model ∧ entries ≠ model then none
      else some (decide (model = entries)) := by
  unfold tree_model_entries_equal
  cases model with
  | nil =>
    cases entries with
    | nil => simp
    | cons d l => simp
  | cons v rows =>
    cases entries with
    | nil => simp
    | cons d l =>
      simp only [reduceCtorEq, decide_False, Bool.not_false, ne_eq, not_false_eq_true,
        decide_True, Bool.and_self, if_true, tree_model_entries_equal_loop_eq, true_and]

/-- C19 at its failing input.  The model of the group combo has the rows `users`
and `wheel` and the list of settable groups is `users` alone: after the first row
the entry pointer `l` is NULL, the loop goes on to the second row and reads
`l->data`, so the call does not return normally. -/
theorem tree_model_entries_equal_longer_model :
    tree_model_entries_equal [some "users", some "wheel"] [some "users"] = none := by
  decide

/-- C20 at its failing input.  Two plain files have the recorded initial
permissions 0755 and the mask is 0111, so every applicable file has every bit of
the mask set; `initial_permission_state_consistent` stores the unmasked 0755 as
`first_permissions`, compares the masked 0111 of the second file with it, and
returns FALSE. -/
theorem initial_permission_state_consistent_unmasked_first :
    (∀ f ∈ [1, 2], (([(1, 0o755), (2, 0o755)] : FileTable Nat).lookup f).getD 0 &&& 0o111
      = 0o111) ∧
    initial_permission_state_consistent {} [1, 2] [(1, 0o755), (2, 0o755)] 0o111 false false
      = false ∧
    initial_permission_state_consistent {} [1] [(1, 0o755), (2, 0o755)] 0o111 false false
      = true := by
  decide

/-! ## Theorems: custom icons -/

/-- The value `set_icon` stores for a file that is not a desktop file. -/
lemma set_icon_loop_metadata (env : FileEnv) (icon_uri icon_path : String) :
    ∀ (l : List NautilusFile) (w : World),
      (set_icon_loop env icon_uri icon_path l w).metadata_calls =
        w.metadata_calls ++
          (l.filter (fun f => !env.is_mime_type f "application/x-desktop")).flatMap
            (fun f =>
              [{ file := f, key := MetadataKey.NAUTILUS_METADATA_KEY_CUSTOM_ICON,
                 value := some ((make_relative_uri_from_full icon_uri (env.uri f)).getD icon_uri) },
               { file := f, key := MetadataKey.NAUTILUS_METADATA_KEY_ICON_SCALE,
                 value := none }]) := by
  intro l
  induction l with
  | nil => intro w; simp [set_icon_loop]
  | cons x xs ih =>
    intro w
    unfold set_icon_loop
    cases hd : env.is_mime_type x "application/x-desktop"
    · simp only [Bool.false_eq_true, if_false, ih, List.filter_cons, hd, Bool.not_false, if_true,
        List.flatMap_cons, List.append_assoc]
      cases make_relative_uri_from_full icon_uri (env.uri x) <;> rfl
    · simp only [if_true, ih, List.filter_cons, hd, Bool.not_true, Bool.false_eq_true, if_false]
      split <;> rfl

/-- C14: `set_icon` writes the custom icon as file metadata and does not allow
remote URIs.  If the icon URI has no local path, nothing changes.  Otherwise the
metadata calls it adds are, for every original file that is not a desktop file and
in order, the custom icon set to a value `value f` and the icon scale cleared,
where `value f` is the rest `r` when the icon URI is the URI of the file followed
by one or more `/` and a rest `r` that is not empty and does not start with `/`,
and the full icon URI when the icon URI has no such form. -/
theorem set_icon_spec (env : FileEnv) (w : World) (icon_uri : String) :
    (env.filename_from_uri icon_uri = none → set_icon env w icon_uri = w) ∧
    (∀ icon_path, env.filename_from_uri icon_uri = some icon_path →
      ∃ value : NautilusFile → String,
        (set_icon env w icon_uri).metadata_calls =
          w.metadata_calls ++
            (w.details.original_files.filter
              (fun f => !env.is_mime_type f "application/x-desktop")).flatMap
              (fun f =>
                [{ file := f, key := MetadataKey.NAUTILUS_METADATA_KEY_CUSTOM_ICON,
                   value := some (value f) },
                 { file := f, key := MetadataKey.NAUTILUS_METADATA_KEY_ICON_SCALE,
                   value := none }]) ∧
        ∀ f,
          (∀ (n : Nat) (r : String), 0 < n →
            icon_uri = env.uri f ++ String.mk (List.replicate n '/') ++ r →
            r ≠ "" → r.data.head? ≠ some '/' → value f = r) ∧
          ((¬ ∃ (n : Nat) (r : String), 0 < n ∧
            icon_uri = env.uri f ++ String.mk (List.replicate n '/') ++ r ∧
            r ≠ "" ∧ r.data.head? ≠ some '/') → value f = icon_uri)) := by
  constructor
  · intro h
    simp [set_icon, h]
  · intro icon_path h
    refine ⟨fun f => (make_relative_uri_from_full icon_uri (env.uri f)).getD icon_uri, ?_, ?_⟩
    · simp only [set_icon, h]
      exact set_icon_loop_metadata env icon_uri icon_path _ w
    · intro f
      constructor
      · intro n r hn huri hne hhead
        have := (make_relative_uri_from_full_eq_some icon_uri (env.uri f) r).2
          ⟨n, hn, huri, hne, hhead⟩
        simp [this]
      · intro hno
        cases hres : make_relative_uri_from_full icon_uri (env.uri f) with
        | none => simp [hres]
        | some r =>
          obtain ⟨n, hn⟩ := (make_relative_uri_from_full_eq_some icon_uri (env.uri f) r).1 hres
          exact absurd ⟨n, r, hn⟩ hno

/-- C15 at its failing input.  The dropped data is `file:///a.png`, an empty line
and `file:///b.png`: split on CR LF it holds two URIs that are not empty, but the
second piece is empty, so `exactly_one` is TRUE; the first URI is a local image and
the drop calls `set_icon`, which writes the custom icon of file 1, and shows no
error. -/
theorem drag_data_received_two_uris :
    (g_strsplit_crlf "file:///a.png\r\n\r\nfile:///b.png").filter (fun uri => uri ≠ "") =
      ["file:///a.png", "file:///b.png"] ∧
    (nautilus_properties_window_drag_data_received drop_env one_file_window
      "file:///a.png\r\n\r\nfile:///b.png").error_dialogs = [] ∧
    (nautilus_properties_window_drag_data_received drop_env one_file_window
      "file:///a.png\r\n\r\nfile:///b.png").metadata_calls =
      [{ file := 1, key := MetadataKey.NAUTILUS_METADATA_KEY_CUSTOM_ICON,
         value := some "file:///a.png" },
       { file := 1, key := MetadataKey.NAUTILUS_METADATA_KEY_ICON_SCALE, value := none }] := by
  decide

/-! ## Theorems: the name field -/

lemma string_length_eq_zero (s : String) : s.length = 0 ↔ s = "" := by
  constructor
  · intro h
    apply String.ext
    exact List.length_eq_zero.1 h
  · rintro rfl
    rfl

/-- C12 as stated fails: the window shows the one file 1, which is gone, and the
text of the name entry is empty while the stored original name is `foo`.
`name_field_done_editing` returns at the test for a gone file, so the entry is not
reverted to `foo`. -/
theorem name_field_done_editing_gone_not_reverted :
    gone_file_env.is_gone 1 = true ∧
    cleared_entry_window.details.name_field =
      some { is_entry := true, text := "", original_name := some "foo" } ∧
    name_field_done_editing gone_file_env cleared_entry_window = some cleared_entry_window := by
  decide

/-- C12, amended: for the name entry `nf` of the window, `name_field_done_editing`
requests a rename (`nautilus_file_rename` with the entered text, which becomes
`pending_name`) if and only if the window is not a multi-file window, its original
file exists and is not gone, the entered text is not empty, and an original name is
stored on the entry from which the entered text differs.  When the window is not a
multi-file window, its original file exists and is not gone and the entered text is
empty, the entry is reverted to the stored original name (an entry without a stored
original name is left as it is) and no rename is requested.  In a multi-file window,
without an original file or with a gone one, nothing changes.  The function returns
in all these cases: it fails to return exactly for a non-empty text on an entry
without a stored original name, where `strcmp` is called with NULL. -/
theorem name_field_done_editing_spec (env : FileEnv) (w : World) (nf : NameField)
    (hnf : w.details.name_field = some nf) (hentry : nf.is_entry = true) :
    ((∃ w' file, name_field_done_editing env w = some w' ∧
          w'.rename_calls = w.rename_calls ++ [(file, nf.text)] ∧
          get_original_file env w = some file ∧ w'.details.pending_name = some nf.text) ↔
        (is_multi_file_window env w = false ∧
          (∃ file, get_original_file env w = some file ∧ env.is_gone file = false) ∧
          nf.text ≠ "" ∧ ∃ o, nf.original_name = some o ∧ nf.text ≠ o)) ∧
    (∀ w', name_field_done_editing env w = some w' →
      w'.rename_calls = w.rename_calls ∨
        ∃ file, w'.rename_calls = w.rename_calls ++ [(file, nf.text)]) ∧
    (is_multi_file_window env w = false →
      (∃ file, get_original_file env w = some file ∧ env.is_gone file = false) →
      nf.text = "" →
      ∃ w', name_field_done_editing env w = some w' ∧
        w'.details.name_field =
          some (match nf.original_name with
            | some o => { nf with text := o, selected_all := true }
            | none => nf) ∧
        w'.rename_calls = w.rename_calls ∧ w'.details.pending_name = w.details.pending_name) ∧
    (¬(is_multi_file_window env w = false ∧
          ∃ file, get_original_file env w = some file ∧ env.is_gone file = false) →
      name_field_done_editing env w = some w) ∧
    (name_field_done_editing env w = none ↔
      (is_multi_file_window env w = false ∧
        (∃ file, get_original_file env w = some file ∧ env.is_gone file = false) ∧
        nf.text ≠ "" ∧ nf.original_name = none)) := by
  have hself : ∀ x : NautilusFile × String, w.rename_calls ≠ w.rename_calls ++ [x] := by
    intro x h
    have := congrArg List.length h
    simp at this
  -- the cases in which the function returns the window as it is
  have hsame : name_field_done_editing env w = some w →
      ¬(is_multi_file_window env w = false ∧
        (∃ file, get_original_file env w = some file ∧ env.is_gone file = false) ∧
        nf.text ≠ "" ∧ ∃ o, nf.original_name = some o ∧ nf.text ≠ o) →
      ¬(is_multi_file_window env w = false ∧
        (∃ file, get_original_file env w = some file ∧ env.is_gone file = false) ∧
        nf.text ≠ "" ∧ nf.original_name = none) →
      ((∃ w' file, name_field_done_editing env w = some w' ∧
          w'.rename_calls = w.rename_calls ++ [(file, nf.text)] ∧
          get_original_file env w = some file ∧ w'.details.pending_name = some nf.text) ↔
        (is_multi_file_window env w = false ∧
          (∃ file, get_original_file env w = some file ∧ env.is_gone file = false) ∧
          nf.text ≠ "" ∧ ∃ o, nf.original_name = some o ∧ nf.text ≠ o)) ∧
      (∀ w', name_field_done_editing env w = some w' →
        w'.rename_calls = w.rename_calls ∨
          ∃ file, w'.rename_calls = w.rename_calls ++ [(file, nf.text)]) ∧
      (name_field_done_editing env w = none ↔
        (is_multi_file_window env w = false ∧
          (∃ file, get_original_file env w = some file ∧ env.is_gone file = false) ∧
          nf.text ≠ "" ∧ nf.original_name = none)) := by
    intro hval hno hnone
    refine ⟨⟨?_, fun h => absurd h hno⟩, ?_, ⟨?_, fun h => absurd h hnone⟩⟩
    · rintro ⟨w', f, hw', hf, _⟩
      rw [hval] at hw'
      cases hw'
      exact absurd hf (hself _)
    · intro w' hw'
      rw [hval] at hw'
      cases hw'
      exact Or.inl rfl
    · intro h
      rw [hval] at h
      cases h
  have hnogone : ∀ file, get_original_file env w = some file → env.is_gone file = true →
      ¬ ∃ f, get_original_file env w = some f ∧ env.is_gone f = false := by
    rintro file hfile hgone ⟨f, hf, hg⟩
    rw [hfile] at hf
    cases hf
    rw [hgone] at hg
    cases hg
  obtain hmulti | hmulti := Bool.eq_false_or_eq_true (is_multi_file_window env w)
  · have hval : name_field_done_editing env w = some w := by
      simp [name_field_done_editing, hnf, hentry, hmulti]
    have hno : ¬ is_multi_file_window env w = false := by simp [hmulti]
    obtain ⟨h1, h2, h5⟩ := hsame hval (fun h => hno h.1) (fun h => hno h.1)
    exact ⟨h1, h2, fun h => absurd h hno, fun _ => hval, h5⟩
  · obtain hfile | ⟨file, hfile⟩ :
        get_original_file env w = none ∨ ∃ f, get_original_file env w = some f := by
      cases get_original_file env w <;> simp
    · have hval : name_field_done_editing env w = some w := by
        simp [name_field_done_editing, hnf, hentry, hmulti, hfile]
      have hno : ¬ ∃ f, get_original_file env w = some f ∧ env.is_gone f = false := by
        rintro ⟨f, hf, _⟩
        rw [hfile] at hf
        cases hf
      obtain ⟨h1, h2, h5⟩ := hsame hval (fun h => hno h.2.1) (fun h => hno h.2.1)
      exact ⟨h1, h2, fun _ h _ => absurd h hno, fun _ => hval, h5⟩
    · obtain hgone | hgone := Bool.eq_false_or_eq_true (env.is_gone file)
      · have hval : name_field_done_editing env w = some w := by
          simp [name_field_done_editing, hnf, hentry, hmulti, hfile, hgone]
        have hno := hnogone file hfile hgone
        obtain ⟨h1, h2, h5⟩ := hsame hval (fun h => hno h.2.1) (fun h => hno h.2.1)
        exact ⟨h1, h2, fun _ h _ => absurd h hno, fun _ => hval, h5⟩
      · have hok : is_multi_file_window env w = false ∧
            ∃ f, get_original_file env w = some f ∧ env.is_gone f = false :=
          ⟨hmulti, file, hfile, hgone⟩
        by_cases htext : nf.text = ""
        · have hval : name_field_done_editing env w =
              some { w with details :=
                { w.details with name_field := some (name_field_restore_original_name nf) } } := by
            simp [name_field_done_editing, hnf, hentry, hmulti, hfile, hgone,
              string_length_eq_zero, htext]
          refine ⟨⟨?_, ?_⟩, ?_, ?_, fun h => absurd hok h, ⟨?_, ?_⟩⟩
          · rintro ⟨w', f, hw', hf, _⟩
            rw [hval] at hw'
            cases hw'
            exact absurd hf (hself _)
          · rintro ⟨_, _, hne, _⟩
            exact absurd htext hne
          · intro w' hw'
            rw [hval] at hw'
            cases hw'
            exact Or.inl rfl
          · intro _ _ _
            refine ⟨_, hval, ?_, rfl, rfl⟩
            show some (name_field_restore_original_name nf) = _
            cases nf with
            | mk e t orig sa =>
              simp only at htext
              subst htext
              cases orig with
              | none => simp [name_field_restore_original_name]
              | some o =>
                by_cases ho' : o = ""
                · simp [name_field_restore_original_name, ho']
                · simp [name_field_restore_original_name, ho']
          · intro h
            rw [hval] at h
            cases h
          · rintro ⟨_, _, hne, _⟩
            exact absurd htext hne
        · obtain horig | ⟨o, horig⟩ :
              nf.original_name = none ∨ ∃ o, nf.original_name = some o := by
            cases nf.original_name <;> simp
          · have hval : name_field_done_editing env w = none := by
              simp [name_field_done_editing, hnf, hentry, hmulti, hfile, hgone,
                string_length_eq_zero, htext, horig]
            refine ⟨⟨?_, ?_⟩, ?_, fun _ _ h => absurd h htext, fun h => absurd hok h,
              ⟨fun _ => ⟨hok.1, hok.2, htext, horig⟩, fun _ => hval⟩⟩
            · rintro ⟨w', f, hw', _⟩
              rw [hval] at hw'
              cases hw'
            · rintro ⟨_, _, _, o, ho, _⟩
              rw [horig] at ho
              cases ho
            · intro w' hw'
              rw [hval] at hw'
              cases hw'
          · have hnone : ¬(is_multi_file_window env w = false ∧
                (∃ file, get_original_file env w = some file ∧ env.is_gone file = false) ∧
                nf.text ≠ "" ∧ nf.original_name = none) := by
              rintro ⟨_, _, _, ho'⟩
              rw [horig] at ho'
              cases ho'
            by_cases hnew : nf.text = o
            · have hne_o : ¬ o = "" := hnew ▸ htext
              have hval : name_field_done_editing env w = some w := by
                simp [name_field_done_editing, hnf, hentry, hmulti, hfile, hgone,
                  string_length_eq_zero, horig, hnew, hne_o]
              obtain ⟨h1, h2, h5⟩ := hsame hval
                (by
                  rintro ⟨_, _, _, o', ho', hne⟩
                  rw [horig] at ho'
                  cases ho'
                  exact hne hnew)
                hnone
              exact ⟨h1, h2, fun _ _ h => absurd h htext, fun h => absurd hok h, h5⟩
            · have hval : name_field_done_editing env w =
                  some { w with
                    details := { w.details with pending_name := some nf.text }
                    rename_calls := w.rename_calls ++ [(file, nf.text)] } := by
                simp [name_field_done_editing, hnf, hentry, hmulti, hfile, hgone,
                  string_length_eq_zero, htext, horig, hnew]
              refine ⟨⟨fun _ => ⟨hok.1, hok.2, htext, o, horig, hnew⟩,
                  fun _ => ⟨_, file, hval, rfl, hfile, rfl⟩⟩, ?_,
                fun _ _ h => absurd h htext, fun h => absurd hok h,
                ⟨?_, fun h => absurd h hnone⟩⟩
              · intro w' hw'
                rw [hval] at hw'
                cases hw'
                exact Or.inr ⟨file, rfl⟩
              · intro h
                rw [hval] at h
                cases h

/-- Witness of C12: the name entry of file 1 holds `draft` and the stored original
name is `foo`; a rename to `draft` is requested. -/
theorem name_field_done_editing_spec_witness :
    (draft_entry_window.details.name_field =
        some { is_entry := true, text := "draft", original_name := some "foo" } ∧
      ({ is_entry := true, text := "draft", original_name := some "foo" } : NameField).is_entry
        = true) ∧
    ∃ w' file, name_field_done_editing foo_env draft_entry_window = some w' ∧
      w'.rename_calls = draft_entry_window.rename_calls ++ [(file, "draft")] ∧
      get_original_file foo_env draft_entry_window = some file ∧
      w'.details.pending_name = some "draft" :=
  ⟨⟨rfl, rfl⟩,
    (name_field_done_editing_spec foo_env draft_entry_window
      { is_entry := true, text := "draft", original_name := some "foo" } rfl rfl).1.2
      ⟨by decide, ⟨1, by decide, rfl⟩, by decide, "foo", rfl, by decide⟩⟩

/-- An entry without a stored original name arises when `update_name_field`
replaces the label of a file that could not be renamed by an entry while the name
of the file is unchanged: the new entry shows `foo` and carries no `original_name`.
When its editing ends, `strcmp` is called with NULL. -/
theorem name_entry_without_original_name :
    (window_run relabel_events one_file_window).map (fun w => w.details.name_field) =
      some (some { is_entry := true, text := "foo", original_name := none }) ∧
    window_run (relabel_events ++ [(foo_env, WindowEvent.name_field_done)]) one_file_window =
      none := by
  decide

/-- C13 as stated fails: the name entry of file 1 holds the text `draft` typed by
the user, the stored original name `foo` is the current display name, but the file
can no longer be renamed.  `update_name_field` replaces the entry by a label with
the text `foo`; the text the user typed is gone. -/
theorem update_name_field_replaces_entry :
    is_multi_file_window foo_locked_env draft_entry_window = false ∧
    draft_entry_window.details.name_field =
      some { is_entry := true, text := "draft", original_name := some "foo" } ∧
    foo_locked_env.display_name 1 = "foo" ∧
    (update_name_field foo_locked_env draft_entry_window).details.name_field =
      some { is_entry := false, text := "foo" } := by
  decide

/-- C13, amended: in a single-file window whose name field is an entry and whose
original file is not gone and can be renamed, `update_name_field` leaves the window
as it is, the entry text as the user typed it, when the current display name of the
file equals the stored original name; and when they differ (or no original name is
stored) the entry text becomes the current display name and the stored original
name is replaced by it. -/
theorem update_name_field_spec (env : FileEnv) (w : World) (nf : NameField)
    (file : NautilusFile)
    (hmulti : is_multi_file_window env w = false)
    (hfile : get_original_file env w = some file)
    (hgone : env.is_gone file = false) (hrename : env.can_rename file = true)
    (hnf : w.details.name_field = some nf) (hentry : nf.is_entry = true) :
    (nf.original_name = some (env.display_name file) → update_name_field env w = w) ∧
    (nf.original_name ≠ some (env.display_name file) →
      (update_name_field env w).details.name_field =
        some { nf with text := env.display_name file,
                       original_name := some (env.display_name file) }) := by
  constructor
  · intro ho
    simp [update_name_field, set_name_field, hmulti, hfile, hgone, hnf, hentry, ho,
      nautilus_file_can_rename, hrename]
  · intro ho
    have hcond : nf.original_name = none ∨ nf.original_name ≠ some (env.display_name file) :=
      Or.inr ho
    simp only [update_name_field, hmulti, Bool.false_eq_true, if_false, hfile, hgone, hnf,
      hcond, if_true, set_name_field, nautilus_file_can_rename, hrename, Bool.not_true,
      Bool.or_false, hentry]
    by_cases htext : nf.text = env.display_name file
    · simp only [htext, ne_eq, not_true_eq_false, if_false, hnf, Option.map_some']
      rw [← htext, hentry]
    · simp only [ne_eq, htext, not_false_eq_true, if_true, Option.map_some']

/-- Witness of C13: the entry holds `draft`, the stored original name is `foo`; with
the display name `foo` the window is unchanged, and with the display name `bar` the
entry shows `bar`. -/
theorem update_name_field_spec_witness :
    (is_multi_file_window foo_env draft_entry_window = false ∧
      get_original_file foo_env draft_entry_window = some 1 ∧
      foo_env.is_gone 1 = false ∧ foo_env.can_rename 1 = true) ∧
    update_name_field foo_env draft_entry_window = draft_entry_window ∧
    (update_name_field bar_env draft_entry_window).details.name_field =
      some { is_entry := true, text := "bar", original_name := some "bar" } :=
  ⟨⟨by decide, by decide, rfl, rfl⟩,
    (update_name_field_spec foo_env draft_entry_window
      { is_entry := true, text := "draft", original_name := some "foo" } 1
      (by decide) (by decide) rfl rfl rfl rfl).1 rfl,
    (update_name_field_spec bar_env draft_entry_window
      { is_entry := true, text := "draft", original_name := some "foo" } 1
      (by decide) (by decide) rfl rfl rfl rfl).2 (by decide)⟩

/-! ## Theorems: the volume fields are written once -/

lemma schedule_files_update_volume (w : World) :
    volume_state (schedule_files_update w) = volume_state w := by
  unfold schedule_files_update
  split <;> rfl

lemma file_changed_callback_volume (w : World) (file : NautilusFile) :
    volume_state (file_changed_callback w file) = volume_state w := by
  unfold file_changed_callback
  split
  · exact schedule_files_update_volume _
  · rfl

lemma schedule_directory_contents_update_volume (w : World) :
    volume_state (schedule_directory_contents_update w) = volume_state w := by
  unfold schedule_directory_contents_update
  split <;> rfl

lemma updated_deep_count_in_progress_volume (w : World) (file : NautilusFile) :
    volume_state (updated_deep_count_in_progress w file) = volume_state w := by
  unfold updated_deep_count_in_progress
  split
  · exact schedule_directory_contents_update_volume _
  · rfl

lemma remove_from_dialog_volume (w : World) (file : NautilusFile) :
    volume_state (remove_from_dialog w file) = volume_state w := by
  unfold remove_from_dialog
  simp only
  split
  · rfl
  · split <;> rfl

lemma schedule_start_spinner_volume (w : World) :
    volume_state (schedule_start_spinner w) = volume_state w := by
  unfold schedule_start_spinner
  split <;> rfl

lemma start_deep_count_for_file_volume (env : FileEnv) (w : World) (file : NautilusFile) :
    volume_state (start_deep_count_for_file env w file) = volume_state w := by
  unfold start_deep_count_for_file
  simp only
  split
  · rfl
  · split
    · split
      · exact schedule_start_spinner_volume _
      · rfl
    · rfl

lemma properties_window_update_loop_volume (env : FileEnv) :
    ∀ (files : List NautilusFile) (w : World) (d1 d2 : Bool),
      volume_state (properties_window_update_loop env files w d1 d2).1 = volume_state w := by
  intro files
  induction files with
  | nil => intro w d1 d2; rfl
  | cons x xs ih =>
    intro w d1 d2
    unfold properties_window_update_loop
    split
    · simp only
      split
      · exact remove_from_dialog_volume w x
      · exact (ih _ _ _).trans (remove_from_dialog_volume w x)
    · exact (ih _ _ _).trans (start_deep_count_for_file_volume env w x)

lemma properties_window_update_volume (env : FileEnv) (w : World) (files : List NautilusFile) :
    volume_state (properties_window_update env w files) = volume_state w := by
  have h := properties_window_update_loop_volume env files
    { w with update_calls := w.update_calls ++ [files] } (decide (files = [])) (decide (files = []))
  unfold properties_window_update
  simp only
  split
  · exact h
  · split
    · exact h
    · exact h

lemma unschedule_or_cancel_group_change_volume (w : World) :
    volume_state (unschedule_or_cancel_group_change w) = volume_state w := by
  unfold unschedule_or_cancel_group_change
  split
  · rfl
  · simp only
    split
    · rfl
    · split <;> rfl

lemma schedule_group_change_volume (w : World) (file : NautilusFile) (group : String) :
    volume_state (schedule_group_change w file group) = volume_state w := by
  unfold schedule_group_change g_assert
  split <;> rfl

lemma unschedule_or_cancel_owner_change_volume (w : World) :
    volume_state (unschedule_or_cancel_owner_change w) = volume_state w := by
  unfold unschedule_or_cancel_owner_change
  split
  · rfl
  · simp only
    split
    · rfl
    · split <;> rfl

lemma schedule_owner_change_volume (w : World) (file : NautilusFile) (owner : String) :
    volume_state (schedule_owner_change w file owner) = volume_state w := by
  unfold schedule_owner_change g_assert
  split <;> rfl

lemma changed_owner_callback_volume (env : FileEnv) (w : World) (new_owner : Option String)
    (file : NautilusFile) :
    volume_state (changed_owner_callback env w new_owner file) = volume_state w := by
  unfold changed_owner_callback
  split
  · rfl
  · simp only
    split
    · exact (schedule_owner_change_volume _ _ _).trans
        (unschedule_or_cancel_owner_change_volume w)
    · rfl

lemma owner_change_callback_volume (w : World) (change : Nat) :
    volume_state (owner_change_callback w change) = volume_state w := by
  unfold owner_change_callback
  split
  · rfl
  · simp only
    split <;> split <;> rfl

lemma real_destroy_volume (w : World) : volume_state (real_destroy w) = volume_state w := by
  have h := (unschedule_or_cancel_owner_change_volume _).trans
    (unschedule_or_cancel_group_change_volume w)
  unfold real_destroy
  simp only
  split <;> split <;> split <;> exact h

lemma update_files_callback_volume (env : FileEnv) (w : World) :
    volume_state (update_files_callback env w) = volume_state w := by
  have h := properties_window_update_volume env
    { w with details := { w.details with update_files_timeout_id := 0 } } w.details.changed_files
  unfold update_files_callback
  simp only
  split
  · exact (real_destroy_volume _).trans h
  · exact h

lemma stop_deep_count_for_file_volume (w : World) (file : NautilusFile) :
    volume_state (stop_deep_count_for_file w file) = volume_state w := by
  unfold stop_deep_count_for_file
  split <;> rfl

lemma directory_contents_loop_volume (env : FileEnv) :
    ∀ (l : List NautilusFile) (w : World) (t : ContentsTotals),
      volume_state (directory_contents_loop env l w t).1 = volume_state w := by
  intro l
  induction l with
  | nil => intro w t; rfl
  | cons x xs ih =>
    intro w t
    unfold directory_contents_loop
    split
    · exact ih _ _
    · split
      · simp only
        refine (ih _ _).trans ?_
        split
        · exact stop_deep_count_for_file_volume w x
        · rfl
      · exact ih _ _

lemma stop_spinner_volume (w : World) : volume_state (stop_spinner w) = volume_state w := by
  unfold stop_spinner
  simp only
  split <;> rfl

lemma directory_contents_value_field_update_volume (env : FileEnv) (w : World) :
    volume_state (directory_contents_value_field_update env w) = volume_state w := by
  have h := directory_contents_loop_volume env w.details.target_files w
    { total_count := w.details.total_count, total_size := w.details.total_size }
  unfold directory_contents_value_field_update
  simp only
  split
  · exact h
  · split
    · exact (stop_spinner_volume _).trans h
    · exact h

lemma source_fired_volume (env : FileEnv) (w : World) (source : Nat × SourceFunc) :
    volume_state (source_fired env w source) = volume_state w := by
  unfold source_fired
  simp only
  split
  · exact update_files_callback_volume env w
  · exact directory_contents_value_field_update_volume env _
  · rfl
  · show volume_state (schedule_group_change_timeout w _) = volume_state w
    unfold schedule_group_change_timeout
    split <;> rfl
  · show volume_state (schedule_owner_change_timeout w _) = volume_state w
    unfold schedule_owner_change_timeout
    split <;> rfl

lemma changed_group_callback_volume (env : FileEnv) (w : World) (group : Option String)
    (file : NautilusFile) :
    volume_state (changed_group_callback env w group file) = volume_state w := by
  unfold changed_group_callback
  simp only
  split
  · rfl
  · split
    · exact (schedule_group_change_volume _ _ _).trans
        (unschedule_or_cancel_group_change_volume w)
    · rfl

lemma group_change_callback_volume (w : World) (change : Nat) :
    volume_state (group_change_callback w change) = volume_state w := by
  unfold group_change_callback
  split
  · rfl
  · simp only
    split <;> split <;> rfl

lemma set_name_field_volume (env : FileEnv) (w : World) (original_name : Option String)
    (name : String) :
    volume_state (set_name_field env w original_name name) = volume_state w := by
  unfold set_name_field
  simp only
  (repeat' split) <;> rfl

lemma update_name_field_volume (env : FileEnv) (w : World) :
    volume_state (update_name_field env w) = volume_state w := by
  unfold update_name_field
  split
  · exact set_name_field_volume env w _ _
  · simp only
    split
    · exact set_name_field_volume env w _ _
    · exact set_name_field_volume env w _ _

lemma name_field_done_editing_volume (env : FileEnv) (w w' : World)
    (h : name_field_done_editing env w = some w') : volume_state w' = volume_state w := by
  unfold name_field_done_editing at h
  split at h
  · cases h; rfl
  · split at h
    · cases h; rfl
    · split at h
      · cases h; rfl
      · split at h
        · cases h; rfl
        · split at h
          · cases h; rfl
          · simp only at h
            split at h
            · cases h; rfl
            · split at h
              · cases h
              · split at h
                · cases h; rfl
                · cases h; rfl

lemma set_icon_loop_volume (env : FileEnv) (icon_uri icon_path : String) :
    ∀ (l : List NautilusFile) (w : World),
      volume_state (set_icon_loop env icon_uri icon_path l w) = volume_state w := by
  intro l
  induction l with
  | nil => intro w; rfl
  | cons x xs ih =>
    intro w
    unfold set_icon_loop
    simp only
    refine (ih _).trans ?_
    split
    · split <;> rfl
    · rfl

lemma set_icon_volume (env : FileEnv) (w : World) (icon_uri : String) :
    volume_state (set_icon env w icon_uri) = volume_state w := by
  unfold set_icon
  split
  · exact set_icon_loop_volume env _ _ _ w
  · rfl

lemma drag_data_received_volume (env : FileEnv) (w : World) (data : String) :
    volume_state (nautilus_properties_window_drag_data_received env w data) = volume_state w := by
  unfold nautilus_properties_window_drag_data_received
  simp only
  split
  · rfl
  · split
    · rfl
    · split
      · exact set_icon_volume env w _
      · split <;> rfl

lemma window_step_volume (env : FileEnv) (w w' : World) (event : WindowEvent)
    (h : window_step env w event = some w') : volume_state w' = volume_state w := by
  cases event with
  | file_changed file =>
    simp only [window_step, Option.some.injEq] at h
    rw [← h]; exact file_changed_callback_volume w file
  | deep_count_in_progress file =>
    simp only [window_step, Option.some.injEq] at h
    rw [← h]; exact updated_deep_count_in_progress_volume w file
  | timeout source =>
    simp only [window_step] at h
    split at h
    · simp only [Option.some.injEq] at h
      rw [← h]; exact source_fired_volume env w source
    · simp only [Option.some.injEq] at h
      rw [← h]
  | group_combo_changed group file =>
    simp only [window_step, Option.some.injEq] at h
    rw [← h]; exact changed_group_callback_volume env w group file
  | group_change_done change =>
    simp only [window_step, Option.some.injEq] at h
    rw [← h]; exact group_change_callback_volume w change
  | name_field_update =>
    simp only [window_step, Option.some.injEq] at h
    rw [← h]; exact update_name_field_volume env w
  | name_field_done =>
    exact name_field_done_editing_volume env w w' h
  | icon_dropped data =>
    simp only [window_step, Option.some.injEq] at h
    rw [← h]; exact drag_data_received_volume env w data
  | icon_chosen uri =>
    simp only [window_step, Option.some.injEq] at h
    rw [← h]; exact set_icon_volume env w uri
  | destroy =>
    simp only [window_step, Option.some.injEq] at h
    rw [← h]; exact real_destroy_volume w
  | owner_combo_changed new_owner file =>
    simp only [window_step, Option.some.injEq] at h
    rw [← h]; exact changed_owner_callback_volume env w new_owner file
  | owner_change_done change =>
    simp only [window_step, Option.some.injEq] at h
    rw [← h]; exact owner_change_callback_volume w change

lemma window_run_volume :
    ∀ (events : List (FileEnv × WindowEvent)) (w w' : World),
      window_run events w = some w' → volume_state w' = volume_state w := by
  intro events
  induction events with
  | nil =>
    intro w w' h
    simp only [window_run, Option.some.injEq] at h
    rw [h]
  | cons e es ih =>
    intro w w' h
    obtain ⟨env, event⟩ := e
    simp only [window_run] at h
    cases hstep : window_step env w event with
    | none => rw [hstep] at h; cases h
    | some w1 =>
      rw [hstep] at h
      exact (ih w1 w' h).trans (window_step_volume env w w1 event hstep)

/-! ## Theorems: the volume pie chart -/

/-- C16: the pie chart is only drawn from usable statistics.  For a window on which
`paint_pie_chart` is not connected yet: `create_volume_usage_widget` returns a pie
widget, and `paint_pie_chart` is connected, exactly when `volume_capacity > 0`;
when the filesystem information cannot be retrieved, capacity, free and used are 0
and there is no pie widget; and after any events of the window `volume_capacity` is
what `create_volume_usage_widget` stored, so whenever `paint_pie_chart` is
connected its divisor `volume_capacity` is not 0. -/
theorem volume_pie_chart_safe (env : FileEnv) (w w2 : World)
    (events : List (FileEnv × WindowEvent))
    (hnew : w.details.pie_chart_connected = false)
    (hrun : window_run events (create_volume_usage_widget env w).1 = some w2) :
    ((create_volume_usage_widget env w).2 = true ↔
      (create_volume_usage_widget env w).1.details.volume_capacity > 0) ∧
    ((create_volume_usage_widget env w).1.details.pie_chart_connected = true ↔
      (create_volume_usage_widget env w).1.details.volume_capacity > 0) ∧
    (((get_original_file env w).bind env.filesystem_info) = none →
      (create_volume_usage_widget env w).1.details.volume_capacity = 0 ∧
      (create_volume_usage_widget env w).1.details.volume_free = 0 ∧
      (create_volume_usage_widget env w).1.details.volume_used = 0 ∧
      (create_volume_usage_widget env w).2 = false ∧
      (create_volume_usage_widget env w).1.details.pie_chart_connected = false) ∧
    w2.details.volume_capacity = (create_volume_usage_widget env w).1.details.volume_capacity ∧
    (w2.details.pie_chart_connected = true →
      w2.details.volume_capacity > 0 ∧
      paint_pie_chart w2 =
        some ((w2.details.volume_free, w2.details.volume_capacity),
          (w2.details.volume_used, w2.details.volume_capacity))) := by
  have hinfo : (match get_original_file env w with
      | none => none
      | some file => env.filesystem_info file) =
      (get_original_file env w).bind env.filesystem_info := by
    cases get_original_file env w <;> rfl
  have hcreate : ((create_volume_usage_widget env w).2 = true ↔
        (create_volume_usage_widget env w).1.details.volume_capacity > 0) ∧
      ((create_volume_usage_widget env w).1.details.pie_chart_connected = true ↔
        (create_volume_usage_widget env w).1.details.volume_capacity > 0) := by
    unfold create_volume_usage_widget
    simp only [hinfo]
    cases (get_original_file env w).bind env.filesystem_info with
    | none => simp [hnew]
    | some info =>
      obtain ⟨size, free, used⟩ := info
      simp only
      by_cases hcap : 0 < size % 18446744073709551616
      · simp [hcap, create_pie_widget]
      · have hzero : size % 18446744073709551616 = 0 := by omega
        simp [hzero, hnew]
  have hvol := window_run_volume events _ w2 hrun
  simp only [volume_state, Prod.mk.injEq] at hvol
  obtain ⟨hcap, _, _, hconn⟩ := hvol
  refine ⟨hcreate.1, hcreate.2, ?_, hcap, ?_⟩
  · intro hnone
    unfold create_volume_usage_widget
    simp only [hinfo, hnone, hnew]
    simp
  · intro hc
    have hpos : w2.details.volume_capacity > 0 := by
      rw [hcap]
      exact hcreate.2.1 (hconn ▸ hc)
    refine ⟨hpos, ?_⟩
    unfold paint_pie_chart
    rw [if_neg (by omega)]

/-- Witness of C16: file 1 is on a volume of 1000 bytes with 400 free; after the
window is destroyed the capacity is still 1000. -/
theorem volume_pie_chart_safe_witness :
    (one_file_window.details.pie_chart_connected = false ∧
      window_run [(volume_env, WindowEvent.file_changed 1), (volume_env, WindowEvent.destroy)]
        (create_volume_usage_widget volume_env one_file_window).1 =
        some (real_destroy (file_changed_callback
          (create_volume_usage_widget volume_env one_file_window).1 1))) ∧
    (real_destroy (file_changed_callback
      (create_volume_usage_widget volume_env one_file_window).1 1)).details.volume_capacity =
      (create_volume_usage_widget volume_env one_file_window).1.details.volume_capacity :=
  ⟨⟨rfl, rfl⟩,
    (volume_pie_chart_safe volume_env one_file_window _
      [(volume_env, WindowEvent.file_changed 1), (volume_env, WindowEvent.destroy)] rfl
      rfl).2.2.2.1⟩

/-! ## Theorems: the contents label after the total was displayed -/

/-- C11 at its failing input.  A window shows the directory 1.  Its first deep count
ends and the total, 4 items with 100 bytes, is displayed, which sets
`deep_count_finished`.  Then the directory changes: `start_deep_count_for_file`
starts a recount but, as `deep_count_finished` is set, connects no handler.  The
recount reports progress and ends with 6 items and 200 bytes, and the directory
emits `changed`.  After all update timeouts have fired the label still shows 4
items with 100 bytes, no timeout is pending and no handler is connected, so nothing
is left that would display the new total. -/
theorem contents_label_stale_after_recount :
    (window_run (recount_events.take 2)
        (append_directory_contents_fields counting_env one_file_window)).map
      (fun w => (w.details.deep_count_finished, w.details.directory_contents_value_field)) =
      some (true, some (ContentsText.items 4 100 false)) ∧
    (window_run recount_events
        (append_directory_contents_fields counting_env one_file_window)).map
      (fun w => (w.details.directory_contents_value_field,
        (directory_contents_totals recounted_env w).total_count,
        (directory_contents_totals recounted_env w).total_size,
        w.main.sources, w.details.deep_count_signal_files,
        w.details.update_directory_contents_timeout_id)) =
      some (some (ContentsText.items 4 100 false), 6, 200, [], [], 0) := by
  constructor <;> rfl

/-! ## Theorems: once the total is displayed, no event writes the contents label -/

lemma same_contents_refl (w : World) : same_contents w w := ⟨rfl, fun h => h⟩

lemma same_contents_trans {w1 w2 w3 : World} (h12 : same_contents w1 w2)
    (h23 : same_contents w2 w3) : same_contents w1 w3 :=
  ⟨h23.1.trans h12.1, fun h => h23.2 (h12.2 h)⟩

lemma same_contents_finished {w w' : World} (h : same_contents w w')
    (hf : w.details.deep_count_finished = true) : w'.details.deep_count_finished = true := by
  have := congrArg (fun v => v.2.1) h.1
  simp only [contents_view] at this
  rw [this]; exact hf

lemma no_contents_source_remove (main : MainContext) (tag : Nat)
    (h : no_contents_source main) : no_contents_source (g_source_remove main tag) := by
  intro s hs
  simp only [g_source_remove, List.mem_filter] at hs
  exact h s hs.1

lemma no_contents_source_add (main : MainContext) (f : SourceFunc)
    (hf : f ≠ SourceFunc.update_directory_contents_callback) (h : no_contents_source main) :
    no_contents_source (g_timeout_add main f).1 := by
  intro s hs
  simp only [g_timeout_add, List.mem_append, List.mem_singleton] at hs
  rcases hs with hs | rfl
  · exact h s hs
  · exact hf

lemma schedule_files_update_contents (w : World) : same_contents w (schedule_files_update w) := by
  unfold schedule_files_update
  split
  · exact ⟨rfl, no_contents_source_add _ _ (by decide)⟩
  · exact same_contents_refl w

lemma file_changed_callback_contents (w : World) (file : NautilusFile) :
    same_contents w (file_changed_callback w file) := by
  unfold file_changed_callback
  split
  · exact same_contents_trans ⟨rfl, fun h => h⟩ (schedule_files_update_contents _)
  · exact same_contents_refl w

lemma remove_from_dialog_contents (w : World) (file : NautilusFile) :
    same_contents w (remove_from_dialog w file) := by
  unfold remove_from_dialog
  simp only
  split
  · exact same_contents_refl w
  · split
    · exact ⟨rfl, fun h => h⟩
    · exact same_contents_refl w

lemma start_deep_count_for_file_contents (env : FileEnv) (w : World) (file : NautilusFile)
    (hf : w.details.deep_count_finished = true) :
    same_contents w (start_deep_count_for_file env w file) := by
  unfold start_deep_count_for_file
  split
  · exact same_contents_refl w
  · split
    · simp only [hf, Bool.not_true, Bool.false_eq_true, if_false]
      exact ⟨by simp only [contents_view, hf], fun h => h⟩
    · exact same_contents_refl w

lemma properties_window_update_loop_contents (env : FileEnv) :
    ∀ (files : List NautilusFile) (w : World) (d1 d2 : Bool),
      w.details.deep_count_finished = true →
      same_contents w (properties_window_update_loop env files w d1 d2).1 := by
  intro files
  induction files with
  | nil => intro w d1 d2 _; exact same_contents_refl w
  | cons x xs ih =>
    intro w d1 d2 hf
    unfold properties_window_update_loop
    have hr := remove_from_dialog_contents w x
    have hs := start_deep_count_for_file_contents env w x hf
    split
    · simp only
      split
      · exact hr
      · exact same_contents_trans hr (ih _ _ _ (same_contents_finished hr hf))
    · exact same_contents_trans hs (ih _ _ _ (same_contents_finished hs hf))

lemma properties_window_update_contents (env : FileEnv) (w : World) (files : List NautilusFile)
    (hf : w.details.deep_count_finished = true) :
    same_contents w (properties_window_update env w files) := by
  have h := properties_window_update_loop_contents env files
    { w with update_calls := w.update_calls ++ [files] } (decide (files = []))
    (decide (files = [])) hf
  have h0 : same_contents w { w with update_calls := w.update_calls ++ [files] } :=
    ⟨rfl, fun h => h⟩
  have h1 := same_contents_trans h0 h
  unfold properties_window_update
  simp only
  split
  · exact h1
  · split
    · exact same_contents_trans h1 ⟨rfl, fun h => h⟩
    · exact h1

lemma unschedule_or_cancel_group_change_contents (w : World) :
    same_contents w (unschedule_or_cancel_group_change w) := by
  unfold unschedule_or_cancel_group_change
  split
  · exact same_contents_refl w
  · simp only
    split
    · exact ⟨rfl, fun h => h⟩
    · split
      · exact ⟨rfl, fun h => h⟩
      · exact ⟨rfl, no_contents_source_remove _ _⟩

lemma schedule_group_change_contents (w : World) (file : NautilusFile) (group : String) :
    same_contents w (schedule_group_change w file group) := by
  unfold schedule_group_change g_assert
  split <;> exact ⟨rfl, no_contents_source_add _ _ (by simp)⟩

lemma unschedule_or_cancel_owner_change_contents (w : World) :
    same_contents w (unschedule_or_cancel_owner_change w) := by
  unfold unschedule_or_cancel_owner_change
  split
  · exact same_contents_refl w
  · simp only
    split
    · exact ⟨rfl, fun h => h⟩
    · split
      · exact ⟨rfl, fun h => h⟩
      · exact ⟨rfl, no_contents_source_remove _ _⟩

lemma schedule_owner_change_contents (w : World) (file : NautilusFile) (owner : String) :
    same_contents w (schedule_owner_change w file owner) := by
  unfold schedule_owner_change g_assert
  split <;> exact ⟨rfl, no_contents_source_add _ _ (by simp)⟩

lemma changed_owner_callback_contents (env : FileEnv) (w : World) (new_owner : Option String)
    (file : NautilusFile) : same_contents w (changed_owner_callback env w new_owner file) := by
  unfold changed_owner_callback
  split
  · exact same_contents_refl w
  · simp only
    split
    · exact same_contents_trans (unschedule_or_cancel_owner_change_contents w)
        (schedule_owner_change_contents _ _ _)
    · exact same_contents_refl w

lemma owner_change_callback_contents (w : World) (change : Nat) :
    same_contents w (owner_change_callback w change) := by
  unfold owner_change_callback
  split
  · exact same_contents_refl w
  · simp only
    split <;> split <;> exact ⟨rfl, fun h => h⟩

lemma schedule_owner_change_timeout_contents (w : World) (change : Nat) :
    same_contents w (schedule_owner_change_timeout w change) := by
  unfold schedule_owner_change_timeout
  split
  · exact same_contents_refl w
  · exact ⟨rfl, fun h => h⟩

lemma real_destroy_contents (w : World)
    (hs : w.details.deep_count_signal_files = [])
    (hid : w.details.update_directory_contents_timeout_id = 0) :
    same_contents w (real_destroy w) := by
  have h := same_contents_trans (unschedule_or_cancel_group_change_contents w)
    (unschedule_or_cancel_owner_change_contents _)
  have hv := h.1
  simp only [contents_view, Prod.mk.injEq] at hv
  obtain ⟨hlabel, hfin, hsig, hid'⟩ := hv
  constructor
  · unfold real_destroy
    simp only [contents_view, Prod.mk.injEq]
    (repeat' split) <;> exact ⟨hlabel, hfin, hs.symm, hid.symm⟩
  · intro hn
    have hn1 := h.2 hn
    unfold real_destroy
    simp only
    (repeat' split) <;>
      first
      | exact hn1
      | exact no_contents_source_remove _ _ hn1
      | exact no_contents_source_remove _ _ (no_contents_source_remove _ _ hn1)
      | exact no_contents_source_remove _ _
          (no_contents_source_remove _ _ (no_contents_source_remove _ _ hn1))

lemma update_files_callback_contents (env : FileEnv) (w : World)
    (hf : w.details.deep_count_finished = true)
    (hs : w.details.deep_count_signal_files = [])
    (hid : w.details.update_directory_contents_timeout_id = 0) :
    same_contents w (update_files_callback env w) := by
  have h0 : same_contents w { w with details := { w.details with update_files_timeout_id := 0 } } :=
    ⟨rfl, fun h => h⟩
  have h := properties_window_update_contents env
    { w with details := { w.details with update_files_timeout_id := 0 } }
    w.details.changed_files hf
  have h1 := same_contents_trans h0 h
  have hv := h1.1
  simp only [contents_view, Prod.mk.injEq] at hv
  unfold update_files_callback
  simp only
  split
  · exact same_contents_trans h1 (real_destroy_contents _ (hv.2.2.1.trans hs) (hv.2.2.2.trans hid))
  · exact same_contents_trans h1 ⟨rfl, fun h => h⟩

lemma schedule_group_change_timeout_contents (w : World) (change : Nat) :
    same_contents w (schedule_group_change_timeout w change) := by
  unfold schedule_group_change_timeout
  split
  · exact same_contents_refl w
  · exact ⟨rfl, fun h => h⟩

lemma source_fired_contents (env : FileEnv) (w : World) (source : Nat × SourceFunc)
    (hsrc : source.2 ≠ SourceFunc.update_directory_contents_callback)
    (hf : w.details.deep_count_finished = true)
    (hs : w.details.deep_count_signal_files = [])
    (hid : w.details.update_directory_contents_timeout_id = 0) :
    same_contents w (source_fired env w source) := by
  obtain ⟨id, func⟩ := source
  have hremove : ∀ w' : World, same_contents w w' →
      same_contents w { w' with main := g_source_remove w'.main id } :=
    fun w' h => ⟨h.1, fun hn => no_contents_source_remove _ _ (h.2 hn)⟩
  cases func with
  | update_files_callback => exact hremove _ (update_files_callback_contents env w hf hs hid)
  | update_directory_contents_callback => exact absurd rfl hsrc
  | start_spinner_callback => exact hremove _ ⟨rfl, fun h => h⟩
  | schedule_group_change_timeout change =>
    exact hremove _ (schedule_group_change_timeout_contents w change)
  | schedule_owner_change_timeout change =>
    exact hremove _ (schedule_owner_change_timeout_contents w change)

lemma changed_group_callback_contents (env : FileEnv) (w : World) (group : Option String)
    (file : NautilusFile) : same_contents w (changed_group_callback env w group file) := by
  unfold changed_group_callback
  simp only
  split
  · exact same_contents_refl w
  · split
    · exact same_contents_trans (unschedule_or_cancel_group_change_contents w)
        (schedule_group_change_contents _ _ _)
    · exact same_contents_refl w

lemma group_change_callback_contents (w : World) (change : Nat) :
    same_contents w (group_change_callback w change) := by
  unfold group_change_callback
  split
  · exact same_contents_refl w
  · simp only
    split <;> split <;> exact ⟨rfl, fun h => h⟩

lemma set_name_field_contents (env : FileEnv) (w : World) (original_name : Option String)
    (name : String) : same_contents w (set_name_field env w original_name name) := by
  unfold set_name_field
  simp only
  (repeat' split) <;> exact ⟨rfl, fun h => h⟩

lemma update_name_field_contents (env : FileEnv) (w : World) :
    same_contents w (update_name_field env w) := by
  unfold update_name_field
  split
  · exact set_name_field_contents env w _ _
  · simp only
    split
    · exact same_contents_trans (set_name_field_contents env w _ _) ⟨rfl, fun h => h⟩
    · exact set_name_field_contents env w _ _

lemma name_field_done_editing_contents (env : FileEnv) (w w' : World)
    (h : name_field_done_editing env w = some w') : same_contents w w' := by
  have hsame : ∀ w1 : World, some w1 = some w' → contents_view w1 = contents_view w →
      w1.main = w.main → same_contents w w' := by
    intro w1 h1 hv hm
    cases h1
    exact ⟨hv, fun hn => hm ▸ hn⟩
  unfold name_field_done_editing at h
  split at h
  · exact hsame _ h rfl rfl
  · split at h
    · exact hsame _ h rfl rfl
    · split at h
      · exact hsame _ h rfl rfl
      · split at h
        · exact hsame _ h rfl rfl
        · split at h
          · exact hsame _ h rfl rfl
          · simp only at h
            split at h
            · exact hsame _ h rfl rfl
            · split at h
              · cases h
              · split at h
                · exact hsame _ h rfl rfl
                · exact hsame _ h rfl rfl

lemma set_icon_loop_contents (env : FileEnv) (icon_uri icon_path : String) :
    ∀ (l : List NautilusFile) (w : World),
      same_contents w (set_icon_loop env icon_uri icon_path l w) := by
  intro l
  induction l with
  | nil => intro w; exact same_contents_refl w
  | cons x xs ih =>
    intro w
    unfold set_icon_loop
    simp only
    refine same_contents_trans ?_ (ih _)
    split
    · split <;> exact ⟨rfl, fun h => h⟩
    · exact ⟨rfl, fun h => h⟩

lemma set_icon_contents (env : FileEnv) (w : World) (icon_uri : String) :
    same_contents w (set_icon env w icon_uri) := by
  unfold set_icon
  split
  · exact set_icon_loop_contents env _ _ _ w
  · exact same_contents_refl w

lemma drag_data_received_contents (env : FileEnv) (w : World) (data : String) :
    same_contents w (nautilus_properties_window_drag_data_received env w data) := by
  unfold nautilus_properties_window_drag_data_received
  simp only
  split
  · exact ⟨rfl, fun h => h⟩
  · split
    · exact ⟨rfl, fun h => h⟩
    · split
      · exact set_icon_contents env w _
      · split <;> exact ⟨rfl, fun h => h⟩

lemma window_step_contents (env : FileEnv) (w w' : World) (event : WindowEvent)
    (hfrozen : contents_frozen w) (h : window_step env w event = some w') :
    same_contents w w' := by
  obtain ⟨hf, hs, hid, hn⟩ := hfrozen
  cases event with
  | file_changed file =>
    simp only [window_step, Option.some.injEq] at h
    rw [← h]; exact file_changed_callback_contents w file
  | deep_count_in_progress file =>
    simp only [window_step, updated_deep_count_in_progress, hs, List.not_mem_nil, if_false,
      Option.some.injEq] at h
    rw [← h]; exact same_contents_refl w
  | timeout source =>
    simp only [window_step] at h
    split at h
    · rename_i hmem
      simp only [Option.some.injEq] at h
      rw [← h]; exact source_fired_contents env w source (hn source hmem) hf hs hid
    · simp only [Option.some.injEq] at h
      rw [← h]; exact same_contents_refl w
  | group_combo_changed group file =>
    simp only [window_step, Option.some.injEq] at h
    rw [← h]; exact changed_group_callback_contents env w group file
  | group_change_done change =>
    simp only [window_step, Option.some.injEq] at h
    rw [← h]; exact group_change_callback_contents w change
  | name_field_update =>
    simp only [window_step, Option.some.injEq] at h
    rw [← h]; exact update_name_field_contents env w
  | name_field_done => exact name_field_done_editing_contents env w w' h
  | icon_dropped data =>
    simp only [window_step, Option.some.injEq] at h
    rw [← h]; exact drag_data_received_contents env w data
  | icon_chosen uri =>
    simp only [window_step, Option.some.injEq] at h
    rw [← h]; exact set_icon_contents env w uri
  | destroy =>
    simp only [window_step, Option.some.injEq] at h
    rw [← h]; exact real_destroy_contents w hs hid
  | owner_combo_changed new_owner file =>
    simp only [window_step, Option.some.injEq] at h
    rw [← h]; exact changed_owner_callback_contents env w new_owner file
  | owner_change_done change =>
    simp only [window_step, Option.some.injEq] at h
    rw [← h]; exact owner_change_callback_contents w change

lemma same_contents_frozen {w w' : World} (h : same_contents w w') (hfrozen : contents_frozen w) :
    contents_frozen w' := by
  obtain ⟨hf, hs, hid, hn⟩ := hfrozen
  have hv := h.1
  simp only [contents_view, Prod.mk.injEq] at hv
  exact ⟨hv.2.1.trans hf, hv.2.2.1.trans hs, hv.2.2.2.trans hid, h.2 hn⟩

/-- Once the total was displayed no event of the window writes the contents label
again: from a state in which `deep_count_finished` is set, no deep count handler is
connected and no contents update is pending, every run of events leaves the label
as it is. -/
lemma contents_label_frozen :
    ∀ (events : List (FileEnv × WindowEvent)) (w w' : World),
      contents_frozen w → window_run events w = some w' →
      contents_frozen w' ∧
      w'.details.directory_contents_value_field = w.details.directory_contents_value_field := by
  intro events
  induction events with
  | nil =>
    intro w w' hfrozen h
    simp only [window_run, Option.some.injEq] at h
    rw [← h]; exact ⟨hfrozen, rfl⟩
  | cons e es ih =>
    intro w w' hfrozen h
    obtain ⟨env, event⟩ := e
    simp only [window_run] at h
    cases hstep : window_step env w event with
    | none => rw [hstep] at h; cases h
    | some w1 =>
      rw [hstep] at h
      have hsame := window_step_contents env w w1 event hfrozen hstep
      obtain ⟨hfr, hlabel⟩ := ih w1 w' (same_contents_frozen hsame hfrozen) h
      refine ⟨hfr, hlabel.trans ?_⟩
      have := congrArg (fun v => v.1) hsame.1
      simpa only [contents_view] using this

/-! ## Theorems: the icon and relative URI results at concrete inputs -/

/-- The icon `file:///home/doc/a.png` set on the folder `file:///home/doc` is stored
as the relative `a.png`, and the icon scale is cleared. -/
theorem set_icon_spec_witness :
    beneath_env.filename_from_uri "file:///home/doc/a.png" = some "/home/doc/a.png" ∧
    (set_icon beneath_env one_file_window "file:///home/doc/a.png").metadata_calls =
      [{ file := 1, key := MetadataKey.NAUTILUS_METADATA_KEY_CUSTOM_ICON, value := some "a.png" },
       { file := 1, key := MetadataKey.NAUTILUS_METADATA_KEY_ICON_SCALE, value := none }] := by
  obtain ⟨value, hcalls, hvalue⟩ :=
    (set_icon_spec beneath_env one_file_window "file:///home/doc/a.png").2
      "/home/doc/a.png" (by decide)
  have hv : value 1 = "a.png" :=
    (hvalue 1).1 1 "a.png" (by decide) (by decide) (by decide) (by decide)
  refine ⟨by decide, ?_⟩
  rw [hcalls, ← hv]
  rfl

/-- The example of the comment of `make_relative_uri_from_full`: the URI
`file://foo/foobar/foofoo/bar` with base `file://foo/foobar` gives `foofoo/bar`. -/
theorem make_relative_uri_from_full_spec_witness :
    make_relative_uri_from_full "file://foo/foobar/foofoo/bar" "file://foo/foobar" =
      some "foofoo/bar" :=
  ((make_relative_uri_from_full_spec "file://foo/foobar/foofoo/bar" "file://foo/foobar").1
    "foofoo/bar").2 ⟨1, by decide, by decide, by decide, by decide⟩


/-! ## Theorems: clicks on the permission checkbox -/

/-- Successive clicks on a permission checkbox that starts unchecked, in terms of
the answer of `initial_permission_state_consistent` at the first click.  When the
answer is FALSE, the checkbox goes unchecked, mixed, checked, unchecked: entering
mixed the handler calls `update_permissions` with `use_original` set, entering
checked with all mask bits as new bits, entering unchecked with 0 as new bits, and
after the third click the button is as it was.  When the answer is TRUE the checkbox
goes unchecked, checked, unchecked.  The later clicks do not depend on the files.
From no button state does the handler leave the checkbox inconsistent and inactive. -/
theorem permission_button_toggled_cycle (env env2 env3 : FileEnv)
    (target_files target_files2 target_files3 : List NautilusFile)
    (initial_permissions initial_permissions2 initial_permissions3 : FileTable Nat)
    (button : GtkToggleButton)
    (hactive : button.active = false) (hinconsistent : button.inconsistent = false) :
    checkbox_state button = some CheckboxState.unchecked ∧
    (initial_permission_state_consistent env target_files initial_permissions
        (button.permission % 2 ^ 32) button.is_folder button.is_special = false →
      checkbox_state
          (permission_button_clicked env target_files initial_permissions button).1 =
        some CheckboxState.mixed ∧
      (permission_button_clicked env target_files initial_permissions button).2 =
        { vfs_new_perm := button.permission % 2 ^ 32, vfs_mask := button.permission % 2 ^ 32
          is_folder := button.is_folder, apply_to_both_folder_and_dir := button.is_special
          use_original := true } ∧
      checkbox_state
          (permission_button_clicked env2 target_files2 initial_permissions2
            (permission_button_clicked env target_files initial_permissions button).1).1 =
        some CheckboxState.checked ∧
      (permission_button_clicked env2 target_files2 initial_permissions2
          (permission_button_clicked env target_files initial_permissions button).1).2 =
        { vfs_new_perm := button.permission % 2 ^ 32, vfs_mask := button.permission % 2 ^ 32
          is_folder := button.is_folder, apply_to_both_folder_and_dir := button.is_special
          use_original := false } ∧
      (permission_button_clicked env3 target_files3 initial_permissions3
          (permission_button_clicked env2 target_files2 initial_permissions2
            (permission_button_clicked env target_files initial_permissions button).1).1).1 =
        button ∧
      (permission_button_clicked env3 target_files3 initial_permissions3
          (permission_button_clicked env2 target_files2 initial_permissions2
            (permission_button_clicked env target_files initial_permissions button).1).1).2 =
        { vfs_new_perm := 0, vfs_mask := button.permission % 2 ^ 32
          is_folder := button.is_folder, apply_to_both_folder_and_dir := button.is_special
          use_original := false }) ∧
    (initial_permission_state_consistent env target_files initial_permissions
        (button.permission % 2 ^ 32) button.is_folder button.is_special = true →
      checkbox_state
          (permission_button_clicked env target_files initial_permissions button).1 =
        some CheckboxState.checked ∧
      (permission_button_clicked env target_files initial_permissions button).2 =
        { vfs_new_perm := button.permission % 2 ^ 32, vfs_mask := button.permission % 2 ^ 32
          is_folder := button.is_folder, apply_to_both_folder_and_dir := button.is_special
          use_original := false } ∧
      (permission_button_clicked env2 target_files2 initial_permissions2
          (permission_button_clicked env target_files initial_permissions button).1).1 =
        button ∧
      (permission_button_clicked env2 target_files2 initial_permissions2
          (permission_button_clicked env target_files initial_permissions button).1).2 =
        { vfs_new_perm := 0, vfs_mask := button.permission % 2 ^ 32
          is_folder := button.is_folder, apply_to_both_folder_and_dir := button.is_special
          use_original := false }) ∧
    (∀ b : GtkToggleButton,
      ¬((permission_button_toggled env target_files initial_permissions b).1.inconsistent = true ∧
        (permission_button_toggled env target_files initial_permissions b).1.active = false)) := by
  obtain ⟨permission, is_folder, is_special, active, inconsistent, sensitive⟩ := button
  simp only at hactive hinconsistent
  subst hactive hinconsistent
  refine ⟨rfl, ?_, ?_, ?_⟩
  · intro h
    have h' : initial_permission_state_consistent env target_files initial_permissions
        (permission % 4294967296) is_folder is_special = false := h
    simp [permission_button_clicked, permission_button_toggled, h', checkbox_state]
  · intro h
    have h' : initial_permission_state_consistent env target_files initial_permissions
        (permission % 4294967296) is_folder is_special = true := h
    simp [permission_button_clicked, permission_button_toggled, h', checkbox_state]
  · intro b
    simp only [permission_button_toggled]
    cases b.active <;> cases b.inconsistent <;>
      cases initial_permission_state_consistent env target_files initial_permissions
          (b.permission % 2 ^ 32) b.is_folder b.is_special <;> simp

/-- The cycle at the execute checkbox of a window for two plain files with the modes
0755 and 0644.  Their initial state is not consistent, so the first click shows the
mixed state and asks for the original permissions. -/
theorem permission_button_toggled_cycle_witness :
    (execute_checkbox.active = false ∧ execute_checkbox.inconsistent = false ∧
      initial_permission_state_consistent two_files_env [1, 2] two_files_initial
        (execute_checkbox.permission % 2 ^ 32) execute_checkbox.is_folder
        execute_checkbox.is_special = false) ∧
    checkbox_state
        (permission_button_clicked two_files_env [1, 2] two_files_initial execute_checkbox).1 =
      some CheckboxState.mixed ∧
    update_permissions_requests two_files_env [1, 2] two_files_initial
        (permission_button_clicked two_files_env [1, 2] two_files_initial execute_checkbox).2 =
      [{ file := 1, permissions := 0o755 }, { file := 2, permissions := 0o644 }] :=
  ⟨⟨rfl, rfl, by decide⟩,
    ((permission_button_toggled_cycle two_files_env two_files_env two_files_env [1, 2] [1, 2]
      [1, 2] two_files_initial two_files_initial two_files_initial execute_checkbox rfl rfl).2.1
      (by decide)).1,
    by decide⟩

/-- C21 fails on the code: the window shows the two plain files 1 and 2, which both
have the mode 0644, now and when the window was made.  No file has a bit of the
mask 0111, so the initial state is consistent and `permission_button_update` shows
the execute checkbox unchecked.  The comment of `permission_button_toggled` ("Go to
the initial state unless the initial state was consistent") and the claim send the
first click to checked, with all mask bits as new bits.  The handler asks
`initial_permission_state_consistent`, which answers FALSE here, so the click goes
to mixed and `update_permissions` is called with `use_original` set: both files are
asked to keep the mode 0644.  In a window for file 1 alone the same click goes to
checked. -/
theorem permission_button_toggled_consistent_goes_mixed :
    (∀ file ∈ [1, 2],
      ∃ p, g_hash_table_lookup_extended (get_initial_permissions plain_files_env [1, 2]) file =
        some p ∧ p &&& 0o111 = 0) ∧
    permission_button_update plain_files_env [1, 2] execute_checkbox = execute_checkbox ∧
    checkbox_state execute_checkbox = some CheckboxState.unchecked ∧
    initial_permission_state_consistent plain_files_env [1, 2]
      (get_initial_permissions plain_files_env [1, 2]) 0o111 false false = false ∧
    checkbox_state
        (permission_button_clicked plain_files_env [1, 2]
          (get_initial_permissions plain_files_env [1, 2]) execute_checkbox).1 =
      some CheckboxState.mixed ∧
    (permission_button_clicked plain_files_env [1, 2]
        (get_initial_permissions plain_files_env [1, 2]) execute_checkbox).2 =
      { vfs_new_perm := 0o111, vfs_mask := 0o111, is_folder := false
        apply_to_both_folder_and_dir := false, use_original := true } ∧
    update_permissions_requests plain_files_env [1, 2]
        (get_initial_permissions plain_files_env [1, 2])
        (permission_button_clicked plain_files_env [1, 2]
          (get_initial_permissions plain_files_env [1, 2]) execute_checkbox).2 =
      [{ file := 1, permissions := 0o644 }, { file := 2, permissions := 0o644 }] ∧
    checkbox_state
        (permission_button_clicked plain_files_env [1]
          (get_initial_permissions plain_files_env [1]) execute_checkbox).1 =
      some CheckboxState.checked ∧
    update_permissions_requests plain_files_env [1]
        (get_initial_permissions plain_files_env [1])
        (permission_button_clicked plain_files_env [1]
          (get_initial_permissions plain_files_env [1]) execute_checkbox).2 =
      [{ file := 1, permissions := 0o755 }] := by
  decide

/-! ## Theorems: `permission_to_vfs` and `permission_from_vfs` -/

/-- The value `permission_from_vfs` gives depends on the low nine bits only. -/
lemma permission_from_vfs_mod (type : PermissionType) (v : Nat) :
    permission_from_vfs type v = permission_from_vfs type (v % 512) := by
  have hmod : ∀ m : Nat, m < 512 → v &&& m = (v % 512) &&& m := by
    intro m hm
    apply Nat.eq_of_testBit_eq
    intro i
    simp only [Nat.testBit_and]
    have h512 : (512 : Nat) = 2 ^ 9 := by norm_num
    rw [h512, Nat.testBit_mod_two_pow]
    by_cases hi : i < 9
    · simp [hi]
    · have : m.testBit i = false := by
        apply Nat.testBit_eq_false_of_lt
        calc m < 512 := hm
          _ = 2 ^ 9 := by norm_num
          _ ≤ 2 ^ i := Nat.pow_le_pow_right (by norm_num) (by omega)
      simp [hi, this]
  unfold permission_from_vfs
  cases type <;>
    simp only [vfs_perms, UNIX_PERM_USER_READ, UNIX_PERM_USER_WRITE, UNIX_PERM_USER_EXEC,
      UNIX_PERM_GROUP_READ, UNIX_PERM_GROUP_WRITE, UNIX_PERM_GROUP_EXEC,
      UNIX_PERM_OTHER_READ, UNIX_PERM_OTHER_WRITE, UNIX_PERM_OTHER_EXEC,
      hmod 256 (by norm_num), hmod 128 (by norm_num), hmod 64 (by norm_num),
      hmod 32 (by norm_num), hmod 16 (by norm_num), hmod 8 (by norm_num),
      hmod 4 (by norm_num), hmod 2 (by norm_num), hmod 1 (by norm_num), Nat.mod_mod]

lemma and_unix_perm_all_mod (type : PermissionType) (v : Nat) :
    v &&& unix_perm_all type = (v % 512) &&& unix_perm_all type := by
  apply Nat.eq_of_testBit_eq
  intro i
  simp only [Nat.testBit_and]
  have h512 : (512 : Nat) = 2 ^ 9 := by norm_num
  rw [h512, Nat.testBit_mod_two_pow]
  by_cases hi : i < 9
  · simp [hi]
  · have : (unix_perm_all type).testBit i = false := by
      apply Nat.testBit_eq_false_of_lt
      calc unix_perm_all type < 512 := by cases type <;> decide
        _ = 2 ^ 9 := by norm_num
        _ ≤ 2 ^ i := Nat.pow_le_pow_right (by norm_num) (by omega)
    simp [hi, this]

set_option maxRecDepth 100000 in
lemma permission_to_from_vfs_small :
    ∀ v < 512, ∀ type ∈ [PERMISSION_USER, PERMISSION_GROUP, PERMISSION_OTHER],
      permission_to_vfs type (permission_from_vfs type v) = v &&& unix_perm_all type := by
  decide

lemma permission_from_to_vfs_small :
    ∀ p < 8, ∀ type ∈ [PERMISSION_USER, PERMISSION_GROUP, PERMISSION_OTHER],
      permission_from_vfs type (permission_to_vfs type p) = p ∧
      ∀ other ∈ [PERMISSION_USER, PERMISSION_GROUP, PERMISSION_OTHER], other ≠ type →
        permission_from_vfs other (permission_to_vfs type p) = 0 := by
  decide

lemma permission_type_mem (type : PermissionType) :
    type ∈ [PERMISSION_USER, PERMISSION_GROUP, PERMISSION_OTHER] := by
  cases type <;> simp

/-- C24: `permission_to_vfs` and `permission_from_vfs` are inverse to each other on
their ranges and the classes do not interfere.  For every class `type`, every value
`p` of three bits and every mode `v`: converting `p` to mode bits and back gives
`p`; converting `v` and back gives `v` restricted to the read, write and execute
bits of the class; and the mode bits of `p` for `type` read as no permission for
every other class. -/
theorem permission_vfs_inverse (type : PermissionType) (p v : Nat) (hp : p < 8) :
    permission_from_vfs type (permission_to_vfs type p) = p ∧
    permission_to_vfs type (permission_from_vfs type v) = v &&& unix_perm_all type ∧
    ∀ other : PermissionType, other ≠ type →
      permission_from_vfs other (permission_to_vfs type p) = 0 := by
  have h1 := permission_from_to_vfs_small p hp type (permission_type_mem type)
  refine ⟨h1.1, ?_, fun other ho => h1.2 other (permission_type_mem other) ho⟩
  rw [permission_from_vfs_mod, and_unix_perm_all_mod]
  exact permission_to_from_vfs_small (v % 512) (Nat.mod_lt _ (by norm_num)) type
    (permission_type_mem type)

/-- Witness of C24: read and write (3) of the group are the mode bits 060, and the
mode 0754 reads as read and execute (5) for the group. -/
theorem permission_vfs_inverse_witness :
    (3 : Nat) < 8 ∧
    permission_to_vfs PERMISSION_GROUP 3 = 0o060 ∧
    permission_from_vfs PERMISSION_GROUP 0o754 = 5 ∧
    permission_from_vfs PERMISSION_GROUP (permission_to_vfs PERMISSION_GROUP 3) = 3 ∧
    permission_to_vfs PERMISSION_GROUP (permission_from_vfs PERMISSION_GROUP 0o754) =
      0o754 &&& unix_perm_all PERMISSION_GROUP :=
  ⟨by decide, by decide, by decide,
    (permission_vfs_inverse PERMISSION_GROUP 3 0o754 (by decide)).1,
    (permission_vfs_inverse PERMISSION_GROUP 3 0o754 (by decide)).2.1⟩

/-! ## Theorems: when an access combo is sensitive -/

lemma permission_combo_update_loop_cannot_set (env : FileEnv) (type : PermissionType) :
    ∀ (l : List NautilusFile) (s : ComboScan),
      (permission_combo_update_loop env type l s).all_file_cannot_set =
        (s.all_file_cannot_set &&
          !l.any (fun f =>
            env.can_get_permissions f && !env.is_directory f && env.can_set_permissions f)) ∧
      (permission_combo_update_loop env type l s).all_dir_cannot_set =
        (s.all_dir_cannot_set &&
          !l.any (fun f =>
            env.can_get_permissions f && env.is_directory f && env.can_set_permissions f)) := by
  intro l
  induction l with
  | nil => intro s; simp [permission_combo_update_loop]
  | cons file l ih =>
    intro s
    unfold permission_combo_update_loop
    cases hget : env.can_get_permissions file
    · simp only [Bool.not_false, if_true, ih, List.any_cons, hget, Bool.false_and,
        Bool.false_or, and_self]
    · cases hdir : env.is_directory file <;> cases hset : env.can_set_permissions file <;>
        simp only [Bool.not_true, Bool.false_eq_true, if_false, if_true, ih, List.any_cons,
          hget, hdir, hset, Bool.true_and, Bool.not_false, Bool.and_true, Bool.and_false,
          Bool.false_or, Bool.true_or, Bool.false_and] <;>
        (repeat' split) <;> simp

/-- After `permission_combo_update` a combo is sensitive exactly when some target
file of its kind has readable permissions that can be set. -/
lemma permission_combo_update_sensitive (env : FileEnv) (target_files : List NautilusFile)
    (combo : GtkComboBox) :
    (permission_combo_update env target_files combo).sensitive =
      target_files.any (fun f =>
        env.can_get_permissions f && (env.is_directory f == combo.is_folder) &&
          env.can_set_permissions f) := by
  obtain ⟨hfile, hdir⟩ :=
    permission_combo_update_loop_cannot_set env combo.permission_type target_files {}
  unfold permission_combo_update
  simp only
  cases hf : combo.is_folder
  · simp only [Bool.false_eq_true, if_false, hfile, Bool.true_and, Bool.not_not]
    congr 1
    funext f
    cases env.is_directory f <;> simp
  · simp only [if_true, hdir, Bool.true_and, Bool.not_not]
    congr 1
    funext f
    cases env.is_directory f <;> simp

/-- C22 at its failing input.  A window shows the file 1 and the folder 2, so it has
a file-access combo; all permissions can be read and set.  With both files the
combo is sensitive.  When the file is deleted, `properties_window_update` removes
it and updates the combos with the folder alone: no file is found,
`all_file_cannot_set` keeps its initial TRUE, and the file-access combo is made
insensitive, while the comment says that it is also enabled if no files are
found. -/
theorem permission_combo_update_no_files_insensitive :
    (permission_combo_update file_and_folder_env [1, 2]
      (create_permissions_combo_box PERMISSION_USER false)).sensitive = true ∧
    (permission_combo_update file_and_folder_env [2]
      (create_permissions_combo_box PERMISSION_USER false)).sensitive = false ∧
    (properties_window_update file_gone_env file_and_folder_window [1]).details.target_files =
      [2] ∧
    (properties_window_update file_gone_env file_and_folder_window [1]).details.permission_combos.map
      (fun combo => (combo.is_folder, combo.sensitive)) = [(false, false), (true, true)] := by
  decide

/-! ## Theorems: the default rows of the dialog for enclosed files -/

lemma and_mod_512 (mask m : Nat) (hm : m < 512) : mask &&& m = (mask % 512) &&& m := by
  apply Nat.eq_of_testBit_eq
  intro i
  simp only [Nat.testBit_and]
  have h512 : (512 : Nat) = 2 ^ 9 := by norm_num
  rw [h512, Nat.testBit_mod_two_pow]
  by_cases hi : i < 9
  · simp [hi]
  · have : m.testBit i = false := by
      apply Nat.testBit_eq_false_of_lt
      calc m < 512 := hm
        _ = 2 ^ 9 := by norm_num
        _ ≤ 2 ^ i := Nat.pow_le_pow_right (by norm_num) (by omega)
    simp [hi, this]

lemma complement32_and_mod_512 (mask m : Nat) (hm : m < 512) :
    complement32 mask &&& m = complement32 (mask % 512) &&& m := by
  apply Nat.eq_of_testBit_eq
  intro i
  simp only [Nat.testBit_and, testBit_complement32]
  have h512 : (512 : Nat) = 2 ^ 9 := by norm_num
  rw [h512, Nat.testBit_mod_two_pow]
  by_cases hi : i < 9
  · simp [hi]
  · have : m.testBit i = false := by
      apply Nat.testBit_eq_false_of_lt
      calc m < 512 := hm
        _ = 2 ^ 9 := by norm_num
        _ ≤ 2 ^ i := Nat.pow_le_pow_right (by norm_num) (by omega)
    simp [this]

lemma set_active_from_umask_id_mod (type : PermissionType) (is_folder : Bool) (mask : Nat) :
    set_active_from_umask_id type is_folder mask =
      set_active_from_umask_id type is_folder (mask % 512) := by
  unfold set_active_from_umask_id
  have h : ∀ m : Nat, m < 512 → complement32 mask &&& m = complement32 (mask % 512) &&& m :=
    complement32_and_mod_512 mask
  cases is_folder
  · simp only [Bool.false_eq_true, if_false]
    rw [h _ (by decide)]
  · simp only [if_true]
    rw [h _ (by decide)]

lemma umask_without_row_mod (type : PermissionType) (is_folder : Bool) (mask : Nat) :
    umask_without_row type is_folder mask = umask_without_row type is_folder (mask % 512) := by
  unfold umask_without_row
  rw [and_mod_512 mask (vfs_perms type 0) (by cases type <;> decide),
    and_mod_512 mask (vfs_perms type 1) (by cases type <;> decide),
    and_mod_512 mask (vfs_perms type 2) (by cases type <;> decide)]

set_option maxRecDepth 100000 in
lemma set_active_from_umask_small :
    ∀ mask < 512, ∀ type ∈ [PERMISSION_USER, PERMISSION_GROUP, PERMISSION_OTHER],
      ∀ is_folder ∈ [false, true],
        ((set_active_from_umask (create_permissions_combo_box type is_folder) type is_folder
            mask).active.isSome =
          (create_permissions_combo_box type is_folder).rows.any
            (fun row => row.id == some (set_active_from_umask_id type is_folder mask))) ∧
        ((set_active_from_umask (create_permissions_combo_box type is_folder) type is_folder
            mask).active.isSome = !umask_without_row type is_folder mask) := by
  decide

lemma bool_mem_list (b : Bool) : b ∈ [false, true] := by
  cases b <;> simp

/-- C25 as stated fails.  With the umask 0100 the owner may read and write but not
execute, and `set_active_from_umask` selects the id `rw` for the folder combo of the
owner, whose rows are `r`, `rx` and `rwx`: the combo gets no active row.  With the
umask 0400 it selects `none` for the file combo of the owner, whose rows are `r`
and `rw`. -/
theorem set_active_from_umask_no_row :
    set_active_from_umask_id PERMISSION_USER true 0o100 = "rw" ∧
    (create_permissions_combo_box PERMISSION_USER true).rows.map (fun row => row.id) =
      [some "r", some "rx", some "rwx"] ∧
    (set_active_from_umask (create_permissions_combo_box PERMISSION_USER true)
      PERMISSION_USER true 0o100).active = none ∧
    set_active_from_umask_id PERMISSION_USER false 0o400 = "none" ∧
    (create_permissions_combo_box PERMISSION_USER false).rows.map (fun row => row.id) =
      [some "r", some "rw"] ∧
    (set_active_from_umask (create_permissions_combo_box PERMISSION_USER false)
      PERMISSION_USER false 0o400).active = none := by
  decide

/-- C25, amended: for every process umask, every class and both kinds, the combo
that `create_permissions_combo_box` made gets an active row from
`set_active_from_umask` exactly when the id selected is the id of one of its rows,
and that is the case exactly when the umask is not one without a row for the combo:
it does not mask the read bit of the owner, and for a folder combo it does not mask
the execute bit of the class while leaving its read and write bits.  The umasks
022, 002, 027 and 077 give every combo an active row. -/
theorem set_active_from_umask_spec (type : PermissionType) (is_folder : Bool) (mask : Nat) :
    ((set_active_from_umask (create_permissions_combo_box type is_folder) type is_folder
        mask).active ≠ none ↔
      ∃ row ∈ (create_permissions_combo_box type is_folder).rows,
        row.id = some (set_active_from_umask_id type is_folder mask)) ∧
    ((∃ row ∈ (create_permissions_combo_box type is_folder).rows,
        row.id = some (set_active_from_umask_id type is_folder mask)) ↔
      umask_without_row type is_folder mask = false) ∧
    (∀ common ∈ [0o022, 0o002, 0o027, 0o077],
      (set_active_from_umask (create_permissions_combo_box type is_folder) type is_folder
        common).active ≠ none) := by
  have hsmall := set_active_from_umask_small (mask % 512) (Nat.mod_lt _ (by norm_num)) type
    (permission_type_mem type) is_folder (bool_mem_list is_folder)
  have hactive : (set_active_from_umask (create_permissions_combo_box type is_folder) type
      is_folder mask).active =
      (set_active_from_umask (create_permissions_combo_box type is_folder) type is_folder
        (mask % 512)).active := by
    unfold set_active_from_umask
    rw [set_active_from_umask_id_mod]
  rw [← set_active_from_umask_id_mod, ← umask_without_row_mod, ← hactive] at hsmall
  obtain ⟨h1, h2⟩ := hsmall
  have hany : ((create_permissions_combo_box type is_folder).rows.any
      (fun row => row.id == some (set_active_from_umask_id type is_folder mask)) = true) ↔
      ∃ row ∈ (create_permissions_combo_box type is_folder).rows,
        row.id = some (set_active_from_umask_id type is_folder mask) := by
    simp [List.any_eq_true]
  refine ⟨?_, ?_, ?_⟩
  · rw [← hany, ← h1]
    exact Option.isSome_iff_ne_none.symm
  · rw [← hany, ← h1, h2]
    cases umask_without_row type is_folder mask <;> simp
  · intro common hc
    have hsome := (set_active_from_umask_small common
      (by simp only [List.mem_cons, List.mem_singleton, List.not_mem_nil, or_false] at hc
          rcases hc with rfl | rfl | rfl | rfl <;> norm_num)
      type (permission_type_mem type) is_folder (bool_mem_list is_folder)).2
    have hrow : umask_without_row type is_folder common = false := by
      simp only [List.mem_cons, List.mem_singleton, List.not_mem_nil, or_false] at hc
      rcases hc with rfl | rfl | rfl | rfl <;> cases type <;> cases is_folder <;> decide
    rw [hrow] at hsome
    exact Option.isSome_iff_ne_none.1 (by simpa using hsome)

/-- Witness of C25: with the umask 022 the folder combo of the group gets an active
row, the row `rx`. -/
theorem set_active_from_umask_spec_witness :
    (0o022 : Nat) ∈ [0o022, 0o002, 0o027, 0o077] ∧
    set_active_from_umask_id PERMISSION_GROUP true 0o022 = "rx" ∧
    (set_active_from_umask (create_permissions_combo_box PERMISSION_GROUP true)
      PERMISSION_GROUP true 0o022).active ≠ none :=
  ⟨by decide, by decide,
    (set_active_from_umask_spec PERMISSION_GROUP true 0).2.2 0o022 (by decide)⟩

/-! ## Theorems: the pending key of a selection -/

lemma strcmp_le_iff (a b : String) : strcmp a b ≤ 0 ↔ a.data ≤ b.data := by
  unfold strcmp
  by_cases h1 : a.data < b.data
  · simp [h1, le_of_lt h1]
  · by_cases h2 : b.data < a.data
    · simp [h1, h2]
    · simp only [h1, h2, if_false, le_refl, true_iff]
      exact not_lt.1 h2

lemma g_list_sort_strcmp_perm (uris : List String) : (g_list_sort_strcmp uris).Perm uris :=
  List.perm_insertionSort _ _

lemma g_list_sort_strcmp_eq_of_perm (us vs : List String) (h : us.Perm vs) :
    g_list_sort_strcmp us = g_list_sort_strcmp vs := by
  haveI : IsTotal String (fun a b => strcmp a b ≤ 0) :=
    ⟨fun a b => by
      simp only [strcmp_le_iff]
      exact le_total a.data b.data⟩
  haveI : IsTrans String (fun a b => strcmp a b ≤ 0) :=
    ⟨fun a b c hab hbc => by
      simp only [strcmp_le_iff] at hab hbc ⊢
      exact le_trans hab hbc⟩
  haveI : IsAntisymm String (fun a b => strcmp a b ≤ 0) :=
    ⟨fun a b hab hba => by
      simp only [strcmp_le_iff] at hab hba
      exact String.ext (le_antisymm hab hba)⟩
  unfold g_list_sort_strcmp
  exact List.eq_of_perm_of_sorted
    (((List.perm_insertionSort _ us).trans h).trans (List.perm_insertionSort _ vs).symm)
    (List.sorted_insertionSort _ us) (List.sorted_insertionSort _ vs)

/-- The characters of a key: every URI followed by `;`. -/
lemma pending_key_data :
    ∀ (uris : List String) (key : String),
      (uris.foldl (fun key uri => (key ++ uri) ++ ";") key).data =
        key.data ++ (uris.map (fun uri => uri.data ++ [';'])).flatten := by
  intro uris
  induction uris with
  | nil => intro key; simp
  | cons u us ih =>
    intro key
    simp only [List.foldl_cons, ih, String.data_append, List.map_cons, List.flatten_cons,
      List.append_assoc]

lemma pending_uris_eq (env : FileEnv) :
    ∀ (l : List NautilusFile) (acc : List String),
      l.foldl (fun uris file => env.uri file :: uris) acc = (l.map env.uri).reverse ++ acc := by
  intro l
  induction l with
  | nil => intro acc; rfl
  | cons x xs ih =>
    intro acc
    simp only [List.foldl_cons, ih, List.map_cons, List.reverse_cons, List.append_assoc,
      List.singleton_append]

lemma get_pending_key_data (env : FileEnv) (l : List NautilusFile) :
    (get_pending_key env l).data =
      ((g_list_sort_strcmp (l.map env.uri).reverse).map (fun uri => uri.data ++ [';'])).flatten := by
  unfold get_pending_key
  simp only [pending_key_data, pending_uris_eq, List.append_nil]
  rfl

lemma append_separator_inj (c : Char) :
    ∀ (a b x y : List Char), c ∉ a → c ∉ b → a ++ c :: x = b ++ c :: y → a = b ∧ x = y := by
  intro a
  induction a with
  | nil =>
    intro b x y _ hb h
    cases b with
    | nil => simpa using h
    | cons d b =>
      simp only [List.nil_append, List.cons_append, List.cons.injEq] at h
      exact absurd (h.1 ▸ List.mem_cons_self _ _) hb
  | cons e a ih =>
    intro b x y ha hb h
    cases b with
    | nil =>
      simp only [List.nil_append, List.cons_append, List.cons.injEq] at h
      exact absurd (h.1 ▸ List.mem_cons_self _ _) ha
    | cons d b =>
      simp only [List.cons_append, List.cons.injEq] at h
      obtain ⟨h1, h2⟩ := ih b x y (fun hc => ha (List.mem_cons_of_mem _ hc))
        (fun hc => hb (List.mem_cons_of_mem _ hc)) h.2
      exact ⟨by rw [h.1, h1], h2⟩

lemma joined_uris_inj :
    ∀ (us vs : List String), (∀ u ∈ us, ';' ∉ u.data) → (∀ v ∈ vs, ';' ∉ v.data) →
      (us.map (fun uri => uri.data ++ [';'])).flatten =
        (vs.map (fun uri => uri.data ++ [';'])).flatten →
      us = vs := by
  intro us
  induction us with
  | nil =>
    intro vs _ _ h
    cases vs with
    | nil => rfl
    | cons v vs =>
      simp only [List.map_nil, List.flatten_nil, List.map_cons, List.flatten_cons,
        List.append_assoc, List.singleton_append] at h
      exact absurd (congrArg List.length h) (by simp; omega)
  | cons u us ih =>
    intro vs hu hv h
    cases vs with
    | nil =>
      simp only [List.map_nil, List.flatten_nil, List.map_cons, List.flatten_cons,
        List.append_assoc, List.singleton_append] at h
      exact absurd (congrArg List.length h) (by simp)
    | cons v vs =>
      simp only [List.map_cons, List.flatten_cons, List.append_assoc,
        List.singleton_append] at h
      obtain ⟨h1, h2⟩ := append_separator_inj ';' _ _ _ _ (hu u (List.mem_cons_self _ _))
        (hv v (List.mem_cons_self _ _)) h
      rw [String.ext h1, ih vs (fun x hx => hu x (List.mem_cons_of_mem _ hx))
        (fun x hx => hv x (List.mem_cons_of_mem _ hx)) h2]

/-- C27 as stated fails: the one file with the URI `a;b` and the two files with the
URIs `a` and `b` have the same pending key `a;b;`, while their URIs differ. -/
theorem get_pending_key_collision :
    get_pending_key semicolon_env [1] = "a;b;" ∧
    get_pending_key semicolon_env [2, 3] = "a;b;" ∧
    Multiset.ofList ([1].map semicolon_env.uri) ≠ Multiset.ofList ([2, 3].map semicolon_env.uri) := by
  refine ⟨by decide, by decide, ?_⟩
  intro h
  have := congrArg Multiset.card h
  simp at this

/-- C27, amended: the pending key does not depend on the order of the selection,
and it identifies the selection when no URI contains the separator `;`.  For all
file lists `l1` and `l2`: equal multisets of URIs give equal keys; and when no URI
of either list contains `;`, the keys are equal if and only if the multisets of
URIs are equal. -/
theorem get_pending_key_spec (env : FileEnv) (l1 l2 : List NautilusFile) :
    (Multiset.ofList (l1.map env.uri) = Multiset.ofList (l2.map env.uri) →
      get_pending_key env l1 = get_pending_key env l2) ∧
    ((∀ f ∈ l1 ++ l2, ';' ∉ (env.uri f).data) →
      (get_pending_key env l1 = get_pending_key env l2 ↔
        Multiset.ofList (l1.map env.uri) = Multiset.ofList (l2.map env.uri))) := by
  have hforward : Multiset.ofList (l1.map env.uri) = Multiset.ofList (l2.map env.uri) →
      get_pending_key env l1 = get_pending_key env l2 := by
    intro h
    have hperm : (l1.map env.uri).Perm (l2.map env.uri) := Multiset.coe_eq_coe.1 h
    apply String.ext
    rw [get_pending_key_data, get_pending_key_data,
      g_list_sort_strcmp_eq_of_perm _ _
        (((List.reverse_perm _).trans hperm).trans (List.reverse_perm _).symm)]
  refine ⟨hforward, fun hsep => ⟨fun hkey => ?_, hforward⟩⟩
  have hdata := congrArg String.data hkey
  rw [get_pending_key_data, get_pending_key_data] at hdata
  have hmem : ∀ l : List NautilusFile, (∀ f ∈ l, ';' ∉ (env.uri f).data) →
      ∀ u ∈ g_list_sort_strcmp (l.map env.uri).reverse, ';' ∉ u.data := by
    intro l hl u hu
    have hu' := (g_list_sort_strcmp_perm _).subset hu
    simp only [List.mem_reverse, List.mem_map] at hu'
    obtain ⟨f, hf, rfl⟩ := hu'
    exact hl f hf
  have hsorted := joined_uris_inj _ _
    (hmem l1 (fun f hf => hsep f (List.mem_append_left _ hf)))
    (hmem l2 (fun f hf => hsep f (List.mem_append_right _ hf))) hdata
  apply Multiset.coe_eq_coe.2
  have h1 := (g_list_sort_strcmp_perm (l1.map env.uri).reverse).trans (List.reverse_perm _)
  have h2 := (g_list_sort_strcmp_perm (l2.map env.uri).reverse).trans (List.reverse_perm _)
  exact (h1.symm.trans (hsorted ▸ List.Perm.refl _)).trans h2

/-- Witness of C27: the files with the URIs `a`, `b`, `c` selected as 1, 2, 3 and as
3, 1, 2 have the same key. -/
theorem get_pending_key_spec_witness :
    Multiset.ofList ([1, 2, 3].map abc_env.uri) = Multiset.ofList ([3, 1, 2].map abc_env.uri) ∧
    get_pending_key abc_env [1, 2, 3] = get_pending_key abc_env [3, 1, 2] :=
  ⟨Multiset.coe_eq_coe.2 (by decide),
    (get_pending_key_spec abc_env [1, 2, 3] [3, 1, 2]).1 (Multiset.coe_eq_coe.2 (by decide))⟩

/-! ## Theorems: value fields that show the original file -/

lemma start_deep_count_for_file_fields (env : FileEnv) (w : World) (file : NautilusFile) :
    (start_deep_count_for_file env w file).details.target_files = w.details.target_files ∧
    (start_deep_count_for_file env w file).details.value_fields = w.details.value_fields := by
  unfold start_deep_count_for_file schedule_start_spinner
  simp only
  (repeat' split) <;> exact ⟨rfl, rfl⟩

lemma properties_window_update_loop_original_only (env : FileEnv) :
    ∀ (files : List NautilusFile) (w : World) (d1 : Bool),
      (∀ f ∈ files, env.is_gone f = false ∧ f ∉ w.details.target_files) →
      (properties_window_update_loop env files w d1 false).2.2 = (false, false) ∧
      (properties_window_update_loop env files w d1 false).1.details.value_fields =
        w.details.value_fields := by
  intro files
  induction files with
  | nil => intro w d1 _; exact ⟨rfl, rfl⟩
  | cons x xs ih =>
    intro w d1 h
    obtain ⟨hgone, hnot⟩ := h x (List.mem_cons_self _ _)
    obtain ⟨ht, hv⟩ := start_deep_count_for_file_fields env w x
    unfold properties_window_update_loop
    simp only [hgone, Bool.false_eq_true, if_false, hnot, decide_False, Bool.or_false]
    obtain ⟨h1, h2⟩ := ih (start_deep_count_for_file env w x)
      (d1 || decide (x ∈ w.details.original_files))
      (fun f hf => ⟨(h f (List.mem_cons_of_mem _ hf)).1,
        by rw [ht]; exact (h f (List.mem_cons_of_mem _ hf)).2⟩)
    exact ⟨h1, h2.trans hv⟩

/-- An update for changed files that are not gone and are no target files, such as
original files that differ from their targets, updates no value field, whatever
list the field reads. -/
lemma properties_window_update_original_only (env : FileEnv) (w : World)
    (files : List NautilusFile) (hne : files ≠ [])
    (h : ∀ f ∈ files, env.is_gone f = false ∧ f ∉ w.details.target_files) :
    (properties_window_update env w files).details.value_fields = w.details.value_fields := by
  have hdirty : decide (files = []) = false := by simpa using hne
  obtain ⟨h1, h2⟩ := properties_window_update_loop_original_only env files
    { w with update_calls := w.update_calls ++ [files] } (decide (files = [])) h
  unfold properties_window_update
  simp only [hdirty] at h1 h2 ⊢
  have h3 : (properties_window_update_loop env files
      { w with update_calls := w.update_calls ++ [files] } false false).2.2.1 = false := by
    rw [h1]
  have h4 : (properties_window_update_loop env files
      { w with update_calls := w.update_calls ++ [files] } false false).2.2.2 = false := by
    rw [h1]
  simp only [h3, h4, Bool.false_eq_true, if_false]
  exact h2

/-- C23 at its failing input.  A window is opened for the link 1, whose target is
file 2.  `create_basic_page` registers the `where` field with `show_original` set
(file 1 is not in Recent), and the update from the initial state fills it from the
original file: `/home/user`.  Then the link is moved to `/srv` and emits `changed`.
The update timer calls `properties_window_update` with the list of file 1, which is
an original file and not a target file: only the branch of `dirty_original` runs,
no value field is updated, and the field still shows `/home/user` while
`value_field_update` would show `/srv`. -/
theorem location_field_stale_after_original_change :
    link_window.map
        (fun w => (w.details.original_files, w.details.target_files,
          value_fields_of w "where")) =
      some ([1], [2],
        [{ file_attribute := "where", inconsistent_string := INCONSISTENT_STATE_STRING
           show_original := true, text := "/home/user" }]) ∧
    (link_window.bind
        (window_run
          [(moved_link_env, WindowEvent.file_changed 1),
           (moved_link_env, WindowEvent.timeout (1, SourceFunc.update_files_callback))])).map
        (fun w => (w.update_calls, value_fields_of w "where",
          (value_fields_of w "where").map
            (fun label => (value_field_update moved_link_env w label).text))) =
      some ([[], [1]],
        [{ file_attribute := "where", inconsistent_string := INCONSISTENT_STATE_STRING
           show_original := true, text := "/home/user" }],
        ["/srv"]) := by
  constructor <;> decide

/-! ## Theorems: the combos of the dialog for enclosed files -/

/-- Opening the dialog prepends its six combos to `change_permission_combos` and
keeps what the list held before. -/
lemma on_change_permissions_clicked_combos (w : World) (mask : Nat) :
    (on_change_permissions_clicked w mask).1.details.change_permission_combos =
      [w.next_widget + 7, w.next_widget + 6, w.next_widget + 5, w.next_widget + 4,
        w.next_widget + 3, w.next_widget + 2] ++ w.details.change_permission_combos := rfl

/-- The response of a dialog removes nothing from `change_permission_combos`. -/
lemma on_change_permissions_response_combos (env : FileEnv) (w w' : World) (dialog : Nat)
    (response : Int) (h : on_change_permissions_response env w dialog response = some w') :
    w'.details.change_permission_combos = w.details.change_permission_combos := by
  unfold on_change_permissions_response at h
  split at h
  · cases h; rfl
  · split at h
    · cases h
    · cases h; rfl

/-- C30 at its failing input.  On the window of a folder the dialog for enclosed
files is opened (umask 022) and cancelled, which destroys its six combos, and then
opened again.  When the second dialog responds, `change_permission_combos` holds
twelve addresses: the six combos of the second dialog and, after them, the six
combos of the first dialog, which were destroyed with it.  With the response OK
the loop of `on_change_permissions_response` reads the destroyed combos, so what
it passes on is not determined by the rows of the responding dialog.  (The first
dialog alone, confirmed at once, passes 0644 with mask 0666 for files and 0755
with mask 0777 for folders.) -/
theorem change_permission_combos_keeps_destroyed :
    (on_change_permissions_response file_and_folder_env
        (on_change_permissions_clicked folder_window 0o022).1
        (on_change_permissions_clicked folder_window 0o022).2 GTK_RESPONSE_OK).map
        (fun w => w.recursive_permissions_calls) =
      some [{ uri := "", file_permission := 0o644, file_permission_mask := 0o666
              dir_permission := 0o755, dir_permission_mask := 0o777 }] ∧
    dialog_reopened.map
        (fun r => (r.2, r.1.details.change_permission_combos,
          dialogs_of_combos r.1 r.1.details.change_permission_combos)) =
      some (8, [14, 13, 12, 11, 10, 9, 7, 6, 5, 4, 3, 2],
        [some 8, some 8, some 8, some 8, some 8, some 8, none, none, none, none, none, none]) ∧
    dialog_reopened.bind
        (fun r => on_change_permissions_response file_and_folder_env r.1 r.2 GTK_RESPONSE_OK) =
      none := by
  refine ⟨by decide, by decide, by decide⟩

/-! ## Theorems: what the handlers keep of the lists, the update timer and the assertions -/

lemma core_step_refl (w : World) : core_step w w := ⟨rfl, fun _ h => h, fun h => h⟩

lemma core_step_trans {w1 w2 w3 : World} (h12 : core_step w1 w2) (h23 : core_step w2 w3) :
    core_step w1 w3 :=
  ⟨h23.1.trans h12.1, fun f h => h23.2.1 f (h12.2.1 f h), fun h => h23.2.2 (h12.2.2 h)⟩

lemma core_step_of_eq {w w' : World} (h : core_state w' = core_state w) : core_step w w' := by
  simp only [core_state, Prod.mk.injEq] at h
  obtain ⟨ho, ht, hc, hid, hf⟩ := h
  refine ⟨hf, fun f hmap => ?_, fun hm => ?_⟩
  · rw [ht, ho]; exact hmap
  · unfold update_timer_matches at hm ⊢
    rw [hid, hc]; exact hm

lemma schedule_directory_contents_update_core (w : World) :
    core_state (schedule_directory_contents_update w) = core_state w := by
  unfold schedule_directory_contents_update
  split <;> rfl

lemma updated_deep_count_in_progress_core (w : World) (file : NautilusFile) :
    core_state (updated_deep_count_in_progress w file) = core_state w := by
  unfold updated_deep_count_in_progress
  split
  · exact schedule_directory_contents_update_core w
  · rfl

lemma schedule_start_spinner_core (w : World) :
    core_state (schedule_start_spinner w) = core_state w := by
  unfold schedule_start_spinner
  split <;> rfl

lemma stop_spinner_core (w : World) : core_state (stop_spinner w) = core_state w := by
  unfold stop_spinner
  simp only
  split <;> rfl

lemma stop_deep_count_for_file_core (w : World) (file : NautilusFile) :
    core_state (stop_deep_count_for_file w file) = core_state w := by
  unfold stop_deep_count_for_file
  split <;> rfl

lemma start_deep_count_for_file_core (env : FileEnv) (w : World) (file : NautilusFile) :
    core_state (start_deep_count_for_file env w file) = core_state w := by
  unfold start_deep_count_for_file
  split
  · rfl
  · split
    · simp only
      split
      · exact schedule_start_spinner_core _
      · rfl
    · rfl

lemma directory_contents_loop_core (env : FileEnv) :
    ∀ (l : List NautilusFile) (w : World) (t : ContentsTotals),
      core_state (directory_contents_loop env l w t).1 = core_state w := by
  intro l
  induction l with
  | nil => intro w t; rfl
  | cons file l ih =>
    intro w t
    unfold directory_contents_loop
    split
    · exact ih w t
    · split
      · simp only
        rw [ih]
        split
        · exact stop_deep_count_for_file_core w file
        · rfl
      · exact ih w _

lemma directory_contents_value_field_update_core (env : FileEnv) (w : World) :
    core_state (directory_contents_value_field_update env w) = core_state w := by
  have h := directory_contents_loop_core env w.details.target_files w
    { total_count := w.details.total_count, total_size := w.details.total_size }
  unfold directory_contents_value_field_update
  simp only
  split
  · exact h
  · split
    · exact (stop_spinner_core _).trans h
    · exact h

lemma schedule_group_change_timeout_core (w : World) (change : Nat) :
    core_state (schedule_group_change_timeout w change) = core_state w := by
  unfold schedule_group_change_timeout
  split <;> rfl

lemma schedule_owner_change_timeout_core (w : World) (change : Nat) :
    core_state (schedule_owner_change_timeout w change) = core_state w := by
  unfold schedule_owner_change_timeout
  split <;> rfl

lemma unschedule_or_cancel_group_change_core (w : World) :
    core_state (unschedule_or_cancel_group_change w) = core_state w := by
  unfold unschedule_or_cancel_group_change
  split
  · rfl
  · simp only
    split
    · rfl
    · split <;> rfl

lemma unschedule_or_cancel_owner_change_core (w : World) :
    core_state (unschedule_or_cancel_owner_change w) = core_state w := by
  unfold unschedule_or_cancel_owner_change
  split
  · rfl
  · simp only
    split
    · rfl
    · split <;> rfl

/-- The assertion of `schedule_group_change` holds at its one call, in
`changed_group_callback`: `unschedule_or_cancel_group_change` has emptied the
slot. -/
lemma changed_group_callback_core (env : FileEnv) (w : World) (group : Option String)
    (file : NautilusFile) :
    core_state (changed_group_callback env w group file) = core_state w := by
  unfold changed_group_callback
  simp only
  split
  · rfl
  · split
    · rw [schedule_group_change_eq _ _ _ (unschedule_or_cancel_group_change_slot w)]
      exact unschedule_or_cancel_group_change_core w
    · rfl

/-- The assertion of `schedule_owner_change` holds at its one call, in
`changed_owner_callback`: `unschedule_or_cancel_owner_change` has emptied the
slot. -/
lemma changed_owner_callback_core (env : FileEnv) (w : World) (new_owner : Option String)
    (file : NautilusFile) :
    core_state (changed_owner_callback env w new_owner file) = core_state w := by
  unfold changed_owner_callback
  split
  · rfl
  · simp only
    split
    · rw [schedule_owner_change_eq _ _ _ (unschedule_or_cancel_owner_change_slot w)]
      exact unschedule_or_cancel_owner_change_core w
    · rfl

lemma group_change_callback_core (w : World) (change : Nat) :
    core_state (group_change_callback w change) = core_state w := by
  unfold group_change_callback
  split
  · rfl
  · simp only
    split <;> split <;> rfl

lemma owner_change_callback_core (w : World) (change : Nat) :
    core_state (owner_change_callback w change) = core_state w := by
  unfold owner_change_callback
  split
  · rfl
  · simp only
    split <;> split <;> rfl

lemma set_name_field_core (env : FileEnv) (w : World) (original_name : Option String)
    (name : String) : core_state (set_name_field env w original_name name) = core_state w := by
  unfold set_name_field
  simp only
  (repeat' split) <;> rfl

lemma update_name_field_core (env : FileEnv) (w : World) :
    core_state (update_name_field env w) = core_state w := by
  unfold update_name_field
  split
  · exact set_name_field_core env w _ _
  · simp only
    split
    · exact set_name_field_core env w _ _
    · exact set_name_field_core env w _ _

lemma name_field_done_editing_core (env : FileEnv) (w w' : World)
    (h : name_field_done_editing env w = some w') : core_state w' = core_state w := by
  unfold name_field_done_editing at h
  split at h
  · cases h; rfl
  · split at h
    · cases h; rfl
    · split at h
      · cases h; rfl
      · split at h
        · cases h; rfl
        · split at h
          · cases h; rfl
          · simp only at h
            split at h
            · cases h; rfl
            · split at h
              · cases h
              · split at h
                · cases h; rfl
                · cases h; rfl

lemma set_icon_loop_core (env : FileEnv) (icon_uri icon_path : String) :
    ∀ (l : List NautilusFile) (w : World),
      core_state (set_icon_loop env icon_uri icon_path l w) = core_state w := by
  intro l
  induction l with
  | nil => intro w; rfl
  | cons x xs ih =>
    intro w
    unfold set_icon_loop
    simp only
    rw [ih]
    split
    · split <;> rfl
    · rfl

lemma set_icon_core (env : FileEnv) (w : World) (icon_uri : String) :
    core_state (set_icon env w icon_uri) = core_state w := by
  unfold set_icon
  split
  · exact set_icon_loop_core env _ _ _ w
  · rfl

lemma drag_data_received_core (env : FileEnv) (w : World) (data : String) :
    core_state (nautilus_properties_window_drag_data_received env w data) = core_state w := by
  unfold nautilus_properties_window_drag_data_received
  simp only
  split
  · rfl
  · split
    · rfl
    · split
      · exact set_icon_core env w _
      · split <;> rfl

/-! ### The handlers that write the lists or the update timer -/

lemma g_timeout_add_id_ne_zero (main : MainContext) (function : SourceFunc) :
    (g_timeout_add main function).2 ≠ 0 := Nat.succ_ne_zero _

lemma file_changed_callback_core_step (w : World) (file : NautilusFile) :
    core_step w (file_changed_callback w file) := by
  unfold file_changed_callback
  split
  · unfold schedule_files_update
    simp only
    split
    · refine ⟨rfl, fun _ h => h, fun _ => ?_⟩
      unfold update_timer_matches
      simp only [ne_eq, reduceCtorEq, not_false_eq_true, iff_true]
      exact g_timeout_add_id_ne_zero _ _
    · rename_i hid
      refine ⟨rfl, fun _ h => h, fun _ => ?_⟩
      unfold update_timer_matches
      simp only [ne_eq, reduceCtorEq, not_false_eq_true, iff_true]
      exact hid
  · exact core_step_refl w

/-- When `remove_from_dialog` removes anything, it removes the elements at one and
the same index from both lists. -/
lemma remove_from_dialog_lists (w : World) (file : NautilusFile) :
    remove_from_dialog w file = w ∨
    ∃ index, index < w.details.original_files.length ∧ index < w.details.target_files.length ∧
      (remove_from_dialog w file).details.original_files =
        w.details.original_files.eraseIdx index ∧
      (remove_from_dialog w file).details.target_files =
        w.details.target_files.eraseIdx index := by
  unfold remove_from_dialog
  simp only
  split
  · exact Or.inl rfl
  · rename_i index _
    split
    · rename_i ho ht
      refine Or.inr ⟨index, ?_, ?_, rfl, rfl⟩
      · exact (List.getElem?_eq_some_iff.1 ho).1
      · exact (List.getElem?_eq_some_iff.1 ht).1
    · exact Or.inl rfl

lemma remove_from_dialog_frame_core (w : World) (file : NautilusFile) :
    (remove_from_dialog w file).failed_asserts = w.failed_asserts ∧
    (remove_from_dialog w file).details.changed_files = w.details.changed_files ∧
    (remove_from_dialog w file).details.update_files_timeout_id =
      w.details.update_files_timeout_id := by
  unfold remove_from_dialog
  simp only
  split
  · exact ⟨rfl, rfl, rfl⟩
  · split <;> exact ⟨rfl, rfl, rfl⟩

lemma map_eraseIdx_comm {α β : Type} (f : α → β) :
    ∀ (l : List α) (index : Nat), (l.map f).eraseIdx index = (l.eraseIdx index).map f := by
  intro l
  induction l with
  | nil => intro index; rfl
  | cons x xs ih =>
    intro index
    cases index with
    | zero => rfl
    | succ n => simp only [List.map_cons, List.eraseIdx_cons_succ, ih]

lemma remove_from_dialog_core_step (w : World) (file : NautilusFile) :
    core_step w (remove_from_dialog w file) := by
  obtain ⟨hf, hc, hid⟩ := remove_from_dialog_frame_core w file
  refine ⟨hf, fun f hmap => ?_, fun hm => ?_⟩
  · rcases remove_from_dialog_lists w file with h | ⟨index, _, _, ho, ht⟩
    · rw [h]; exact hmap
    · rw [ho, ht, hmap, map_eraseIdx_comm]
  · unfold update_timer_matches at hm ⊢
    rw [hid, hc]; exact hm

lemma properties_window_update_loop_core_step (env : FileEnv) :
    ∀ (files : List NautilusFile) (w : World) (d1 d2 : Bool),
      core_step w (properties_window_update_loop env files w d1 d2).1 := by
  intro files
  induction files with
  | nil => intro w d1 d2; exact core_step_refl w
  | cons x xs ih =>
    intro w d1 d2
    unfold properties_window_update_loop
    have hr := remove_from_dialog_core_step w x
    have hs := core_step_of_eq (start_deep_count_for_file_core env w x)
    split
    · simp only
      split
      · exact hr
      · exact core_step_trans hr (ih _ _ _)
    · exact core_step_trans hs (ih _ _ _)

lemma properties_window_update_core_step (env : FileEnv) (w : World)
    (files : List NautilusFile) : core_step w (properties_window_update env w files) := by
  have h0 : core_step w { w with update_calls := w.update_calls ++ [files] } :=
    core_step_of_eq rfl
  have h1 := core_step_trans h0 (properties_window_update_loop_core_step env files
    { w with update_calls := w.update_calls ++ [files] } (decide (files = []))
    (decide (files = [])))
  unfold properties_window_update
  simp only
  split
  · exact h1
  · split
    · exact core_step_trans h1 (core_step_of_eq rfl)
    · exact h1

lemma real_destroy_core (w : World) :
    core_state (real_destroy w) = ([], [], [], 0, w.failed_asserts) := by
  have h := (unschedule_or_cancel_owner_change_core _).trans
    (unschedule_or_cancel_group_change_core w)
  simp only [core_state, Prod.mk.injEq] at h
  have hfa := h.2.2.2.2
  unfold real_destroy core_state
  simp only
  (repeat' split) <;>
    exact congrArg (fun x => (([] : List NautilusFile), ([] : List NautilusFile),
      ([] : List NautilusFile), 0, x)) hfa

lemma real_destroy_core_step (w : World) : core_step w (real_destroy w) := by
  have h := real_destroy_core w
  simp only [core_state, Prod.mk.injEq] at h
  obtain ⟨ho, ht, hc, hid, hf⟩ := h
  refine ⟨hf, fun f _ => by rw [ho, ht]; rfl, fun _ => ?_⟩
  unfold update_timer_matches
  rw [hid, hc]
  simp

lemma update_files_callback_core_step (env : FileEnv) (w : World) :
    core_step w (update_files_callback env w) := by
  have hp := properties_window_update_core_step env
    { w with details := { w.details with update_files_timeout_id := 0 } } w.details.changed_files
  have hid := (properties_window_update_frame env
    { w with details := { w.details with update_files_timeout_id := 0 } }
    w.details.changed_files).2.1
  have hd := real_destroy_core (properties_window_update env
    { w with details := { w.details with update_files_timeout_id := 0 } }
    w.details.changed_files)
  simp only [core_state, Prod.mk.injEq] at hd
  obtain ⟨hdo, hdt, hdc, hdid, hdf⟩ := hd
  unfold update_files_callback
  simp only
  split
  · refine ⟨hdf.trans hp.1, fun f _ => by rw [hdo, hdt]; rfl, fun _ => ?_⟩
    unfold update_timer_matches
    rw [hdid, hdc]
    simp
  · refine ⟨hp.1, fun f hmap => hp.2.1 f hmap, fun _ => ?_⟩
    unfold update_timer_matches
    simp only [ne_eq, not_true_eq_false, iff_false, not_not]
    exact hid

lemma source_fired_core_step (env : FileEnv) (w : World) (source : Nat × SourceFunc) :
    core_step w (source_fired env w source) := by
  obtain ⟨id, func⟩ := source
  have hremove : ∀ w' : World, core_step w w' →
      core_step w { w' with main := g_source_remove w'.main id } :=
    fun w' h => core_step_trans h (core_step_of_eq rfl)
  cases func with
  | update_files_callback => exact hremove _ (update_files_callback_core_step env w)
  | update_directory_contents_callback =>
    refine hremove _ (core_step_of_eq ?_)
    exact (directory_contents_value_field_update_core env _).trans rfl
  | start_spinner_callback => exact hremove _ (core_step_of_eq rfl)
  | schedule_group_change_timeout change =>
    exact hremove _ (core_step_of_eq (schedule_group_change_timeout_core w change))
  | schedule_owner_change_timeout change =>
    exact hremove _ (core_step_of_eq (schedule_owner_change_timeout_core w change))

lemma window_step_core_step (env : FileEnv) (w w' : World) (event : WindowEvent)
    (h : window_step env w event = some w') : core_step w w' := by
  cases event with
  | file_changed file =>
    simp only [window_step, Option.some.injEq] at h
    rw [← h]; exact file_changed_callback_core_step w file
  | deep_count_in_progress file =>
    simp only [window_step, Option.some.injEq] at h
    rw [← h]; exact core_step_of_eq (updated_deep_count_in_progress_core w file)
  | timeout source =>
    simp only [window_step] at h
    split at h
    · simp only [Option.some.injEq] at h
      rw [← h]; exact source_fired_core_step env w source
    · simp only [Option.some.injEq] at h
      rw [← h]; exact core_step_refl w
  | group_combo_changed group file =>
    simp only [window_step, Option.some.injEq] at h
    rw [← h]; exact core_step_of_eq (changed_group_callback_core env w group file)
  | group_change_done change =>
    simp only [window_step, Option.some.injEq] at h
    rw [← h]; exact core_step_of_eq (group_change_callback_core w change)
  | name_field_update =>
    simp only [window_step, Option.some.injEq] at h
    rw [← h]; exact core_step_of_eq (update_name_field_core env w)
  | name_field_done => exact core_step_of_eq (name_field_done_editing_core env w w' h)
  | icon_dropped data =>
    simp only [window_step, Option.some.injEq] at h
    rw [← h]; exact core_step_of_eq (drag_data_received_core env w data)
  | icon_chosen uri =>
    simp only [window_step, Option.some.injEq] at h
    rw [← h]; exact core_step_of_eq (set_icon_core env w uri)
  | destroy =>
    simp only [window_step, Option.some.injEq] at h
    rw [← h]; exact real_destroy_core_step w
  | owner_combo_changed new_owner file =>
    simp only [window_step, Option.some.injEq] at h
    rw [← h]; exact core_step_of_eq (changed_owner_callback_core env w new_owner file)
  | owner_change_done change =>
    simp only [window_step, Option.some.injEq] at h
    rw [← h]; exact core_step_of_eq (owner_change_callback_core w change)

lemma window_run_core_step :
    ∀ (events : List (FileEnv × WindowEvent)) (w w' : World),
      window_run events w = some w' → core_step w w' := by
  intro events
  induction events with
  | nil =>
    intro w w' h
    simp only [window_run, Option.some.injEq] at h
    rw [← h]; exact core_step_refl w
  | cons e es ih =>
    intro w w' h
    obtain ⟨env, event⟩ := e
    simp only [window_run] at h
    cases hstep : window_step env w event with
    | none => rw [hstep] at h; cases h
    | some w1 =>
      rw [hstep] at h
      exact core_step_trans (window_step_core_step env w w1 event hstep) (ih w1 w' h)

lemma get_target_file_list_eq_map (env : FileEnv) (original_files : List NautilusFile) :
    get_target_file_list env original_files =
      original_files.map (get_target_file_for_original_file env) := by
  unfold get_target_file_list
  have h : ∀ (l acc : List NautilusFile),
      l.foldl (fun ret file => get_target_file_for_original_file env file :: ret) acc =
        (l.map (get_target_file_for_original_file env)).reverse ++ acc := by
    intro l
    induction l with
    | nil => intro acc; rfl
    | cons x xs ih =>
      intro acc
      simp only [List.foldl_cons, ih, List.map_cons, List.reverse_cons, List.append_assoc,
        List.singleton_append]
  rw [h]
  simp

/-! ## Theorems: parallel file lists -/

/-- C26: `original_files` and `target_files` stay parallel.  `get_target_file_list`
returns a list of the length of its input whose element at each position is the
target of the original file there; `remove_from_dialog` either changes nothing or
removes the elements at one and the same index from both lists; and in every state
`w` that a window whose target files were made by `get_target_file_list` (with the
file layer `env0`) reaches by events, the two lists have the same length and the
target file at each position is the target that `env0` gave for the original file
there. -/
theorem original_and_target_files_parallel (env0 : FileEnv) (w0 w : World)
    (events : List (FileEnv × WindowEvent))
    (h0 : w0.details.target_files = get_target_file_list env0 w0.details.original_files)
    (hrun : window_run events w0 = some w) :
    (∀ l : List NautilusFile,
      (get_target_file_list env0 l).length = l.length ∧
      ∀ i : Nat, (get_target_file_list env0 l)[i]? =
        l[i]?.map (get_target_file_for_original_file env0)) ∧
    (∀ (w1 : World) (file : NautilusFile),
      remove_from_dialog w1 file = w1 ∨
      ∃ index, index < w1.details.original_files.length ∧
        index < w1.details.target_files.length ∧
        (remove_from_dialog w1 file).details.original_files =
          w1.details.original_files.eraseIdx index ∧
        (remove_from_dialog w1 file).details.target_files =
          w1.details.target_files.eraseIdx index) ∧
    w.details.original_files.length = w.details.target_files.length ∧
    ∀ i : Nat, w.details.target_files[i]? =
      w.details.original_files[i]?.map (get_target_file_for_original_file env0) := by
  have hmap := (window_run_core_step events w0 w hrun).2.1
    (get_target_file_for_original_file env0)
    (h0.trans (get_target_file_list_eq_map env0 _))
  refine ⟨fun l => ?_, remove_from_dialog_lists, ?_, fun i => ?_⟩
  · rw [get_target_file_list_eq_map]
    exact ⟨List.length_map _ _, fun i => List.getElem?_map _ _ _⟩
  · rw [hmap, List.length_map]
  · rw [hmap, List.getElem?_map]

/-- Witness of C26: a window for the link 1 (target 2) and the file 3; file 3 is
deleted and removed by the update: the lists are `[1]` and `[2]`. -/
theorem original_and_target_files_parallel_witness :
    (link_pair_window.details.target_files =
        get_target_file_list link_env link_pair_window.details.original_files ∧
      window_run file_gone_events link_pair_window =
        some (source_fired link_gone_env (file_changed_callback link_pair_window 3)
          (1, SourceFunc.update_files_callback))) ∧
    ((source_fired link_gone_env (file_changed_callback link_pair_window 3)
        (1, SourceFunc.update_files_callback)).details.original_files,
      (source_fired link_gone_env (file_changed_callback link_pair_window 3)
        (1, SourceFunc.update_files_callback)).details.target_files) = ([1], [2]) ∧
    (source_fired link_gone_env (file_changed_callback link_pair_window 3)
        (1, SourceFunc.update_files_callback)).details.original_files.length =
      (source_fired link_gone_env (file_changed_callback link_pair_window 3)
        (1, SourceFunc.update_files_callback)).details.target_files.length :=
  ⟨⟨rfl, rfl⟩, by decide,
    (original_and_target_files_parallel link_env link_pair_window _ file_gone_events
      rfl rfl).2.2.1⟩

/-! ## Theorems: the update timer and the changed files -/

/-- C28: in every state `w` that a window reaches by events (file change
notifications, timers that fire, destruction, and the other events of the window)
from a state in which `update_files_timeout_id` is non-zero exactly when
`changed_files` is not empty, such as a new window, `update_files_timeout_id` is
non-zero if and only if `changed_files` is not empty. -/
theorem update_timer_iff_changed_files (w0 w : World)
    (events : List (FileEnv × WindowEvent))
    (h0 : w0.details.update_files_timeout_id ≠ 0 ↔ w0.details.changed_files ≠ [])
    (hrun : window_run events w0 = some w) :
    w.details.update_files_timeout_id ≠ 0 ↔ w.details.changed_files ≠ [] :=
  (window_run_core_step events w0 w hrun).2.2 h0

/-- Witness of C28: after the notification of file 3 the timer 1 is set and file 3
is in `changed_files`. -/
theorem update_timer_iff_changed_files_witness :
    ((link_pair_window.details.update_files_timeout_id ≠ 0 ↔
        link_pair_window.details.changed_files ≠ []) ∧
      window_run (file_gone_events.take 1) link_pair_window =
        some (file_changed_callback link_pair_window 3)) ∧
    ((file_changed_callback link_pair_window 3).details.update_files_timeout_id,
      (file_changed_callback link_pair_window 3).details.changed_files) = (1, [3]) ∧
    ((file_changed_callback link_pair_window 3).details.update_files_timeout_id ≠ 0 ↔
      (file_changed_callback link_pair_window 3).details.changed_files ≠ []) :=
  ⟨⟨by decide, rfl⟩, by decide,
    update_timer_iff_changed_files link_pair_window _ (file_gone_events.take 1)
      (by decide) rfl⟩

/-! ## Theorems: pending owner and group changes -/

lemma lookup_filter_ne {β : Type} (l : List (Nat × β)) (x k : Nat) (h : k ≠ x) :
    (l.filter (fun c => c.1 != x)).lookup k = l.lookup k := by
  induction l with
  | nil => rfl
  | cons e l ih =>
    obtain ⟨a, b⟩ := e
    by_cases hax : a = x
    · subst hax
      have hka : (k == a) = false := by simpa using h
      simp [List.filter_cons, List.lookup, hka, ih]
    · have hne : (a != x) = true := by simpa using hax
      simp only [List.filter_cons, hne, if_true, List.lookup]
      cases k == a
      · exact ih
      · rfl

lemma lookup_map_update {β : Type} (l : List (Nat × β)) (x k : Nat) (g : β → β) :
    (l.map (fun e => if e.1 = x then (e.1, g e.2) else e)).lookup k =
      (l.lookup k).map (fun v => if k = x then g v else v) := by
  induction l with
  | nil => rfl
  | cons e l ih =>
    obtain ⟨a, b⟩ := e
    have hhead : (if (a, b).1 = x then ((a, b).1, g (a, b).2) else (a, b)) =
        (a, if a = x then g b else b) := by
      by_cases hax : a = x <;> simp [hax]
    simp only [List.map_cons, hhead, List.lookup_cons]
    by_cases hka : k = a
    · subst hka
      simp
    · have hb : (k == a) = false := by simpa using hka
      simp only [hb]
      exact ih

lemma source_kind_unique (sources : List (Nat × SourceFunc))
    (h : (sources.map (fun s => s.1)).Nodup) (id : Nat) (f f' : SourceFunc)
    (h1 : (id, f) ∈ sources) (h2 : (id, f') ∈ sources) : f = f' :=
  (Prod.mk.inj (List.inj_on_of_nodup_map h h1 h2 rfl)).2

/-- Removing the source with the id of a pending source of another kind leaves the
sources of a kind as they are. -/
lemma filter_kind_remove_other (sources : List (Nat × SourceFunc))
    (p : Nat × SourceFunc → Bool) (t : Nat) (f : SourceFunc)
    (hnd : (sources.map (fun s => s.1)).Nodup) (hmem : (t, f) ∈ sources)
    (hp : p (t, f) = false) :
    (sources.filter (fun s => s.1 != t)).filter p = sources.filter p := by
  rw [List.filter_comm]
  apply List.filter_eq_self.2
  intro s hs
  obtain ⟨hs1, hs2⟩ := List.mem_filter.1 hs
  obtain ⟨id, f'⟩ := s
  by_cases hid : id = t
  · subst hid
    have := source_kind_unique sources hnd id f' f hs1 hmem
    subst this
    rw [hp] at hs2
    cases hs2
  · simpa using hid

lemma g_source_remove_nodup (main : MainContext) (t : Nat)
    (h : (main.sources.map (fun s => s.1)).Nodup) :
    ((g_source_remove main t).sources.map (fun s => s.1)).Nodup :=
  List.Nodup.sublist ((List.filter_sublist _).map _) h

lemma g_source_remove_bounded (main : MainContext) (t : Nat)
    (h : ∀ s ∈ main.sources, s.1 ≤ main.next_source_id) :
    ∀ s ∈ (g_source_remove main t).sources, s.1 ≤ (g_source_remove main t).next_source_id :=
  fun s hs => h s (List.mem_filter.1 hs).1

lemma g_timeout_add_nodup (main : MainContext) (f : SourceFunc)
    (hnd : (main.sources.map (fun s => s.1)).Nodup)
    (hb : ∀ s ∈ main.sources, s.1 ≤ main.next_source_id) :
    (((g_timeout_add main f).1).sources.map (fun s => s.1)).Nodup := by
  simp only [g_timeout_add, List.map_append, List.map_cons, List.map_nil]
  apply List.Nodup.append hnd (List.nodup_singleton _)
  intro id h1 h2
  simp only [List.mem_singleton] at h2
  obtain ⟨s, hs, rfl⟩ := List.mem_map.1 h1
  have := hb s hs
  omega

lemma g_timeout_add_bounded (main : MainContext) (f : SourceFunc)
    (hb : ∀ s ∈ main.sources, s.1 ≤ main.next_source_id) :
    ∀ s ∈ ((g_timeout_add main f).1).sources, s.1 ≤ ((g_timeout_add main f).1).next_source_id := by
  intro s hs
  simp only [g_timeout_add, List.mem_append, List.mem_singleton] at hs ⊢
  rcases hs with hs | rfl
  · exact Nat.le_succ_of_le (hb s hs)
  · exact Nat.le_refl _

lemma changes_consistent_intro_group {w : World}
    (hnd : (w.main.sources.map (fun s => s.1)).Nodup)
    (hb : ∀ s ∈ w.main.sources, s.1 ≤ w.main.next_source_id)
    (hgroup : group_change_timeouts w = expected_group_change_timeouts w)
    (howner : owner_change_timeouts w = expected_owner_change_timeouts w) :
    changes_consistent w := ⟨hnd, hb, hgroup, howner⟩

lemma changes_consistent_intro_owner {w : World}
    (hnd : (w.main.sources.map (fun s => s.1)).Nodup)
    (hb : ∀ s ∈ w.main.sources, s.1 ≤ w.main.next_source_id)
    (howner : owner_change_timeouts w = expected_owner_change_timeouts w)
    (hgroup : group_change_timeouts w = expected_group_change_timeouts w) :
    changes_consistent w := ⟨hnd, hb, hgroup, howner⟩

lemma changes_consistent_group {w : World} (h : changes_consistent w) :
    group_change_timeouts w = expected_group_change_timeouts w := h.2.2.1

lemma changes_consistent_owner {w : World} (h : changes_consistent w) :
    owner_change_timeouts w = expected_owner_change_timeouts w := h.2.2.2

lemma changes_consistent_nodup {w : World} (h : changes_consistent w) :
    (w.main.sources.map (fun s => s.1)).Nodup := h.1

lemma changes_consistent_bounded {w : World} (h : changes_consistent w) :
    ∀ s ∈ w.main.sources, s.1 ≤ w.main.next_source_id := h.2.1

/-! ### The handlers of group changes -/

lemma group_change_timeouts_mem (w : World) (t : Nat) (f : SourceFunc)
    (h : group_change_timeouts w = [(t, f)]) : (t, f) ∈ w.main.sources := by
  have hmem : (t, f) ∈ group_change_timeouts w := by rw [h]; exact List.mem_singleton_self _
  exact (List.mem_filter.1 hmem).1

lemma group_change_timeouts_removed (w : World) (t : Nat) (f : SourceFunc)
    (h : group_change_timeouts w = [(t, f)]) :
    (g_source_remove w.main t).sources.filter is_group_change_timeout = [] := by
  unfold group_change_timeouts at h
  simp only [g_source_remove]
  rw [List.filter_comm, h]
  simp

lemma unschedule_or_cancel_group_change_consistent (w : World) (h : changes_consistent w) :
    changes_consistent (unschedule_or_cancel_group_change w) ∧
    group_change_timeouts (unschedule_or_cancel_group_change w) = [] := by
  have hnd := changes_consistent_nodup h
  have hb := changes_consistent_bounded h
  have hgroup := changes_consistent_group h
  have howner := changes_consistent_owner h
  unfold expected_group_change_timeouts at hgroup
  unfold unschedule_or_cancel_group_change
  cases hslot : w.details.group_change with
  | none =>
    rw [hslot] at hgroup
    exact ⟨h, hgroup⟩
  | some change =>
    rw [hslot] at hgroup
    simp only at hgroup ⊢
    cases hl : w.group_changes.lookup change with
    | none =>
      rw [hl] at hgroup
      exact ⟨changes_consistent_intro_group hnd hb hgroup howner, hgroup⟩
    | some c =>
      rw [hl] at hgroup
      simp only at hgroup ⊢
      by_cases ht : c.timeout = 0
      · simp only [ht, if_true] at hgroup ⊢
        exact ⟨changes_consistent_intro_group hnd hb hgroup howner, hgroup⟩
      · simp only [ht, if_false] at hgroup ⊢
        have hmem := group_change_timeouts_mem w _ _ hgroup
        have hremoved := group_change_timeouts_removed w _ _ hgroup
        have hother : (g_source_remove w.main c.timeout).sources.filter is_owner_change_timeout =
            w.main.sources.filter is_owner_change_timeout :=
          filter_kind_remove_other w.main.sources is_owner_change_timeout c.timeout _ hnd hmem rfl
        exact ⟨changes_consistent_intro_group (g_source_remove_nodup w.main c.timeout hnd)
          (g_source_remove_bounded w.main c.timeout hb) hremoved (hother.trans howner), hremoved⟩

lemma schedule_group_change_consistent (w : World) (file : NautilusFile) (group : String)
    (h : changes_consistent w) (hslot : w.details.group_change = none)
    (hnone : group_change_timeouts w = []) :
    changes_consistent (schedule_group_change w file group) := by
  have hnd := changes_consistent_nodup h
  have hb := changes_consistent_bounded h
  have howner := changes_consistent_owner h
  rw [schedule_group_change_eq w file group hslot]
  refine changes_consistent_intro_group (g_timeout_add_nodup w.main _ hnd hb)
    (g_timeout_add_bounded w.main _ hb) ?_ ?_
  · unfold group_change_timeouts at hnone
    simp [group_change_timeouts, expected_group_change_timeouts, g_timeout_add,
      List.filter_append, hnone, is_group_change_timeout, List.lookup]
  · unfold owner_change_timeouts at howner
    simp only [owner_change_timeouts, g_timeout_add, List.filter_append, howner]
    simp [is_owner_change_timeout, expected_owner_change_timeouts]

lemma expected_group_change_timeouts_started (w : World) (change : Nat) (c : GroupChange)
    (hslot : w.details.group_change = some change)
    (hl : w.group_changes.lookup change = some c) (ht : c.timeout = 0) :
    expected_group_change_timeouts w = [] := by
  simp [expected_group_change_timeouts, hslot, hl, ht]

lemma schedule_group_change_timeout_consistent (env : FileEnv) (w : World) (id change : Nat)
    (h : changes_consistent w)
    (hmem : (id, SourceFunc.schedule_group_change_timeout change) ∈ w.main.sources) :
    changes_consistent
      (source_fired env w (id, SourceFunc.schedule_group_change_timeout change)) := by
  have hnd := changes_consistent_nodup h
  have hb := changes_consistent_bounded h
  have hgroup := changes_consistent_group h
  have howner := changes_consistent_owner h
  have hin : (id, SourceFunc.schedule_group_change_timeout change) ∈ group_change_timeouts w :=
    List.mem_filter.2 ⟨hmem, rfl⟩
  have hother : (g_source_remove w.main id).sources.filter is_owner_change_timeout =
      w.main.sources.filter is_owner_change_timeout :=
    filter_kind_remove_other w.main.sources is_owner_change_timeout id _ hnd hmem rfl
  rw [hgroup] at hin
  unfold expected_group_change_timeouts at hin hgroup
  cases hslot : w.details.group_change with
  | none =>
    rw [hslot] at hin
    cases hin
  | some slot =>
    rw [hslot] at hin hgroup
    simp only at hin hgroup
    cases hl : w.group_changes.lookup slot with
    | none =>
      rw [hl] at hin
      cases hin
    | some c =>
      rw [hl] at hin hgroup
      simp only at hin hgroup
      by_cases ht : c.timeout = 0
      · simp only [ht, if_true] at hin
        cases hin
      · simp only [ht, if_false, List.mem_singleton, Prod.mk.injEq,
          SourceFunc.schedule_group_change_timeout.injEq] at hin hgroup
        obtain ⟨hid, hchange⟩ := hin
        subst hchange
        have hremoved := group_change_timeouts_removed w _ _ hgroup
        rw [← hid] at hremoved
        simp only [source_fired, schedule_group_change_timeout, hl]
        refine changes_consistent_intro_group (g_source_remove_nodup w.main id hnd)
          (g_source_remove_bounded w.main id hb) ?_ (hother.trans howner)
        show (g_source_remove w.main id).sources.filter is_group_change_timeout = _
        rw [hremoved]
        have hlm : List.lookup change (w.group_changes.map
            (fun e => if e.1 = change then (e.1, { e.2 with timeout := 0 }) else e)) =
            some { c with timeout := 0 } := by
          rw [lookup_map_update w.group_changes change change
            (fun c => { c with timeout := 0 }), hl]
          simp
        apply Eq.symm
        apply expected_group_change_timeouts_started _ change _ _ hlm rfl
        exact hslot

lemma group_change_callback_consistent (w : World) (change : Nat) (c : GroupChange)
    (h : changes_consistent w) (hl : w.group_changes.lookup change = some c)
    (ht : c.timeout = 0) :
    changes_consistent (group_change_callback w change) := by
  have hnd := changes_consistent_nodup h
  have hb := changes_consistent_bounded h
  have hgroup := changes_consistent_group h
  have howner := changes_consistent_owner h
  have hexp : expected_group_change_timeouts (group_change_callback w change) =
      expected_group_change_timeouts w := by
    unfold group_change_callback
    simp only [hl]
    cases hslot : w.details.group_change with
    | none =>
      cases c.cancelled <;>
        simp [expected_group_change_timeouts, hslot, group_change_free]
    | some slot =>
      by_cases hs : slot = change
      · subst hs
        cases c.cancelled <;>
          simp [expected_group_change_timeouts, hslot, group_change_free, hl, ht]
      · cases c.cancelled <;>
          simp [expected_group_change_timeouts, hslot, group_change_free, hs,
            lookup_filter_ne _ _ _ hs]
  have hsources : (group_change_callback w change).main = w.main := by
    unfold group_change_callback
    simp only [hl]
    (repeat' split) <;> rfl
  have hownerexp : expected_owner_change_timeouts (group_change_callback w change) =
      expected_owner_change_timeouts w := by
    unfold group_change_callback
    simp only [hl]
    (repeat' split) <;> rfl
  refine changes_consistent_intro_group ?_ ?_ ?_ ?_
  · rw [hsources]; exact hnd
  · rw [hsources]; exact hb
  · rw [hexp]
    unfold group_change_timeouts
    rw [hsources]
    exact hgroup
  · rw [hownerexp]
    unfold owner_change_timeouts
    rw [hsources]
    exact howner

/-! ### The handlers of owner changes -/

lemma owner_change_timeouts_mem (w : World) (t : Nat) (f : SourceFunc)
    (h : owner_change_timeouts w = [(t, f)]) : (t, f) ∈ w.main.sources := by
  have hmem : (t, f) ∈ owner_change_timeouts w := by rw [h]; exact List.mem_singleton_self _
  exact (List.mem_filter.1 hmem).1

lemma owner_change_timeouts_removed (w : World) (t : Nat) (f : SourceFunc)
    (h : owner_change_timeouts w = [(t, f)]) :
    (g_source_remove w.main t).sources.filter is_owner_change_timeout = [] := by
  unfold owner_change_timeouts at h
  simp only [g_source_remove]
  rw [List.filter_comm, h]
  simp

lemma unschedule_or_cancel_owner_change_consistent (w : World) (h : changes_consistent w) :
    changes_consistent (unschedule_or_cancel_owner_change w) ∧
    owner_change_timeouts (unschedule_or_cancel_owner_change w) = [] := by
  have hnd := changes_consistent_nodup h
  have hb := changes_consistent_bounded h
  have howner := changes_consistent_owner h
  have hgroup := changes_consistent_group h
  unfold expected_owner_change_timeouts at howner
  unfold unschedule_or_cancel_owner_change
  cases hslot : w.details.owner_change with
  | none =>
    rw [hslot] at howner
    exact ⟨h, howner⟩
  | some change =>
    rw [hslot] at howner
    simp only at howner ⊢
    cases hl : w.owner_changes.lookup change with
    | none =>
      rw [hl] at howner
      exact ⟨changes_consistent_intro_owner hnd hb howner hgroup, howner⟩
    | some c =>
      rw [hl] at howner
      simp only at howner ⊢
      by_cases ht : c.timeout = 0
      · simp only [ht, if_true] at howner ⊢
        exact ⟨changes_consistent_intro_owner hnd hb howner hgroup, howner⟩
      · simp only [ht, if_false] at howner ⊢
        have hmem := owner_change_timeouts_mem w _ _ howner
        have hremoved := owner_change_timeouts_removed w _ _ howner
        have hother : (g_source_remove w.main c.timeout).sources.filter is_group_change_timeout =
            w.main.sources.filter is_group_change_timeout :=
          filter_kind_remove_other w.main.sources is_group_change_timeout c.timeout _ hnd hmem rfl
        exact ⟨changes_consistent_intro_owner (g_source_remove_nodup w.main c.timeout hnd)
          (g_source_remove_bounded w.main c.timeout hb) hremoved (hother.trans hgroup), hremoved⟩

lemma schedule_owner_change_consistent (w : World) (file : NautilusFile) (owner : String)
    (h : changes_consistent w) (hslot : w.details.owner_change = none)
    (hnone : owner_change_timeouts w = []) :
    changes_consistent (schedule_owner_change w file owner) := by
  have hnd := changes_consistent_nodup h
  have hb := changes_consistent_bounded h
  have hgroup := changes_consistent_group h
  rw [schedule_owner_change_eq w file owner hslot]
  refine changes_consistent_intro_owner (g_timeout_add_nodup w.main _ hnd hb)
    (g_timeout_add_bounded w.main _ hb) ?_ ?_
  · unfold owner_change_timeouts at hnone
    simp [owner_change_timeouts, expected_owner_change_timeouts, g_timeout_add,
      List.filter_append, hnone, is_owner_change_timeout, List.lookup]
  · unfold group_change_timeouts at hgroup
    simp only [group_change_timeouts, g_timeout_add, List.filter_append, hgroup]
    simp [is_group_change_timeout, expected_group_change_timeouts]

lemma expected_owner_change_timeouts_started (w : World) (change : Nat) (c : OwnerChange)
    (hslot : w.details.owner_change = some change)
    (hl : w.owner_changes.lookup change = some c) (ht : c.timeout = 0) :
    expected_owner_change_timeouts w = [] := by
  simp [expected_owner_change_timeouts, hslot, hl, ht]

lemma schedule_owner_change_timeout_consistent (env : FileEnv) (w : World) (id change : Nat)
    (h : changes_consistent w)
    (hmem : (id, SourceFunc.schedule_owner_change_timeout change) ∈ w.main.sources) :
    changes_consistent
      (source_fired env w (id, SourceFunc.schedule_owner_change_timeout change)) := by
  have hnd := changes_consistent_nodup h
  have hb := changes_consistent_bounded h
  have howner := changes_consistent_owner h
  have hgroup := changes_consistent_group h
  have hin : (id, SourceFunc.schedule_owner_change_timeout change) ∈ owner_change_timeouts w :=
    List.mem_filter.2 ⟨hmem, rfl⟩
  have hother : (g_source_remove w.main id).sources.filter is_group_change_timeout =
      w.main.sources.filter is_group_change_timeout :=
    filter_kind_remove_other w.main.sources is_group_change_timeout id _ hnd hmem rfl
  rw [howner] at hin
  unfold expected_owner_change_timeouts at hin howner
  cases hslot : w.details.owner_change with
  | none =>
    rw [hslot] at hin
    cases hin
  | some slot =>
    rw [hslot] at hin howner
    simp only at hin howner
    cases hl : w.owner_changes.lookup slot with
    | none =>
      rw [hl] at hin
      cases hin
    | some c =>
      rw [hl] at hin howner
      simp only at hin howner
      by_cases ht : c.timeout = 0
      · simp only [ht, if_true] at hin
        cases hin
      · simp only [ht, if_false, List.mem_singleton, Prod.mk.injEq,
          SourceFunc.schedule_owner_change_timeout.injEq] at hin howner
        obtain ⟨hid, hchange⟩ := hin
        subst hchange
        have hremoved := owner_change_timeouts_removed w _ _ howner
        rw [← hid] at hremoved
        simp only [source_fired, schedule_owner_change_timeout, hl]
        refine changes_consistent_intro_owner (g_source_remove_nodup w.main id hnd)
          (g_source_remove_bounded w.main id hb) ?_ (hother.trans hgroup)
        show (g_source_remove w.main id).sources.filter is_owner_change_timeout = _
        rw [hremoved]
        have hlm : List.lookup change (w.owner_changes.map
            (fun e => if e.1 = change then (e.1, { e.2 with timeout := 0 }) else e)) =
            some { c with timeout := 0 } := by
          rw [lookup_map_update w.owner_changes change change
            (fun c => { c with timeout := 0 }), hl]
          simp
        apply Eq.symm
        apply expected_owner_change_timeouts_started _ change _ _ hlm rfl
        exact hslot

lemma owner_change_callback_consistent (w : World) (change : Nat) (c : OwnerChange)
    (h : changes_consistent w) (hl : w.owner_changes.lookup change = some c)
    (ht : c.timeout = 0) :
    changes_consistent (owner_change_callback w change) := by
  have hnd := changes_consistent_nodup h
  have hb := changes_consistent_bounded h
  have howner := changes_consistent_owner h
  have hgroup := changes_consistent_group h
  have hexp : expected_owner_change_timeouts (owner_change_callback w change) =
      expected_owner_change_timeouts w := by
    unfold owner_change_callback
    simp only [hl]
    cases hslot : w.details.owner_change with
    | none =>
      cases c.cancelled <;>
        simp [expected_owner_change_timeouts, hslot, owner_change_free]
    | some slot =>
      by_cases hs : slot = change
      · subst hs
        cases c.cancelled <;>
          simp [expected_owner_change_timeouts, hslot, owner_change_free, hl, ht]
      · cases c.cancelled <;>
          simp [expected_owner_change_timeouts, hslot, owner_change_free, hs,
            lookup_filter_ne _ _ _ hs]
  have hsources : (owner_change_callback w change).main = w.main := by
    unfold owner_change_callback
    simp only [hl]
    (repeat' split) <;> rfl
  have hgroupexp : expected_group_change_timeouts (owner_change_callback w change) =
      expected_group_change_timeouts w := by
    unfold owner_change_callback
    simp only [hl]
    (repeat' split) <;> rfl
  refine changes_consistent_intro_owner ?_ ?_ ?_ ?_
  · rw [hsources]; exact hnd
  · rw [hsources]; exact hb
  · rw [hexp]
    unfold owner_change_timeouts
    rw [hsources]
    exact howner
  · rw [hgroupexp]
    unfold group_change_timeouts
    rw [hsources]
    exact hgroup

/-! ### Runs of the change flow -/

lemma changed_group_callback_consistent (env : FileEnv) (w : World) (group : Option String)
    (file : NautilusFile) (h : changes_consistent w) :
    changes_consistent (changed_group_callback env w group file) := by
  unfold changed_group_callback
  simp only
  split
  · exact h
  · split
    · obtain ⟨h1, h2⟩ := unschedule_or_cancel_group_change_consistent w h
      exact schedule_group_change_consistent _ _ _ h1
        (unschedule_or_cancel_group_change_slot w) h2
    · exact h

lemma changed_owner_callback_consistent (env : FileEnv) (w : World)
    (new_owner : Option String) (file : NautilusFile) (h : changes_consistent w) :
    changes_consistent (changed_owner_callback env w new_owner file) := by
  unfold changed_owner_callback
  split
  · exact h
  · simp only
    split
    · obtain ⟨h1, h2⟩ := unschedule_or_cancel_owner_change_consistent w h
      exact schedule_owner_change_consistent _ _ _ h1
        (unschedule_or_cancel_owner_change_slot w) h2
    · exact h

lemma change_step_consistent (env : FileEnv) (w w' : World) (event : WindowEvent)
    (hevent : is_change_event event = true) (henabled : change_event_enabled w event = true)
    (hstep : window_step env w event = some w') (h : changes_consistent w) :
    changes_consistent w' := by
  cases event with
  | file_changed file => cases hevent
  | deep_count_in_progress file => cases hevent
  | timeout source =>
    obtain ⟨id, func⟩ := source
    simp only [window_step] at hstep
    split at hstep
    · rename_i hmem
      simp only [Option.some.injEq] at hstep
      rw [← hstep]
      cases func with
      | update_files_callback => cases hevent
      | update_directory_contents_callback => cases hevent
      | start_spinner_callback => cases hevent
      | schedule_group_change_timeout change =>
        exact schedule_group_change_timeout_consistent env w id change h hmem
      | schedule_owner_change_timeout change =>
        exact schedule_owner_change_timeout_consistent env w id change h hmem
    · simp only [Option.some.injEq] at hstep
      rw [← hstep]; exact h
  | group_combo_changed group file =>
    simp only [window_step, Option.some.injEq] at hstep
    rw [← hstep]; exact changed_group_callback_consistent env w group file h
  | group_change_done change =>
    simp only [window_step, Option.some.injEq] at hstep
    rw [← hstep]
    simp only [change_event_enabled] at henabled
    cases hl : w.group_changes.lookup change with
    | none => rw [hl] at henabled; cases henabled
    | some c =>
      rw [hl] at henabled
      exact group_change_callback_consistent w change c h hl (by simpa using henabled)
  | name_field_update => cases hevent
  | name_field_done => cases hevent
  | icon_dropped data => cases hevent
  | icon_chosen uri => cases hevent
  | destroy => cases hevent
  | owner_combo_changed new_owner file =>
    simp only [window_step, Option.some.injEq] at hstep
    rw [← hstep]; exact changed_owner_callback_consistent env w new_owner file h
  | owner_change_done change =>
    simp only [window_step, Option.some.injEq] at hstep
    rw [← hstep]
    simp only [change_event_enabled] at henabled
    cases hl : w.owner_changes.lookup change with
    | none => rw [hl] at henabled; cases henabled
    | some c =>
      rw [hl] at henabled
      exact owner_change_callback_consistent w change c h hl (by simpa using henabled)

lemma change_run_consistent :
    ∀ (events : List (FileEnv × WindowEvent)) (w w' : World),
      change_run events w = some w' → changes_consistent w →
      window_run events w = some w' ∧ changes_consistent w' := by
  intro events
  induction events with
  | nil =>
    intro w w' h hc
    simp only [change_run, Option.some.injEq] at h
    rw [← h]; exact ⟨rfl, hc⟩
  | cons e es ih =>
    intro w w' h hc
    obtain ⟨env, event⟩ := e
    simp only [change_run] at h
    split at h
    · rename_i hok
      simp only [Bool.and_eq_true] at hok
      cases hstep : window_step env w event with
      | none => rw [hstep] at h; cases h
      | some w1 =>
        rw [hstep] at h
        simp only at h
        obtain ⟨hrun, hc'⟩ := ih w1 w' h
          (change_step_consistent env w w1 event hok.1 hok.2 hstep hc)
        refine ⟨?_, hc'⟩
        simp only [window_run, hstep]
        exact hrun
    · cases h

/-- While the main context and the slots agree, at most one group change timeout
and at most one owner change timeout are pending. -/
lemma changes_consistent_at_most_one (w : World) (h : changes_consistent w) :
    (group_change_timeouts w).length ≤ 1 ∧ (owner_change_timeouts w).length ≤ 1 := by
  constructor
  · rw [changes_consistent_group h]
    unfold expected_group_change_timeouts
    (repeat' split) <;> simp
  · rw [changes_consistent_owner h]
    unfold expected_owner_change_timeouts
    (repeat' split) <;> simp

/-! ## Theorems: the assertions of the change flow -/

/-- C29: the assertions of `schedule_group_change` and `schedule_owner_change`
never fail.  In every state `w` that a window without a failed assertion reaches by
events, no assertion has failed, although `schedule_group_change` and
`schedule_owner_change` do record a failure when they are called with a slot that
is not NULL: at their calls `unschedule_or_cancel_group_change` and
`unschedule_or_cancel_owner_change` have emptied the slot.  And when the run
consists of combo changes, expiries of change timeouts and ends of started
operations, from a state in which the pending change timeouts are those of the two
slots, then at most one group change timeout and at most one owner change timeout
are pending in `w`. -/
theorem change_assertions_never_fail (w0 w : World) (events : List (FileEnv × WindowEvent))
    (h0 : w0.failed_asserts = []) (hrun : window_run events w0 = some w) :
    w.failed_asserts = [] ∧
    (∀ (w1 : World) (file : NautilusFile) (group : String),
      w1.details.group_change ≠ none →
      (schedule_group_change w1 file group).failed_asserts =
        w1.failed_asserts ++ ["window->details->group_change == NULL"]) ∧
    (∀ (w1 : World) (file : NautilusFile) (owner : String),
      w1.details.owner_change ≠ none →
      (schedule_owner_change w1 file owner).failed_asserts =
        w1.failed_asserts ++ ["window->details->owner_change == NULL"]) ∧
    (∀ w1 : World, (unschedule_or_cancel_group_change w1).details.group_change = none) ∧
    (∀ w1 : World, (unschedule_or_cancel_owner_change w1).details.owner_change = none) ∧
    (changes_consistent w0 → change_run events w0 = some w →
      (group_change_timeouts w).length ≤ 1 ∧ (owner_change_timeouts w).length ≤ 1) := by
  refine ⟨((window_run_core_step events w0 w hrun).1).trans h0, ?_, ?_,
    unschedule_or_cancel_group_change_slot, unschedule_or_cancel_owner_change_slot, ?_⟩
  · intro w1 file group hslot
    simp [schedule_group_change, g_assert, hslot]
  · intro w1 file owner hslot
    simp [schedule_owner_change, g_assert, hslot]
  · intro hc hchange
    exact changes_consistent_at_most_one w (change_run_consistent events w0 w hchange hc).2

/-- Witness of C29: on the window of file 1 the group combo changes twice, the
change timeout fires, the owner combo changes, the group combo changes again and
the cancelled group operation ends.  No assertion has failed, and one group change
timeout and one owner change timeout are pending. -/
theorem change_assertions_never_fail_witness :
    (one_file_window.failed_asserts = [] ∧
      window_run change_events one_file_window = some change_events_result ∧
      changes_consistent one_file_window ∧
      change_run change_events one_file_window = some change_events_result) ∧
    change_events_result.failed_asserts = [] ∧
    change_events_result.main.sources =
      [(3, SourceFunc.schedule_owner_change_timeout 3),
       (4, SourceFunc.schedule_group_change_timeout 4)] ∧
    (group_change_timeouts change_events_result).length ≤ 1 ∧
    (owner_change_timeouts change_events_result).length ≤ 1 :=
  ⟨⟨rfl, by decide, (changes_consistent_intro_group List.nodup_nil (fun s hs => by cases hs) rfl rfl), by decide⟩,
    (change_assertions_never_fail one_file_window change_events_result change_events rfl
      (by decide)).1,
    by decide,
    (change_assertions_never_fail one_file_window change_events_result change_events rfl
      (by decide)).2.2.2.2.2
      (changes_consistent_intro_group List.nodup_nil (fun s hs => by cases hs) rfl rfl) (by decide)⟩

end Nautilus
